import Mathlib

/-!
# Shallow embedding of the mcp-proxmox permission-gated dispatch layer

This file embeds the core of `src/index.js` (the `ProxmoxServer` class):
identifier validators, the permission gate, the per-operation handlers and
the tool dispatcher.  Handlers run in a small effect monad `M` that threads
the list of Request Transport calls issued so far (the "trace") and models
thrown JavaScript exceptions by an `Except String` layer; `try`/`catch`
blocks in the source become `tryCatchE`.

Modelling conventions (stated once, used throughout):
* JavaScript strings are Lean `String`s; `s.length` counts characters
  (identical to UTF-16 length on the ASCII data the validators constrain).
* JavaScript numbers (IEEE doubles) are modelled as exact rationals.
* The Request Transport (the `proxmoxRequest` method together with `fetch`)
  is an external collaborator per the specification; it is modelled as an
  oracle `Transport` mapping (path, method, body) to decoded JSON `data`
  or a thrown error message.  Every call is recorded in the trace.
* JavaScript objects are ordered string-keyed association lists; property
  update keeps the position of an existing key and appends a new key,
  matching JS insertion-order semantics for non-index keys.
-/

/-- A decoded JSON / JavaScript runtime value (doubles as exact rationals). -/
inductive JVal where
  | undef : JVal
  | null : JVal
  | bool : Bool → JVal
  | num : ℚ → JVal
  | str : String → JVal
  | arr : List JVal → JVal
  | obj : List (String × JVal) → JVal
deriving Inhabited

/-- One outbound Request Transport call: path, HTTP method, optional body. -/
structure Req where
  path : String
  method : String
  body : Option JVal
deriving Inhabited

/-- The trace of transport calls issued so far during one tool call. -/
abbrev Trace := List Req

/-- Transport oracle: abstract capability performing the authenticated
HTTP call of `proxmoxRequest` and returning the decoded `data` field, or
the error message thrown by `proxmoxRequest` on any transport failure. -/
abbrev Transport := String → String → Option JVal → Except String JVal

/-- Handler effect monad: threads the transport-call trace and models
thrown JS exceptions (carrying `error.message`). -/
def M (α : Type) : Type := Trace → Except String α × Trace

/-- `pure` for `M`. -/
def Mpure {α : Type} (a : α) : M α := fun tr => (Except.ok a, tr)

/-- `bind` for `M`. -/
def Mbind {α β : Type} (x : M α) (f : α → M β) : M β := fun tr =>
  match x tr with
  | (Except.ok a, tr') => f a tr'
  | (Except.error e, tr') => (Except.error e, tr')

instance : Monad M where
  pure := Mpure
  bind := Mbind

/-- `throw` in `M`: a JS `throw new Error(msg)`. -/
def throwM {α : Type} (msg : String) : M α := fun tr => (Except.error msg, tr)

/-- Lift a validator result (`Except`) into `M`; validator failures are
thrown exceptions in the source. -/
def liftE {α : Type} (x : Except String α) : M α := fun tr => (x, tr)

/-- A JS `try { body } catch (error) { return handler(error.message) }`
around a handler body. -/
def tryCatchE {α : Type} (body : M α) (handler : String → α) : M α := fun tr =>
  match body tr with
  | (Except.ok v, tr') => (Except.ok v, tr')
  | (Except.error e, tr') => (Except.ok (handler e), tr')

/-- Issue one transport call: records the request in the trace, then
returns the transport result (or propagates its thrown error). -/
def sendReq (t : Transport) (path method : String) (body : Option JVal) : M JVal :=
  fun tr =>
    (t path method body, tr ++ [⟨path, method, body⟩])

/-- One `{type: 'text', text: …}` content item of an output envelope. -/
structure ContentItem where
  type : String
  text : String
deriving DecidableEq

/-- The uniform result shape of every handler (`content`, optional `isError`). -/
structure OutputEnvelope where
  content : List ContentItem
  isError : Option Bool
deriving DecidableEq

/-- The common `{ content: [{ type: 'text', text }] }` envelope (no `isError`). -/
def textEnv (s : String) : OutputEnvelope := ⟨[⟨"text", s⟩], none⟩

/-- Process-wide permission policy, set once at startup from
`PROXMOX_ALLOW_ELEVATED` and never mutated (the Permission Gate). -/
structure ServerCfg where
  allowElevated : Bool

/-! ## JavaScript value helpers -/

/-- JS property access `v[k]` on a decoded value: the last binding of `k`
wins, missing keys and non-objects give `undefined`. -/
def jget (v : JVal) (k : String) : JVal :=
  match v with
  | JVal.obj fs => (fs.foldl (fun acc p => if p.1 = k then some p.2 else acc) none).getD JVal.undef
  | _ => JVal.undef

/-- JS `for (const x of v)` iteration: the elements when `v` is an array. -/
def jarr (v : JVal) : List JVal :=
  match v with
  | JVal.arr l => l
  | _ => []

/-- JS truthiness (`undefined`, `null`, `false`, `0`, `''` are falsy). -/
def jsTruthy : JVal → Bool
  | JVal.undef => false
  | JVal.null => false
  | JVal.bool b => b
  | JVal.num q => q != 0
  | JVal.str s => s ≠ ""
  | JVal.arr _ => true
  | JVal.obj _ => true

/-- Numeric coercion used where the source arithmetically combines a field
that its own truthiness guard has already established to be a number. -/
def jsNum : JVal → ℚ
  | JVal.num q => q
  | JVal.bool b => if b then 1 else 0
  | _ => 0

mutual
/-- JS template-literal conversion of a value to a string. -/
def jsTmpl : JVal → String
  | JVal.undef => "undefined"
  | JVal.null => "null"
  | JVal.bool b => if b then "true" else "false"
  | JVal.num q => if q.den = 1 then q.num.repr else q.num.repr ++ "/" ++ q.den.repr
  | JVal.str s => s
  | JVal.arr l => jsTmplList l
  | JVal.obj _ => "[object Object]"

/-- JS `Array.prototype.toString`: elements joined with commas. -/
def jsTmplList : List JVal → String
  | [] => ""
  | [v] => jsTmpl v
  | v :: rest => jsTmpl v ++ "," ++ jsTmplList rest
end

/-- `${v || d}` on a decoded value (JS `||` falls back on falsy values). -/
def jsOrTmpl (v : JVal) (d : String) : String :=
  if jsTruthy v then jsTmpl v else d

/-- `${x}` where `x` is an argument that may be `undefined`. -/
def tmplOpt (o : Option String) : String :=
  match o with
  | some s => s
  | none => "undefined"

/-- `x || d` for a possibly-undefined string argument (empty string is falsy). -/
def orStr (o : Option String) (d : String) : String :=
  match o with
  | some s => if s = "" then d else s
  | none => d

/-- `x || d` for a possibly-undefined numeric argument (0 is falsy). -/
def orNum (o : Option Int) (d : Int) : Int :=
  match o with
  | some n => if n = 0 then d else n
  | none => d

/-- Computed object key `[x]` where `x` may be `undefined`. -/
def optKey (o : Option String) : String := tmplOpt o

/-! ## String helpers -/

/-- Whether the pattern `p` occurs contiguously inside `s` (character lists). -/
def containsChars (s : List Char) (p : List Char) : Bool :=
  match s with
  | [] => p.isEmpty
  | _ :: t => p.isPrefixOf s || containsChars t p

/-- Whether the pattern string occurs as a substring. -/
def mentions (s pat : String) : Bool := containsChars s.data pat.data

/-- Worker for `jsSplitChar`: accumulates the current field in reverse. -/
def jsSplitCharAux (sep : Char) : List Char → List Char → List String
  | [], acc => [String.mk acc.reverse]
  | c :: rest, acc =>
    if c = sep then String.mk acc.reverse :: jsSplitCharAux sep rest []
    else jsSplitCharAux sep rest (c :: acc)

/-- JS `String.prototype.split` with a single-character separator. -/
def jsSplitChar (sep : Char) (s : String) : List String :=
  jsSplitCharAux sep s.data []

/-- Join with a separator string (JS `Array.prototype.join`). -/
def joinSep (sep : String) : List String → String
  | [] => ""
  | [s] => s
  | s :: rest => s ++ sep ++ joinSep sep rest

/-- Left-pad a decimal string with zeros up to width `d`. -/
def padZeros (d : Nat) (s : String) : String :=
  String.mk (List.replicate (d - s.length) '0') ++ s

/-- Strip trailing zeros after a decimal point, then a trailing point:
models JS `parseFloat(x.toFixed(2))` re-stringification for the values
produced by `formatBytes`. -/
def stripTrailingZeros (s : String) : String :=
  if (mentions s ".").not then s else
  let l := s.data.reverse.dropWhile (fun c => c = '0')
  let l := match l with
    | '.' :: rest => rest
    | _ => l
  String.mk l.reverse

/-- Exact-decimal rendering of `toFixed(d)` (doubles modelled as exact
rationals; ties round away from the smaller value as in decimal rounding). -/
def qToFixed (d : Nat) (q : ℚ) : String :=
  let scaled : Int := round (q * ((10 : ℚ) ^ d))
  let neg := scaled < 0
  let m := scaled.natAbs
  let ip := m / 10 ^ d
  let fp := m % 10 ^ d
  (if neg then "-" else "") ++
    (if d = 0 then Nat.repr ip else Nat.repr ip ++ "." ++ padZeros d (Nat.repr fp))

/-- Embedding of `formatBytes` (src/index.js lines 3132-3138): binary-prefixed
size rendering.  `Math.floor(Math.log b / Math.log 1024)` for an integer-valued
positive byte count is the base-1024 logarithm `Nat.log`. -/
def formatBytes (q : ℚ) : String :=
  if q = 0 then "0 B"
  else
    let i := Nat.log 1024 q.floor.natAbs
    let v := q / ((1024 : ℚ) ^ i)
    stripTrailingZeros (qToFixed 2 v) ++ " " ++
      ((["B", "KB", "MB", "GB", "TB"].get? i).getD "undefined")

/-- Embedding of `formatUptime` (src/index.js lines 3118-3130). -/
def formatUptime (seconds : ℚ) : String :=
  let days : Int := (seconds / 86400).floor
  let hours : Int := (((seconds.floor % 86400 : Int) : ℚ) / 3600).floor
  let minutes : Int := (((seconds.floor % 3600 : Int) : ℚ) / 60).floor
  if 0 < days then days.repr ++ "d " ++ hours.repr ++ "h " ++ minutes.repr ++ "m"
  else if 0 < hours then hours.repr ++ "h " ++ minutes.repr ++ "m"
  else minutes.repr ++ "m"

/-- The external `Date.toLocaleString` rendering of an epoch-milliseconds
value: locale-dependent presentation glue outside the verified core, modelled
as a fixed deterministic rendering of the timestamp. -/
def jsLocaleDate (ms : ℚ) : String :=
  "[date " ++ ms.num.repr ++ "]"

/-! ## `parseInt` and the identifier validators -/

/-- JS whitespace accepted by `parseInt` (ASCII portion). -/
def isJsSpace (c : Char) : Bool :=
  c = ' ' || c = '\t' || c = '\n' || c = '\r' || c = '\x0b' || c = '\x0c'

/-- Decimal value of the maximal leading digit run (`foldl` accumulation). -/
def valDigits (l : List Char) : Nat :=
  l.foldl (fun a c => 10 * a + (c.toNat - 48)) 0

/-- ECMAScript `parseInt(s, 10)`: skip leading whitespace, optional sign,
then the maximal run of decimal digits; `none` is `NaN` (no digits). -/
def jsParseInt10 (s : String) : Option Int :=
  let cs := s.data.dropWhile isJsSpace
  let sc : Int × List Char :=
    match cs with
    | c :: t => if c = '-' then (-1, t) else if c = '+' then (1, t) else (1, c :: t)
    | [] => (1, [])
  let ds := sc.2.takeWhile Char.isDigit
  if ds.isEmpty then none else some (sc.1 * (valDigits ds : Int))

/-- JS `Number.prototype.toString` for the integers the validator can return. -/
def intRepr (i : Int) : String :=
  if i < 0 then "-" ++ Nat.repr i.natAbs else Nat.repr i.toNat

/-- Embedding of `validateNodeName` (src/index.js lines 67-79).  The tool
schemas declare `node` as a string, so the argument is `Option String`
(`none` is an absent/`undefined` argument, caught by the `!node` check). -/
def validateNodeName (node : Option String) : Except String String :=
  match node with
  | none => Except.error "Node name is required and must be a string"
  | some s =>
    if s = "" then Except.error "Node name is required and must be a string"
    else if (s.data.all (fun c => c.isAlphanum || c = '-' || c = '_')).not then
      Except.error "Invalid node name format. Only alphanumeric, hyphens, and underscores allowed"
    else if 64 < s.length then Except.error "Node name too long (max 64 characters)"
    else Except.ok s

/-- Embedding of `validateVMID` (src/index.js lines 81-90): `parseInt` then
a range check, returning the re-stringified integer. -/
def validateVMID (vmid : Option String) : Except String String :=
  match vmid with
  | none => Except.error "VM ID is required"
  | some s =>
    if s = "" then Except.error "VM ID is required"
    else
      match jsParseInt10 s with
      | none => Except.error "Invalid VM ID. Must be a number between 100 and 999999999"
      | some id =>
        if id < 100 || 999999999 < id then
          Except.error "Invalid VM ID. Must be a number between 100 and 999999999"
        else Except.ok (intRepr id)

/-- The shell metacharacters rejected by `validateCommand`. -/
def dangerousChars : List Char :=
  [';', '&', '|', '`', '$', '(', ')', '\x7b', '\x7d', '[', ']', '<', '>', '\\']

/-- Embedding of `validateCommand` (src/index.js lines 92-109). -/
def validateCommand (command : Option String) : Except String String :=
  match command with
  | none => Except.error "Command is required and must be a string"
  | some s =>
    if s = "" then Except.error "Command is required and must be a string"
    else if s.data.any (fun c => dangerousChars.contains c) then
      Except.error "Command contains potentially dangerous characters: ; & | ` $ ( ) \x7b \x7d [ ] < > \\"
    else if 1000 < s.length then
      Except.error "Command exceeds maximum allowed length (1000 characters)"
    else Except.ok s


/-- Uppercase over the character list (JS `toUpperCase` on ASCII data);
structurally recursive so concrete runs reduce in the kernel. -/
def jsToUpper (s : String) : String := String.mk (s.data.map Char.toUpper)

/-- Insert into a sorted list after every element the comparator keeps
first (stable insertion). -/
def insertSorted {α : Type} (le : α → α → Bool) (a : α) : List α → List α
  | [] => [a]
  | b :: t => if le b a then b :: insertSorted le a t else a :: b :: t

/-- JS `Array.prototype.sort` with a comparator, modelled as a stable
sort (modern engines guarantee stability). -/
def jsSortBy {α : Type} (le : α → α → Bool) (l : List α) : List α :=
  l.foldl (fun acc a => insertSorted le a acc) []

/-! ## Object update helpers (JS ordered-object semantics) -/

/-- The fields of an object value (`...v` spread source). -/
def jfields (v : JVal) : List (String × JVal) :=
  match v with
  | JVal.obj fs => fs
  | _ => []

/-- Set key `k` to `v`: updates an existing key in place, else appends
(JS object-literal / assignment ordering). -/
def objSet (fs : List (String × JVal)) (k : String) (v : JVal) : List (String × JVal) :=
  if fs.any (fun p => p.1 = k) then fs.map (fun p => if p.1 = k then (k, v) else p)
  else fs ++ [(k, v)]

/-- Strict equality of a decoded value against a string literal. -/
def jeqStr (v : JVal) (s : String) : Bool :=
  match v with
  | JVal.str t => t = s
  | _ => false

/-! ## Read-only handlers -/

/-- `node.loadavg?.[0]?.toFixed(2) || 'N/A'` in `getNodes`. -/
def loadavgTmpl (v : JVal) : String :=
  match v with
  | JVal.arr (JVal.num q :: _) => qToFixed 2 q
  | _ => "N/A"

/-- The per-node chunk appended by the `getNodes` loop
(src/index.js lines 1091-1104). -/
def getNodesEntry (node : JVal) : String :=
  let status := if jeqStr (jget node "status") "online" then "🟢" else "🔴"
  let uptime := if jsTruthy (jget node "uptime") then formatUptime (jsNum (jget node "uptime")) else "N/A"
  let cpuUsage := if jsTruthy (jget node "cpu") then qToFixed 1 (jsNum (jget node "cpu") * 100) ++ "%" else "N/A"
  let memUsage :=
    if jsTruthy (jget node "mem") && jsTruthy (jget node "maxmem") then
      formatBytes (jsNum (jget node "mem")) ++ " / " ++ formatBytes (jsNum (jget node "maxmem")) ++
        " (" ++ qToFixed 1 (jsNum (jget node "mem") / jsNum (jget node "maxmem") * 100) ++ "%)"
    else "N/A"
  status ++ " **" ++ jsTmpl (jget node "node") ++ "**\n" ++
    "   • Status: " ++ jsTmpl (jget node "status") ++ "\n" ++
    "   • Uptime: " ++ uptime ++ "\n" ++
    "   • CPU: " ++ cpuUsage ++ "\n" ++
    "   • Memory: " ++ memUsage ++ "\n" ++
    "   • Load: " ++ loadavgTmpl (jget node "loadavg") ++ "\n\n"

/-- Embedding of `getNodes` (src/index.js lines 1086-1109); never consults
the permission gate. -/
def getNodes (_cfg : ServerCfg) (t : Transport) : M OutputEnvelope := do
  let nodes ← sendReq t "/nodes" "GET" none
  let output := (jarr nodes).foldl (fun acc node => acc ++ getNodesEntry node)
    "🖥️  **Proxmox Cluster Nodes**\n\n"
  pure (textEnv output)

/-- `status.loadavg?.join(', ') || 'N/A'` in `getNodeStatus`. -/
def loadavgJoin (v : JVal) : String :=
  match v with
  | JVal.arr l => let s := joinSep ", " (l.map jsTmpl); if s = "" then "N/A" else s
  | _ => "N/A"

/-- Embedding of `getNodeStatus` (src/index.js lines 1111-1148): an
elevated-gated read. -/
def getNodeStatus (cfg : ServerCfg) (t : Transport) (node : Option String) : M OutputEnvelope :=
  if cfg.allowElevated then
    tryCatchE
      (do
        let safeNode ← liftE (validateNodeName node)
        let status ← sendReq t ("/nodes/" ++ safeNode ++ "/status") "GET" none
        let output :=
          "🖥️  **Node " ++ safeNode ++ " Status**\n\n" ++
          "• **Status**: " ++ (if jsTruthy (jget status "uptime") then "🟢 Online" else "🔴 Offline") ++ "\n" ++
          "• **Uptime**: " ++ (if jsTruthy (jget status "uptime") then formatUptime (jsNum (jget status "uptime")) else "N/A") ++ "\n" ++
          "• **Load Average**: " ++ loadavgJoin (jget status "loadavg") ++ "\n" ++
          "• **CPU Usage**: " ++ (if jsTruthy (jget status "cpu") then qToFixed 1 (jsNum (jget status "cpu") * 100) ++ "%" else "N/A") ++ "\n" ++
          "• **Memory**: " ++
            (if jsTruthy (jget status "memory") then
              formatBytes (jsNum (jget (jget status "memory") "used")) ++ " / " ++
              formatBytes (jsNum (jget (jget status "memory") "total")) ++ " (" ++
              qToFixed 1 (jsNum (jget (jget status "memory") "used") / jsNum (jget (jget status "memory") "total") * 100) ++ "%)"
            else "N/A") ++ "\n" ++
          "• **Root Disk**: " ++
            (if jsTruthy (jget status "rootfs") then
              formatBytes (jsNum (jget (jget status "rootfs") "used")) ++ " / " ++
              formatBytes (jsNum (jget (jget status "rootfs") "total")) ++ " (" ++
              qToFixed 1 (jsNum (jget (jget status "rootfs") "used") / jsNum (jget (jget status "rootfs") "total") * 100) ++ "%)"
            else "N/A") ++ "\n"
        pure (textEnv output))
      (fun msg => textEnv ("❌ **Failed to get node status**\n\nError: " ++ msg))
  else
    Mpure (textEnv "⚠️  **Node Status Requires Elevated Permissions**\n\nTo view detailed node status, set `PROXMOX_ALLOW_ELEVATED=true` in your .env file and ensure your API token has Sys.Audit permissions.\n\n**Current permissions**: Basic (node listing only)")

/-- `{ ...vm, type, node }` tagging in `getVMs` (spread then override). -/
def tagVM (vm : JVal) (ty : String) (nodeV : JVal) : JVal :=
  JVal.obj (objSet (objSet (jfields vm) "type" (JVal.str ty)) "node" nodeV)

/-- LXC tagging in the fan-out branch of `getVMs`: `node: vm.node || node.node`. -/
def tagLXCFan (vm : JVal) (nodeV : JVal) : JVal :=
  tagVM vm "lxc" (if jsTruthy (jget vm "node") then jget vm "node" else nodeV)

/-- The sort key of `vms.sort((a, b) => parseInt(a.vmid) - parseInt(b.vmid))`
(a `NaN` key, which gives an unspecified comparison in JS, is modelled as 0). -/
def vmSortKey (v : JVal) : Int :=
  (jsParseInt10 (jsTmpl (jget v "vmid"))).getD 0

/-- The per-VM chunk appended by the `getVMs` output loop
(src/index.js lines 1184-1202). -/
def getVMsEntry (vm : JVal) : String :=
  let status := if jeqStr (jget vm "status") "running" then "🟢"
    else if jeqStr (jget vm "status") "stopped" then "🔴" else "🟡"
  let typeIcon := if jeqStr (jget vm "type") "qemu" then "🖥️" else "📦"
  let uptime := if jsTruthy (jget vm "uptime") then formatUptime (jsNum (jget vm "uptime")) else "N/A"
  let cpuUsage := if jsTruthy (jget vm "cpu") then qToFixed 1 (jsNum (jget vm "cpu") * 100) ++ "%" else "N/A"
  let memUsage :=
    if jsTruthy (jget vm "mem") && jsTruthy (jget vm "maxmem") then
      formatBytes (jsNum (jget vm "mem")) ++ " / " ++ formatBytes (jsNum (jget vm "maxmem"))
    else "N/A"
  status ++ " " ++ typeIcon ++ " **" ++
    jsOrTmpl (jget vm "name") ("VM-" ++ jsTmpl (jget vm "vmid")) ++ "** (ID: " ++
    jsTmpl (jget vm "vmid") ++ ")\n" ++
    "   • Node: " ++ jsTmpl (jget vm "node") ++ "\n" ++
    "   • Status: " ++ jsTmpl (jget vm "status") ++ "\n" ++
    "   • Type: " ++ jsToUpper (jsTmpl (jget vm "type")) ++ "\n" ++
    (if jeqStr (jget vm "status") "running" then
      "   • Uptime: " ++ uptime ++ "\n" ++
      "   • CPU: " ++ cpuUsage ++ "\n" ++
      "   • Memory: " ++ memUsage ++ "\n"
    else "") ++ "\n"

/-- The sequential per-node fan-out loop of `getVMs`
(src/index.js lines 1166-1176), accumulating tagged VM records. -/
def getVMsFan (t : Transport) (typeFilter : String) : List JVal → List JVal → M (List JVal)
  | [], vms => Mpure vms
  | node :: rest, vms => do
    let vms ←
      if typeFilter = "all" || typeFilter = "qemu" then do
        let nodeVMs ← sendReq t ("/nodes/" ++ jsTmpl (jget node "node") ++ "/qemu") "GET" none
        Mpure (vms ++ (jarr nodeVMs).map (fun vm => tagVM vm "qemu" (jget node "node")))
      else Mpure vms
    let vms ←
      if typeFilter = "all" || typeFilter = "lxc" then do
        let nodeLXCs ← sendReq t ("/nodes/" ++ jsTmpl (jget node "node") ++ "/lxc") "GET" none
        Mpure (vms ++ (jarr nodeLXCs).map (fun vm => tagLXCFan vm (jget node "node")))
      else Mpure vms
    getVMsFan t typeFilter rest vms

/-- Embedding of `getVMs` (src/index.js lines 1150-1208).  Note the
caller-supplied `nodeFilter` is interpolated into the request path without
`validateNodeName`; never consults the permission gate. -/
def getVMs (_cfg : ServerCfg) (t : Transport) (nodeFilterArg typeArg : Option String) : M OutputEnvelope := do
  let typeFilter := typeArg.getD "all"
  let vms ←
    if (orStr nodeFilterArg "") ≠ "" then do
      let nodeFilter := (orStr nodeFilterArg "")
      let nodeVMs ← sendReq t ("/nodes/" ++ nodeFilter ++ "/qemu") "GET" none
      let nodeLXCs ← sendReq t ("/nodes/" ++ nodeFilter ++ "/lxc") "GET" none
      let vms : List JVal :=
        if typeFilter = "all" || typeFilter = "qemu" then
          (jarr nodeVMs).map (fun vm => tagVM vm "qemu" (JVal.str nodeFilter))
        else []
      let vms :=
        if typeFilter = "all" || typeFilter = "lxc" then
          vms ++ (jarr nodeLXCs).map (fun vm => tagVM vm "lxc" (JVal.str nodeFilter))
        else vms
      Mpure vms
    else do
      let nodes ← sendReq t "/nodes" "GET" none
      getVMsFan t typeFilter (jarr nodes) []
  let output :=
    if vms.length = 0 then "💻 **Virtual Machines**\n\n" ++ "No virtual machines found.\n"
    else
      (jsSortBy (fun a b => decide (vmSortKey a ≤ vmSortKey b)) vms).foldl
        (fun acc vm => acc ++ getVMsEntry vm) "💻 **Virtual Machines**\n\n"
  Mpure (textEnv output)

/-- Embedding of `getVMStatus` (src/index.js lines 1210-1246); its catch
branch is the one envelope in the system carrying `isError: true`. -/
def getVMStatus (_cfg : ServerCfg) (t : Transport) (node vmid typeArg : Option String) : M OutputEnvelope :=
  let type_ := typeArg.getD "qemu"
  tryCatchE
    (do
      let safeNode ← liftE (validateNodeName node)
      let safeVMID ← liftE (validateVMID vmid)
      let vmStatus ← sendReq t ("/nodes/" ++ safeNode ++ "/" ++ type_ ++ "/" ++ safeVMID ++ "/status/current") "GET" none
      let status := if jeqStr (jget vmStatus "status") "running" then "🟢"
        else if jeqStr (jget vmStatus "status") "stopped" then "🔴" else "🟡"
      let typeIcon := if type_ = "qemu" then "🖥️" else "📦"
      let output :=
        status ++ " " ++ typeIcon ++ " **" ++ jsOrTmpl (jget vmStatus "name") ("VM-" ++ safeVMID) ++
          "** (ID: " ++ safeVMID ++ ")\n\n" ++
        "• **Node**: " ++ safeNode ++ "\n" ++
        "• **Status**: " ++ jsTmpl (jget vmStatus "status") ++ "\n" ++
        "• **Type**: " ++ jsToUpper type_ ++ "\n" ++
        (if jeqStr (jget vmStatus "status") "running" then
          "• **Uptime**: " ++ (if jsTruthy (jget vmStatus "uptime") then formatUptime (jsNum (jget vmStatus "uptime")) else "N/A") ++ "\n" ++
          "• **CPU Usage**: " ++ (if jsTruthy (jget vmStatus "cpu") then qToFixed 1 (jsNum (jget vmStatus "cpu") * 100) ++ "%" else "N/A") ++ "\n" ++
          "• **Memory**: " ++
            (if jsTruthy (jget vmStatus "mem") && jsTruthy (jget vmStatus "maxmem") then
              formatBytes (jsNum (jget vmStatus "mem")) ++ " / " ++ formatBytes (jsNum (jget vmStatus "maxmem")) ++
                " (" ++ qToFixed 1 (jsNum (jget vmStatus "mem") / jsNum (jget vmStatus "maxmem") * 100) ++ "%)"
            else "N/A") ++ "\n" ++
          "• **Disk Read**: " ++ (if jsTruthy (jget vmStatus "diskread") then formatBytes (jsNum (jget vmStatus "diskread")) else "N/A") ++ "\n" ++
          "• **Disk Write**: " ++ (if jsTruthy (jget vmStatus "diskwrite") then formatBytes (jsNum (jget vmStatus "diskwrite")) else "N/A") ++ "\n" ++
          "• **Network In**: " ++ (if jsTruthy (jget vmStatus "netin") then formatBytes (jsNum (jget vmStatus "netin")) else "N/A") ++ "\n" ++
          "• **Network Out**: " ++ (if jsTruthy (jget vmStatus "netout") then formatBytes (jsNum (jget vmStatus "netout")) else "N/A") ++ "\n"
        else "")
      Mpure (textEnv output))
    (fun msg => ⟨[⟨"text", "❌ Failed to get VM status: " ++ msg⟩], some true⟩)

/-- Embedding of `executeVMCommand` (src/index.js lines 1248-1301): gated
command execution; the denial text interpolates the requested command. -/
def executeVMCommand (cfg : ServerCfg) (t : Transport) (node vmid command typeArg : Option String) : M OutputEnvelope :=
  let type_ := typeArg.getD "qemu"
  if cfg.allowElevated then
    tryCatchE
      (do
        let safeNode ← liftE (validateNodeName node)
        let safeVMID ← liftE (validateVMID vmid)
        let safeCommand ← liftE (validateCommand command)
        if type_ = "qemu" then do
          let result ← sendReq t ("/nodes/" ++ safeNode ++ "/qemu/" ++ safeVMID ++ "/agent/exec") "POST"
            (some (JVal.obj [("command", JVal.str safeCommand)]))
          Mpure (textEnv ("💻 **Command executed on VM " ++ safeVMID ++ "**\n\n" ++
            "**Command**: `" ++ safeCommand ++ "`\n" ++
            "**Result**: Command submitted to guest agent\n" ++
            "**PID**: " ++ jsOrTmpl (jget result "pid") "N/A" ++ "\n\n" ++
            "*Note: Use guest agent status to check command completion*"))
        else do
          let result ← sendReq t ("/nodes/" ++ safeNode ++ "/lxc/" ++ safeVMID ++ "/exec") "POST"
            (some (JVal.obj [("command", JVal.str safeCommand)]))
          Mpure (textEnv ("📦 **Command executed on LXC " ++ safeVMID ++ "**\n\n" ++
            "**Command**: `" ++ safeCommand ++ "`\n" ++
            "**Output**:\n```\n" ++ jsOrTmpl result "Command executed successfully" ++ "\n```")))
      (fun msg => textEnv ("❌ **Failed to execute command on VM " ++ tmplOpt vmid ++ "**\n\nError: " ++ msg ++
        "\n\n*Note: Make sure the VM has guest agent installed and running*"))
  else
    Mpure (textEnv ("⚠️  **VM Command Execution Requires Elevated Permissions**\n\nTo execute commands on VMs, set `PROXMOX_ALLOW_ELEVATED=true` in your .env file and ensure your API token has appropriate VM permissions.\n\n**Current permissions**: Basic (VM listing only)\n**Requested command**: `" ++ tmplOpt command ++ "`"))

/-- The `seen`-set deduplication of `getStorage` (src/index.js lines 1323-1332). -/
def dedupStorages (l : List JVal) : List JVal :=
  (l.foldl
    (fun (st : List String × List JVal) storage =>
      let key := jsTmpl (jget storage "storage") ++ "-" ++ jsTmpl (jget storage "node")
      if st.1.contains key then st else (st.1 ++ [key], st.2 ++ [storage]))
    ([], [])).2

/-- The per-storage chunk appended by the `getStorage` loop
(src/index.js lines 1334-1347). -/
def getStorageEntry (storage : JVal) : String :=
  let enabled := if jsTruthy (jget storage "enabled") then "🟢" else "🔴"
  let usagePercent :=
    if jsTruthy (jget storage "total") && jsTruthy (jget storage "used") then
      qToFixed 1 (jsNum (jget storage "used") / jsNum (jget storage "total") * 100)
    else "N/A"
  enabled ++ " **" ++ jsTmpl (jget storage "storage") ++ "**\n" ++
    "   • Node: " ++ jsTmpl (jget storage "node") ++ "\n" ++
    "   • Type: " ++ jsOrTmpl (jget storage "type") "N/A" ++ "\n" ++
    "   • Content: " ++ jsOrTmpl (jget storage "content") "N/A" ++ "\n" ++
    (if jsTruthy (jget storage "total") && jsTruthy (jget storage "used") then
      "   • Usage: " ++ formatBytes (jsNum (jget storage "used")) ++ " / " ++
        formatBytes (jsNum (jget storage "total")) ++ " (" ++ usagePercent ++ "%)\n"
    else "") ++
    "   • Status: " ++ (if jsTruthy (jget storage "enabled") then "Enabled" else "Disabled") ++ "\n\n"

/-- The sequential per-node fan-out loop of `getStorage`
(src/index.js lines 1312-1315). -/
def getStorageFan (t : Transport) : List JVal → List JVal → M (List JVal)
  | [], storages => Mpure storages
  | node :: rest, storages => do
    let nodeStorages ← sendReq t ("/nodes/" ++ jsTmpl (jget node "node") ++ "/storage") "GET" none
    getStorageFan t rest
      (storages ++ (jarr nodeStorages).map (fun s => JVal.obj (objSet (jfields s) "node" (jget node "node"))))

/-- Embedding of `getStorage` (src/index.js lines 1303-1353).  The
caller-supplied `nodeFilter` is interpolated unvalidated; never consults
the permission gate. -/
def getStorage (_cfg : ServerCfg) (t : Transport) (nodeFilterArg : Option String) : M OutputEnvelope := do
  let storages ←
    if (orStr nodeFilterArg "") ≠ "" then do
      let nodeFilter := (orStr nodeFilterArg "")
      let ss ← sendReq t ("/nodes/" ++ nodeFilter ++ "/storage") "GET" none
      Mpure ((jarr ss).map (fun s => JVal.obj (objSet (jfields s) "node" (JVal.str nodeFilter))))
    else do
      let nodes ← sendReq t "/nodes" "GET" none
      getStorageFan t (jarr nodes) []
  let output :=
    if storages.length = 0 then "💾 **Storage Pools**\n\n" ++ "No storage found.\n"
    else
      (jsSortBy (fun a b => !(decide (jsTmpl (jget b "storage") < jsTmpl (jget a "storage"))))
          (dedupStorages storages)).foldl
        (fun acc s => acc ++ getStorageEntry s) "💾 **Storage Pools**\n\n"
  Mpure (textEnv output)

/-- The elevated-only resource-summary accumulation of `getClusterStatus`
(src/index.js lines 1380-1390): totals over online nodes. -/
def clusterTotals (nodes : List JVal) : ℚ × ℚ × ℚ × ℚ :=
  nodes.foldl
    (fun (st : ℚ × ℚ × ℚ × ℚ) node =>
      if jeqStr (jget node "status") "online" then
        let maxcpu := if jsTruthy (jget node "maxcpu") then jsNum (jget node "maxcpu") else 0
        let cpu := if jsTruthy (jget node "cpu") then jsNum (jget node "cpu") else 0
        let maxmem := if jsTruthy (jget node "maxmem") then jsNum (jget node "maxmem") else 0
        let mem := if jsTruthy (jget node "mem") then jsNum (jget node "mem") else 0
        (st.1 + maxcpu, st.2.1 + cpu * maxcpu, st.2.2.1 + maxmem, st.2.2.2 + mem)
      else st)
    (0, 0, 0, 0)

/-- Embedding of `getClusterStatus` (src/index.js lines 1355-1420).  Note
it reads the permission gate twice: to attempt `/cluster/status` and to
include the resource summary. -/
def getClusterStatus (cfg : ServerCfg) (t : Transport) : M OutputEnvelope :=
  tryCatchE
    (do
      let nodes ← sendReq t "/nodes" "GET" none
      let _ ←
        if cfg.allowElevated then
          tryCatchE (do let _ ← sendReq t "/cluster/status" "GET" none; Mpure ()) (fun _ => ())
        else Mpure ()
      let onlineNodes := ((jarr nodes).filter (fun n => jeqStr (jget n "status") "online")).length
      let totalNodes := (jarr nodes).length
      let output := "🏗️  **Proxmox Cluster Status**\n\n" ++
        "**Cluster Health**: " ++ (if onlineNodes = totalNodes then "🟢 Healthy" else "🟡 Warning") ++ "\n" ++
        "**Nodes**: " ++ Nat.repr onlineNodes ++ "/" ++ Nat.repr totalNodes ++ " online\n\n"
      let output :=
        if cfg.allowElevated then
          let tot := clusterTotals (jarr nodes)
          let totalCpu := tot.1
          let usedCpu := tot.2.1
          let totalMem := tot.2.2.1
          let usedMem := tot.2.2.2
          let cpuPercent := if 0 < totalCpu then qToFixed 1 (usedCpu / totalCpu * 100) else "N/A"
          let memPercent := if 0 < totalMem then qToFixed 1 (usedMem / totalMem * 100) else "N/A"
          output ++ "**Resource Usage**:\n" ++
            "• CPU: " ++ cpuPercent ++ "% (" ++ qToFixed 1 usedCpu ++ "/" ++ jsTmpl (JVal.num totalCpu) ++ " cores)\n" ++
            "• Memory: " ++ memPercent ++ "% (" ++ formatBytes usedMem ++ "/" ++ formatBytes totalMem ++ ")\n\n"
        else
          output ++ "⚠️  **Limited Information**: Resource usage requires elevated permissions\n\n"
      let output :=
        (jsSortBy (fun a b => !(decide (jsTmpl (jget b "node") < jsTmpl (jget a "node"))))
            (jarr nodes)).foldl
          (fun acc node =>
            acc ++ (if jeqStr (jget node "status") "online" then "🟢" else "🔴") ++ " " ++
              jsTmpl (jget node "node") ++ " - " ++ jsTmpl (jget node "status") ++ "\n")
          (output ++ "**Node Details**:\n")
      Mpure (textEnv output))
    (fun msg => textEnv ("❌ **Failed to get cluster status**\n\nError: " ++ msg))

/-! ## Tool-call arguments -/

/-- The argument object of a tool call, restricted to the fields the
dispatcher reads.  `none` is an absent (`undefined`) argument.  `vlan`
distinguishes `undefined` (`none`), `null` (`some none`) and a number,
because `updateNetworkVM` branches on all three. -/
structure ToolArgs where
  node : Option String
  vmid : Option String
  type_ : Option String
  command : Option String
  storage : Option String
  newid : Option String
  hostname : Option String
  name : Option String
  snapname : Option String
  mode : Option String
  compress : Option String
  archive : Option String
  volume : Option String
  disk : Option String
  size : Option String
  mp : Option String
  net : Option String
  bridge : Option String
  model : Option String
  macaddr : Option String
  ip : Option String
  gw : Option String
  ostemplate : Option String
  password : Option String
  iso : Option String
  net0 : Option String
  ostype : Option String
  disk_size : Option String
  memory : Option Int
  cores : Option Int
  sockets : Option Int
  rootfs : Option Int
  vlan : Option (Option Int)
  firewall : Option Bool
  deleteSource : Option Bool

/-- An argument object with every field absent. -/
def noArgs : ToolArgs :=
  ⟨none, none, none, none, none, none, none, none, none, none, none, none, none,
   none, none, none, none, none, none, none, none, none, none, none, none, none,
   none, none, none, none, none, none, none, none, none⟩

/-- A possibly-absent string argument as a JSON body value. -/
def optJVal (o : Option String) : JVal :=
  match o with
  | some s => JVal.str s
  | none => JVal.undef

/-! ## Remaining handlers -/

/-- Embedding of `listTemplates` (src/index.js lines 1422-1456); the
`storage` argument defaults to `'local'` and is interpolated unvalidated. -/
def listTemplates (_cfg : ServerCfg) (t : Transport) (node storageArg : Option String) : M OutputEnvelope :=
  let storage := storageArg.getD "local"
  tryCatchE
    (do
      let safeNode ← liftE (validateNodeName node)
      let templates ← sendReq t ("/nodes/" ++ safeNode ++ "/storage/" ++ storage ++ "/content?content=vztmpl") "GET" none
      let output := "📦 **Available LXC Templates**\n\n"
      let output :=
        if (jsTruthy templates).not || (jarr templates).length = 0 then
          output ++ "No templates found on storage `" ++ storage ++ "`.\n\n" ++
            "**Tip**: Download templates in Proxmox:\n" ++
            "1. Go to your node → Storage → " ++ storage ++ "\n" ++
            "2. Click \"CT Templates\"\n" ++
            "3. Download a template (e.g., Debian, Ubuntu)\n"
        else
          (jarr templates).foldl
            (fun acc template =>
              acc ++ "• **" ++ jsTmpl (jget template "volid") ++ "**\n" ++
                "  Size: " ++ (if jsTruthy (jget template "size") then formatBytes (jsNum (jget template "size")) else "N/A") ++ "\n\n")
            output
      Mpure (textEnv output))
    (fun msg => textEnv ("❌ **Failed to list templates**\n\nError: " ++ msg ++
      "\n\n**Note**: Make sure the storage exists and contains LXC templates."))

/-- Stand-in for `generateSecurePassword` (src/index.js lines 111-121): the
value is drawn from the external `crypto.randomBytes` entropy source, which
is outside the deterministic core; no claim depends on the generated value. -/
def generateSecurePassword : String := "generated-password"

/-- Embedding of `createLXCContainer` (src/index.js lines 1458-1521). -/
def createLXCContainer (cfg : ServerCfg) (t : Transport) (args : ToolArgs) : M OutputEnvelope :=
  if cfg.allowElevated then
    tryCatchE
      (do
        let safeNode ← liftE (validateNodeName args.node)
        let safeVMID ← liftE (validateVMID args.vmid)
        let generatedPassword := orStr args.password generateSecurePassword
        let isPasswordGenerated := (orStr args.password "") = ""
        let hostname := orStr args.hostname ("ct" ++ safeVMID)
        let memory := orNum args.memory 512
        let storage := orStr args.storage "local-lvm"
        let rootfs := storage ++ ":" ++ (orNum args.rootfs 8).repr
        let body := JVal.obj
          [("vmid", JVal.str safeVMID), ("ostemplate", optJVal args.ostemplate),
           ("hostname", JVal.str hostname), ("password", JVal.str generatedPassword),
           ("memory", JVal.num memory), ("storage", JVal.str storage),
           ("rootfs", JVal.str rootfs)]
        let result ← sendReq t ("/nodes/" ++ safeNode ++ "/lxc") "POST" (some body)
        let output := "✅ **LXC Container Creation Started**\n\n" ++
          "• **VM ID**: " ++ safeVMID ++ "\n" ++
          "• **Hostname**: " ++ hostname ++ "\n" ++
          "• **Node**: " ++ safeNode ++ "\n" ++
          "• **Template**: " ++ tmplOpt args.ostemplate ++ "\n" ++
          "• **Memory**: " ++ jsTmpl (JVal.num memory) ++ " MB\n" ++
          "• **Storage**: " ++ storage ++ "\n" ++
          (if isPasswordGenerated then
            "• **🔐 Generated Password**: `" ++ generatedPassword ++ "`\n" ++
              "  ⚠️ **SAVE THIS PASSWORD** - it will not be shown again!\n"
          else "") ++
          "• **Task ID**: " ++ jsOrTmpl result "N/A" ++ "\n\n" ++
          "**Next steps**:\n" ++
          "1. Wait a moment for container to be created\n" ++
          "2. Start it with `proxmox_start_lxc`\n" ++
          "3. View status with `proxmox_get_vm_status`\n"
        Mpure (textEnv output))
      (fun msg => textEnv ("❌ **Failed to create container**\n\nError: " ++ msg ++
        "\n\n**Common issues**:\n- VM ID already in use\n- Invalid template path\n- Insufficient permissions\n- Storage doesn\x27t exist"))
  else
    Mpure (textEnv "⚠️  **Container Creation Requires Elevated Permissions**\n\nTo create containers, set `PROXMOX_ALLOW_ELEVATED=true` in your .env file and ensure your API token has VM.Allocate permissions.\n\n**Current permissions**: Basic (read-only)")

/-- Embedding of `createVM` (src/index.js lines 1523-1594). -/
def createVM (cfg : ServerCfg) (t : Transport) (args : ToolArgs) : M OutputEnvelope :=
  if cfg.allowElevated then
    tryCatchE
      (do
        let safeNode ← liftE (validateNodeName args.node)
        let safeVMID ← liftE (validateVMID args.vmid)
        let name := orStr args.name ("vm" ++ safeVMID)
        let memory := orNum args.memory 512
        let cores := orNum args.cores 1
        let sockets := orNum args.sockets 1
        let ostype := orStr args.ostype "l26"
        let net0 := orStr args.net0 "virtio,bridge=vmbr0"
        let storage := orStr args.storage "local-lvm"
        let diskSize := orStr args.disk_size "8G"
        let sizeValue := String.mk (diskSize.data.filter Char.isDigit)
        let scsi0 := storage ++ ":" ++ sizeValue
        let baseFields :=
          [("vmid", JVal.str safeVMID), ("name", JVal.str name), ("memory", JVal.num memory),
           ("cores", JVal.num cores), ("sockets", JVal.num sockets), ("ostype", JVal.str ostype),
           ("net0", JVal.str net0), ("scsi0", JVal.str scsi0)]
        let fields :=
          if (orStr args.iso "") ≠ "" then
            baseFields ++ [("ide2", JVal.str (orStr args.iso "" ++ ",media=cdrom")),
                           ("boot", JVal.str "order=ide2;scsi0")]
          else baseFields
        let result ← sendReq t ("/nodes/" ++ safeNode ++ "/qemu") "POST" (some (JVal.obj fields))
        let output := "✅ **QEMU VM Creation Started**\n\n" ++
          "• **VM ID**: " ++ safeVMID ++ "\n" ++
          "• **Name**: " ++ name ++ "\n" ++
          "• **Node**: " ++ safeNode ++ "\n" ++
          "• **Memory**: " ++ jsTmpl (JVal.num memory) ++ " MB\n" ++
          "• **CPU**: " ++ jsTmpl (JVal.num sockets) ++ " socket(s), " ++ jsTmpl (JVal.num cores) ++ " core(s)\n" ++
          "• **Disk**: " ++ scsi0 ++ "\n" ++
          "• **Network**: " ++ net0 ++ "\n" ++
          (if (orStr args.iso "") ≠ "" then "• **ISO**: " ++ tmplOpt args.iso ++ "\n" else "") ++
          "• **Task ID**: " ++ jsOrTmpl result "N/A" ++ "\n\n" ++
          "**Next steps**:\n" ++
          "1. Wait a moment for VM to be created\n" ++
          "2. Start it with `proxmox_start_vm`\n" ++
          "3. View status with `proxmox_get_vm_status`\n"
        Mpure (textEnv output))
      (fun msg => textEnv ("❌ **Failed to create VM**\n\nError: " ++ msg ++
        "\n\n**Common issues**:\n- VM ID already in use\n- Invalid ISO path\n- Insufficient permissions\n- Storage doesn\x27t exist"))
  else
    Mpure (textEnv "⚠️  **VM Creation Requires Elevated Permissions**\n\nTo create VMs, set `PROXMOX_ALLOW_ELEVATED=true` in your .env file and ensure your API token has VM.Allocate permissions.\n\n**Current permissions**: Basic (read-only)")

/-- Embedding of `getNextVMID` (src/index.js lines 1670-1681); ungated. -/
def getNextVMID (_cfg : ServerCfg) (t : Transport) : M OutputEnvelope :=
  tryCatchE
    (do
      let result ← sendReq t "/cluster/nextid" "GET" none
      Mpure (textEnv ("**Next Available VM/Container ID**: " ++ jsTmpl result)))
    (fun msg => textEnv ("❌ **Failed to get next VMID**\n\nError: " ++ msg))

/-- Embedding of `startVM` (src/index.js lines 1596-1631). -/
def startVM (cfg : ServerCfg) (t : Transport) (node vmid : Option String) (type_ : String) : M OutputEnvelope :=
  if cfg.allowElevated then
    tryCatchE
      (do
        let safeNode ← liftE (validateNodeName node)
        let safeVMID ← liftE (validateVMID vmid)
        let result ← sendReq t ("/nodes/" ++ safeNode ++ "/" ++ type_ ++ "/" ++ safeVMID ++ "/status/start") "POST" (some (JVal.obj []))
        Mpure (textEnv ("▶️  **VM/Container Start Command Sent**\n\n" ++
          "• **VM ID**: " ++ safeVMID ++ "\n" ++
          "• **Type**: " ++ jsToUpper type_ ++ "\n" ++
          "• **Node**: " ++ safeNode ++ "\n" ++
          "• **Task ID**: " ++ jsOrTmpl result "N/A" ++ "\n\n" ++
          "**Tip**: Use `proxmox_get_vm_status` to check if it\x27s running.\n")))
      (fun msg => textEnv ("❌ **Failed to start VM/Container**\n\nError: " ++ msg))
  else
    Mpure (textEnv "⚠️  **VM Control Requires Elevated Permissions**\n\nTo start/stop VMs, set `PROXMOX_ALLOW_ELEVATED=true` in your .env file.\n\n**Current permissions**: Basic (read-only)")

/-- Embedding of `stopVM` (src/index.js lines 1633-1668). -/
def stopVM (cfg : ServerCfg) (t : Transport) (node vmid : Option String) (type_ : String) : M OutputEnvelope :=
  if cfg.allowElevated then
    tryCatchE
      (do
        let safeNode ← liftE (validateNodeName node)
        let safeVMID ← liftE (validateVMID vmid)
        let result ← sendReq t ("/nodes/" ++ safeNode ++ "/" ++ type_ ++ "/" ++ safeVMID ++ "/status/stop") "POST" (some (JVal.obj []))
        Mpure (textEnv ("⏹️  **VM/Container Stop Command Sent**\n\n" ++
          "• **VM ID**: " ++ safeVMID ++ "\n" ++
          "• **Type**: " ++ jsToUpper type_ ++ "\n" ++
          "• **Node**: " ++ safeNode ++ "\n" ++
          "• **Task ID**: " ++ jsOrTmpl result "N/A" ++ "\n\n" ++
          "**Tip**: Use `proxmox_get_vm_status` to confirm it\x27s stopped.\n")))
      (fun msg => textEnv ("❌ **Failed to stop VM/Container**\n\nError: " ++ msg))
  else
    Mpure (textEnv "⚠️  **VM Control Requires Elevated Permissions**\n\nTo start/stop VMs, set `PROXMOX_ALLOW_ELEVATED=true` in your .env file.\n\n**Current permissions**: Basic (read-only)")

/-- Embedding of `deleteVM` (src/index.js lines 1683-1718). -/
def deleteVM (cfg : ServerCfg) (t : Transport) (node vmid : Option String) (type_ : String) : M OutputEnvelope :=
  if cfg.allowElevated then
    tryCatchE
      (do
        let safeNode ← liftE (validateNodeName node)
        let safeVMID ← liftE (validateVMID vmid)
        let result ← sendReq t ("/nodes/" ++ safeNode ++ "/" ++ type_ ++ "/" ++ safeVMID) "DELETE" none
        Mpure (textEnv ("🗑️  **VM/Container Deletion Started**\n\n" ++
          "• **VM/Container ID**: " ++ safeVMID ++ "\n" ++
          "• **Type**: " ++ jsToUpper type_ ++ "\n" ++
          "• **Node**: " ++ safeNode ++ "\n" ++
          "• **Task ID**: " ++ jsOrTmpl result "N/A" ++ "\n\n" ++
          "**Note**: Deletion may take a moment to complete.\n")))
      (fun msg => textEnv ("❌ **Failed to delete VM/Container**\n\nError: " ++ msg ++
        "\n\n**Note**: Make sure the VM/container is stopped first."))
  else
    Mpure (textEnv "⚠️  **VM/Container Deletion Requires Elevated Permissions**\n\nTo delete VMs/containers, set `PROXMOX_ALLOW_ELEVATED=true` in your .env file.\n\n**Current permissions**: Basic (read-only)")

/-- Embedding of `rebootVM` (src/index.js lines 1720-1755). -/
def rebootVM (cfg : ServerCfg) (t : Transport) (node vmid : Option String) (type_ : String) : M OutputEnvelope :=
  if cfg.allowElevated then
    tryCatchE
      (do
        let safeNode ← liftE (validateNodeName node)
        let safeVMID ← liftE (validateVMID vmid)
        let result ← sendReq t ("/nodes/" ++ safeNode ++ "/" ++ type_ ++ "/" ++ safeVMID ++ "/status/reboot") "POST" (some (JVal.obj []))
        Mpure (textEnv ("🔄 **VM/Container Reboot Command Sent**\n\n" ++
          "• **VM ID**: " ++ safeVMID ++ "\n" ++
          "• **Type**: " ++ jsToUpper type_ ++ "\n" ++
          "• **Node**: " ++ safeNode ++ "\n" ++
          "• **Task ID**: " ++ jsOrTmpl result "N/A" ++ "\n\n" ++
          "**Tip**: The VM/container will restart momentarily.\n")))
      (fun msg => textEnv ("❌ **Failed to reboot VM/Container**\n\nError: " ++ msg))
  else
    Mpure (textEnv "⚠️  **VM Reboot Requires Elevated Permissions**\n\nTo reboot VMs/containers, set `PROXMOX_ALLOW_ELEVATED=true` in your .env file.\n\n**Current permissions**: Basic (read-only)")

/-- Embedding of `shutdownVM` (src/index.js lines 1757-1792). -/
def shutdownVM (cfg : ServerCfg) (t : Transport) (node vmid : Option String) (type_ : String) : M OutputEnvelope :=
  if cfg.allowElevated then
    tryCatchE
      (do
        let safeNode ← liftE (validateNodeName node)
        let safeVMID ← liftE (validateVMID vmid)
        let result ← sendReq t ("/nodes/" ++ safeNode ++ "/" ++ type_ ++ "/" ++ safeVMID ++ "/status/shutdown") "POST" (some (JVal.obj []))
        Mpure (textEnv ("⏸️  **VM/Container Shutdown Command Sent**\n\n" ++
          "• **VM ID**: " ++ safeVMID ++ "\n" ++
          "• **Type**: " ++ jsToUpper type_ ++ "\n" ++
          "• **Node**: " ++ safeNode ++ "\n" ++
          "• **Task ID**: " ++ jsOrTmpl result "N/A" ++ "\n\n" ++
          "**Note**: This is a graceful shutdown. Use `proxmox_stop_vm` for forceful stop.\n")))
      (fun msg => textEnv ("❌ **Failed to shutdown VM/Container**\n\nError: " ++ msg))
  else
    Mpure (textEnv "⚠️  **VM Shutdown Requires Elevated Permissions**\n\nTo shutdown VMs/containers, set `PROXMOX_ALLOW_ELEVATED=true` in your .env file.\n\n**Current permissions**: Basic (read-only)")

/-- Embedding of `pauseVM` (src/index.js lines 1794-1829); QEMU only. -/
def pauseVM (cfg : ServerCfg) (t : Transport) (node vmid : Option String) : M OutputEnvelope :=
  if cfg.allowElevated then
    tryCatchE
      (do
        let safeNode ← liftE (validateNodeName node)
        let safeVMID ← liftE (validateVMID vmid)
        let result ← sendReq t ("/nodes/" ++ safeNode ++ "/qemu/" ++ safeVMID ++ "/status/suspend") "POST" (some (JVal.obj []))
        Mpure (textEnv ("⏸️  **VM Pause Command Sent**\n\n" ++
          "• **VM ID**: " ++ safeVMID ++ "\n" ++
          "• **Type**: QEMU\n" ++
          "• **Node**: " ++ safeNode ++ "\n" ++
          "• **Task ID**: " ++ jsOrTmpl result "N/A" ++ "\n\n" ++
          "**Note**: VM is now paused. Use `proxmox_resume_vm` to resume.\n")))
      (fun msg => textEnv ("❌ **Failed to pause VM**\n\nError: " ++ msg ++
        "\n\n**Note**: Pause is only available for QEMU VMs, not LXC containers."))
  else
    Mpure (textEnv "⚠️  **VM Pause Requires Elevated Permissions**\n\nTo pause VMs, set `PROXMOX_ALLOW_ELEVATED=true` in your .env file.\n\n**Current permissions**: Basic (read-only)")

/-- Embedding of `resumeVM` (src/index.js lines 1831-1866); QEMU only. -/
def resumeVM (cfg : ServerCfg) (t : Transport) (node vmid : Option String) : M OutputEnvelope :=
  if cfg.allowElevated then
    tryCatchE
      (do
        let safeNode ← liftE (validateNodeName node)
        let safeVMID ← liftE (validateVMID vmid)
        let result ← sendReq t ("/nodes/" ++ safeNode ++ "/qemu/" ++ safeVMID ++ "/status/resume") "POST" (some (JVal.obj []))
        Mpure (textEnv ("▶️  **VM Resume Command Sent**\n\n" ++
          "• **VM ID**: " ++ safeVMID ++ "\n" ++
          "• **Type**: QEMU\n" ++
          "• **Node**: " ++ safeNode ++ "\n" ++
          "• **Task ID**: " ++ jsOrTmpl result "N/A" ++ "\n\n" ++
          "**Note**: VM is now resuming from paused state.\n")))
      (fun msg => textEnv ("❌ **Failed to resume VM**\n\nError: " ++ msg ++
        "\n\n**Note**: Resume is only available for QEMU VMs, not LXC containers."))
  else
    Mpure (textEnv "⚠️  **VM Resume Requires Elevated Permissions**\n\nTo resume VMs, set `PROXMOX_ALLOW_ELEVATED=true` in your .env file.\n\n**Current permissions**: Basic (read-only)")

/-- Embedding of `cloneVM` (src/index.js lines 1868-1917). -/
def cloneVM (cfg : ServerCfg) (t : Transport) (node vmid newid nameOrHostname : Option String) (type_ : String) : M OutputEnvelope :=
  if cfg.allowElevated then
    tryCatchE
      (do
        let safeNode ← liftE (validateNodeName node)
        let safeVMID ← liftE (validateVMID vmid)
        let safeNewID ← liftE (validateVMID newid)
        let newName := orStr nameOrHostname ("clone-" ++ safeNewID)
        let body := JVal.obj
          (("newid", JVal.str safeNewID) ::
            (if type_ = "lxc" then [("hostname", JVal.str newName)] else [("name", JVal.str newName)]))
        let result ← sendReq t ("/nodes/" ++ safeNode ++ "/" ++ type_ ++ "/" ++ safeVMID ++ "/clone") "POST" (some body)
        Mpure (textEnv ("📋 **VM/Container Clone Started**\n\n" ++
          "• **Source VM ID**: " ++ safeVMID ++ "\n" ++
          "• **New VM ID**: " ++ safeNewID ++ "\n" ++
          "• **New Name**: " ++ newName ++ "\n" ++
          "• **Type**: " ++ jsToUpper type_ ++ "\n" ++
          "• **Node**: " ++ safeNode ++ "\n" ++
          "• **Task ID**: " ++ jsOrTmpl result "N/A" ++ "\n\n" ++
          "**Note**: Clone operation may take several minutes. Check task status in Proxmox.\n")))
      (fun msg => textEnv ("❌ **Failed to clone VM/Container**\n\nError: " ++ msg ++
        "\n\n**Common issues**:\n- New VM ID already in use\n- Insufficient storage space\n- Source VM is running (some storage types require stopped VM)"))
  else
    Mpure (textEnv "⚠️  **VM Clone Requires Elevated Permissions**\n\nTo clone VMs/containers, set `PROXMOX_ALLOW_ELEVATED=true` in your .env file.\n\n**Current permissions**: Basic (read-only)")

/-- Embedding of `resizeVM` (src/index.js lines 1919-1978): memory/cores
reconfiguration via `PUT …/config`. -/
def resizeVM (cfg : ServerCfg) (t : Transport) (node vmid : Option String) (memory cores : Option Int) (type_ : String) : M OutputEnvelope :=
  if cfg.allowElevated then
    let fields :=
      (match memory with | some m => [("memory", JVal.num (m : ℚ))] | none => []) ++
      (match cores with | some c => [("cores", JVal.num (c : ℚ))] | none => [])
    if fields.length = 0 then
      Mpure (textEnv "⚠️  **No Resize Parameters Provided**\n\nPlease specify at least one parameter:\n- `memory`: Memory in MB\n- `cores`: Number of CPU cores")
    else
      tryCatchE
        (do
          let safeNode ← liftE (validateNodeName node)
          let safeVMID ← liftE (validateVMID vmid)
          let result ← sendReq t ("/nodes/" ++ safeNode ++ "/" ++ type_ ++ "/" ++ safeVMID ++ "/config") "PUT" (some (JVal.obj fields))
          Mpure (textEnv ("📏 **VM/Container Resize Command Sent**\n\n" ++
            "• **VM ID**: " ++ safeVMID ++ "\n" ++
            "• **Type**: " ++ jsToUpper type_ ++ "\n" ++
            "• **Node**: " ++ safeNode ++ "\n" ++
            (match memory with | some m => "• **New Memory**: " ++ m.repr ++ " MB\n" | none => "") ++
            (match cores with | some c => "• **New Cores**: " ++ c.repr ++ "\n" | none => "") ++
            "• **Task ID**: " ++ jsOrTmpl result "N/A" ++ "\n\n" ++
            "**Note**: Some changes may require a reboot to take effect.\n")))
        (fun msg => textEnv ("❌ **Failed to resize VM/Container**\n\nError: " ++ msg ++
          "\n\n**Common issues**:\n- Memory/CPU values exceed node capacity\n- VM is locked or in use\n- Invalid parameter values"))
  else
    Mpure (textEnv "⚠️  **VM Resize Requires Elevated Permissions**\n\nTo resize VMs/containers, set `PROXMOX_ALLOW_ELEVATED=true` in your .env file.\n\n**Current permissions**: Basic (read-only)")

/-- Embedding of `createSnapshot` (src/index.js lines 1980-2018). -/
def createSnapshot (cfg : ServerCfg) (t : Transport) (node vmid snapname : Option String) (type_ : String) : M OutputEnvelope :=
  if cfg.allowElevated then
    tryCatchE
      (do
        let safeNode ← liftE (validateNodeName node)
        let safeVMID ← liftE (validateVMID vmid)
        let result ← sendReq t ("/nodes/" ++ safeNode ++ "/" ++ type_ ++ "/" ++ safeVMID ++ "/snapshot") "POST"
          (some (JVal.obj [("snapname", optJVal snapname)]))
        Mpure (textEnv ("📸 **Snapshot Creation Started**\n\n" ++
          "• **VM ID**: " ++ safeVMID ++ "\n" ++
          "• **Snapshot Name**: " ++ tmplOpt snapname ++ "\n" ++
          "• **Type**: " ++ jsToUpper type_ ++ "\n" ++
          "• **Node**: " ++ safeNode ++ "\n" ++
          "• **Task ID**: " ++ jsOrTmpl result "N/A" ++ "\n\n" ++
          "**Tip**: Use `proxmox_list_snapshots_" ++ (if type_ = "lxc" then "lxc" else "vm") ++ "` to view all snapshots.\n")))
      (fun msg => textEnv ("❌ **Failed to create snapshot**\n\nError: " ++ msg ++
        "\n\n**Common issues**:\n- Snapshot name already exists\n- Insufficient disk space\n- VM is locked or in use"))
  else
    Mpure (textEnv "⚠️  **Snapshot Creation Requires Elevated Permissions**\n\nTo create snapshots, set `PROXMOX_ALLOW_ELEVATED=true` in your .env file.\n\n**Current permissions**: Basic (read-only)")

/-- The per-snapshot chunk of the `listSnapshots` loop
(src/index.js lines 2050-2060). -/
def snapshotEntry (snapshot : JVal) : String :=
  "• **" ++ jsTmpl (jget snapshot "name") ++ "**\n" ++
    (if jsTruthy (jget snapshot "description") then
      "  Description: " ++ jsTmpl (jget snapshot "description") ++ "\n"
    else "") ++
    (if jsTruthy (jget snapshot "snaptime") then
      "  Created: " ++ jsLocaleDate (jsNum (jget snapshot "snaptime") * 1000) ++ "\n"
    else "") ++ "\n"

/-- Embedding of `listSnapshots` (src/index.js lines 2020-2076): filters
out the reserved `current` pseudo-snapshot before counting and display. -/
def listSnapshots (cfg : ServerCfg) (t : Transport) (node vmid : Option String) (type_ : String) : M OutputEnvelope :=
  if cfg.allowElevated then
    tryCatchE
      (do
        let safeNode ← liftE (validateNodeName node)
        let safeVMID ← liftE (validateVMID vmid)
        let snapshots ← sendReq t ("/nodes/" ++ safeNode ++ "/" ++ type_ ++ "/" ++ safeVMID ++ "/snapshot") "GET" none
        let output := "📋 **Snapshots for " ++ jsToUpper type_ ++ " " ++ safeVMID ++ "**\n\n"
        let noneTip := "No snapshots found.\n\n" ++
          "**Tip**: Create a snapshot with `proxmox_create_snapshot_" ++ (if type_ = "lxc" then "lxc" else "vm") ++ "`.\n"
        let output :=
          if (jsTruthy snapshots).not || (jarr snapshots).length = 0 then output ++ noneTip
          else
            let realSnapshots := (jarr snapshots).filter (fun snap => (jeqStr (jget snap "name") "current").not)
            if realSnapshots.length = 0 then output ++ noneTip
            else
              (realSnapshots.foldl (fun acc snapshot => acc ++ snapshotEntry snapshot) output) ++
                "**Total**: " ++ Nat.repr realSnapshots.length ++ " snapshot(s)\n"
        Mpure (textEnv output))
      (fun msg => textEnv ("❌ **Failed to list snapshots**\n\nError: " ++ msg))
  else
    Mpure (textEnv "⚠️  **Snapshot Listing Requires Elevated Permissions**\n\nTo list snapshots, set `PROXMOX_ALLOW_ELEVATED=true` in your .env file.\n\n**Current permissions**: Basic (read-only)")

/-- Embedding of `rollbackSnapshot` (src/index.js lines 2078-2115); the
snapshot name is interpolated into the path unvalidated. -/
def rollbackSnapshot (cfg : ServerCfg) (t : Transport) (node vmid snapname : Option String) (type_ : String) : M OutputEnvelope :=
  if cfg.allowElevated then
    tryCatchE
      (do
        let safeNode ← liftE (validateNodeName node)
        let safeVMID ← liftE (validateVMID vmid)
        let result ← sendReq t ("/nodes/" ++ safeNode ++ "/" ++ type_ ++ "/" ++ safeVMID ++ "/snapshot/" ++ tmplOpt snapname ++ "/rollback") "POST" (some (JVal.obj []))
        Mpure (textEnv ("⏮️  **Snapshot Rollback Started**\n\n" ++
          "• **VM ID**: " ++ safeVMID ++ "\n" ++
          "• **Snapshot Name**: " ++ tmplOpt snapname ++ "\n" ++
          "• **Type**: " ++ jsToUpper type_ ++ "\n" ++
          "• **Node**: " ++ safeNode ++ "\n" ++
          "• **Task ID**: " ++ jsOrTmpl result "N/A" ++ "\n\n" ++
          "**Warning**: This will restore the VM/container to the state of the snapshot.\n" ++
          "**Tip**: Any changes made after the snapshot was created will be lost.\n")))
      (fun msg => textEnv ("❌ **Failed to rollback snapshot**\n\nError: " ++ msg ++
        "\n\n**Common issues**:\n- Snapshot doesn\x27t exist\n- VM is running (stop it first)\n- VM is locked or in use"))
  else
    Mpure (textEnv "⚠️  **Snapshot Rollback Requires Elevated Permissions**\n\nTo rollback snapshots, set `PROXMOX_ALLOW_ELEVATED=true` in your .env file.\n\n**Current permissions**: Basic (read-only)")

/-- Embedding of `deleteSnapshot` (src/index.js lines 2117-2153). -/
def deleteSnapshot (cfg : ServerCfg) (t : Transport) (node vmid snapname : Option String) (type_ : String) : M OutputEnvelope :=
  if cfg.allowElevated then
    tryCatchE
      (do
        let safeNode ← liftE (validateNodeName node)
        let safeVMID ← liftE (validateVMID vmid)
        let result ← sendReq t ("/nodes/" ++ safeNode ++ "/" ++ type_ ++ "/" ++ safeVMID ++ "/snapshot/" ++ tmplOpt snapname) "DELETE" none
        Mpure (textEnv ("🗑️  **Snapshot Deletion Started**\n\n" ++
          "• **VM ID**: " ++ safeVMID ++ "\n" ++
          "• **Snapshot Name**: " ++ tmplOpt snapname ++ "\n" ++
          "• **Type**: " ++ jsToUpper type_ ++ "\n" ++
          "• **Node**: " ++ safeNode ++ "\n" ++
          "• **Task ID**: " ++ jsOrTmpl result "N/A" ++ "\n\n" ++
          "**Note**: Snapshot deletion may take a moment to complete.\n")))
      (fun msg => textEnv ("❌ **Failed to delete snapshot**\n\nError: " ++ msg ++
        "\n\n**Common issues**:\n- Snapshot doesn\x27t exist\n- VM is locked or in use\n- Insufficient permissions"))
  else
    Mpure (textEnv "⚠️  **Snapshot Deletion Requires Elevated Permissions**\n\nTo delete snapshots, set `PROXMOX_ALLOW_ELEVATED=true` in your .env file.\n\n**Current permissions**: Basic (read-only)")

/-- Embedding of `createBackup` (src/index.js lines 2155-2202). -/
def createBackup (cfg : ServerCfg) (t : Transport) (node vmid storageArg modeArg compressArg : Option String) (type_ : String) : M OutputEnvelope :=
  let storage := storageArg.getD "local"
  let mode := modeArg.getD "snapshot"
  let compress := compressArg.getD "zstd"
  if cfg.allowElevated then
    tryCatchE
      (do
        let safeNode ← liftE (validateNodeName node)
        let safeVMID ← liftE (validateVMID vmid)
        let result ← sendReq t ("/nodes/" ++ safeNode ++ "/vzdump") "POST"
          (some (JVal.obj [("vmid", JVal.str safeVMID), ("storage", JVal.str storage),
                           ("mode", JVal.str mode), ("compress", JVal.str compress)]))
        Mpure (textEnv ("💾 **Backup Creation Started**\n\n" ++
          "• **VM ID**: " ++ safeVMID ++ "\n" ++
          "• **Type**: " ++ jsToUpper type_ ++ "\n" ++
          "• **Node**: " ++ safeNode ++ "\n" ++
          "• **Storage**: " ++ storage ++ "\n" ++
          "• **Mode**: " ++ mode ++ "\n" ++
          "• **Compression**: " ++ compress ++ "\n" ++
          "• **Task ID**: " ++ jsOrTmpl result "N/A" ++ "\n\n" ++
          "**Tip**: Backup runs in the background. Use `proxmox_list_backups` to view all backups.\n" ++
          "**Note**: Backup modes:\n" ++
          "  - snapshot: Quick backup using snapshots (recommended)\n" ++
          "  - suspend: Suspends VM during backup\n" ++
          "  - stop: Stops VM during backup\n")))
      (fun msg => textEnv ("❌ **Failed to create backup**\n\nError: " ++ msg ++
        "\n\n**Common issues**:\n- Insufficient disk space on storage\n- VM is locked or in use\n- Invalid storage name\n- Insufficient permissions"))
  else
    Mpure (textEnv "⚠️  **Backup Creation Requires Elevated Permissions**\n\nTo create backups, set `PROXMOX_ALLOW_ELEVATED=true` in your .env file.\n\n**Current permissions**: Basic (read-only)")

/-- One step of the regex `vzdump-(lxc|qemu)-(\d+)-` at a fixed start:
the alternation tries `lxc` then `qemu`, `\d+` is the maximal digit run. -/
def tryVzdumpType (rest : List Char) (ty : String) : Option (String × String) :=
  if (ty ++ "-").data.isPrefixOf rest then
    let rest2 := rest.drop (ty.length + 1)
    let ds := rest2.takeWhile Char.isDigit
    if ds.isEmpty then none
    else if (rest2.drop ds.length).head? = some '-' then some (ty, String.mk ds)
    else none
  else none

/-- Scan of the filename match against `vzdump-(lxc|qemu)-(\d+)-`: first match wins. -/
def matchVzdump : List Char → Option (String × String)
  | [] => none
  | l@(_ :: t) =>
    if "vzdump-".data.isPrefixOf l then
      match tryVzdumpType (l.drop 7) "lxc" with
      | some r => some r
      | none =>
        match tryVzdumpType (l.drop 7) "qemu" with
        | some r => some r
        | none => matchVzdump t
    else matchVzdump t

/-- `(x.ctime || 0)` sort key of `listBackups`. -/
def ctimeKey (v : JVal) : ℚ :=
  if jsTruthy (jget v "ctime") then jsNum (jget v "ctime") else 0

/-- The per-backup chunk of the `listBackups` loop
(src/index.js lines 2229-2245). -/
def backupEntry (backup : JVal) : String :=
  let filename := ((jsSplitChar '/' (jsTmpl (jget backup "volid"))).getLast?).getD ""
  let m := matchVzdump filename.data
  let vmType := match m with | some r => jsToUpper r.1 | none => "UNKNOWN"
  let vmId := match m with | some r => r.2 | none => "N/A"
  "• **" ++ filename ++ "**\n" ++
    "  VM ID: " ++ vmId ++ " (" ++ vmType ++ ")\n" ++
    "  Size: " ++ (if jsTruthy (jget backup "size") then formatBytes (jsNum (jget backup "size")) else "N/A") ++ "\n" ++
    (if jsTruthy (jget backup "ctime") then
      "  Created: " ++ jsLocaleDate (jsNum (jget backup "ctime") * 1000) ++ "\n"
    else "") ++
    "  Volume: " ++ jsTmpl (jget backup "volid") ++ "\n\n"

/-- Embedding of `listBackups` (src/index.js lines 2204-2260). -/
def listBackups (cfg : ServerCfg) (t : Transport) (node storageArg : Option String) : M OutputEnvelope :=
  let storage := storageArg.getD "local"
  if cfg.allowElevated then
    tryCatchE
      (do
        let safeNode ← liftE (validateNodeName node)
        let backups ← sendReq t ("/nodes/" ++ safeNode ++ "/storage/" ++ storage ++ "/content?content=backup") "GET" none
        let output := "📦 **Backups on " ++ storage ++ "**\n\n"
        let output :=
          if (jsTruthy backups).not || (jarr backups).length = 0 then
            output ++ "No backups found on storage `" ++ storage ++ "`.\n\n" ++
              "**Tip**: Create a backup with `proxmox_create_backup_lxc` or `proxmox_create_backup_vm`.\n"
          else
            let sorted := jsSortBy (fun a b => decide (ctimeKey b ≤ ctimeKey a)) (jarr backups)
            (sorted.foldl (fun acc backup => acc ++ backupEntry backup) output) ++
              "**Total**: " ++ Nat.repr (jarr backups).length ++ " backup(s)\n"
        Mpure (textEnv output))
      (fun msg => textEnv ("❌ **Failed to list backups**\n\nError: " ++ msg ++
        "\n\n**Common issues**:\n- Storage doesn\x27t exist\n- Storage is not accessible\n- Insufficient permissions"))
  else
    Mpure (textEnv "⚠️  **Backup Listing Requires Elevated Permissions**\n\nTo list backups, set `PROXMOX_ALLOW_ELEVATED=true` in your .env file.\n\n**Current permissions**: Basic (read-only)")

/-- Embedding of `restoreBackup` (src/index.js lines 2262-2312). -/
def restoreBackup (cfg : ServerCfg) (t : Transport) (node vmid archive storage : Option String) (type_ : String) : M OutputEnvelope :=
  if cfg.allowElevated then
    tryCatchE
      (do
        let safeNode ← liftE (validateNodeName node)
        let safeVMID ← liftE (validateVMID vmid)
        let baseFields := [("vmid", JVal.str safeVMID), ("archive", optJVal archive), ("restore", JVal.num 1)]
        let fields :=
          if (orStr storage "") ≠ "" then baseFields ++ [("storage", optJVal storage)]
          else baseFields
        let result ← sendReq t ("/nodes/" ++ safeNode ++ "/" ++ type_) "POST" (some (JVal.obj fields))
        Mpure (textEnv ("♻️  **Backup Restore Started**\n\n" ++
          "• **New VM ID**: " ++ safeVMID ++ "\n" ++
          "• **Type**: " ++ jsToUpper type_ ++ "\n" ++
          "• **Node**: " ++ safeNode ++ "\n" ++
          "• **Archive**: " ++ tmplOpt archive ++ "\n" ++
          (if (orStr storage "") ≠ "" then "• **Storage**: " ++ tmplOpt storage ++ "\n" else "") ++
          "• **Task ID**: " ++ jsOrTmpl result "N/A" ++ "\n\n" ++
          "**Note**: Restore operation may take several minutes depending on backup size.\n" ++
          "**Tip**: Use `proxmox_get_vm_status` to check the restored VM status after completion.\n")))
      (fun msg => textEnv ("❌ **Failed to restore backup**\n\nError: " ++ msg ++
        "\n\n**Common issues**:\n- VM ID already in use\n- Backup archive doesn\x27t exist\n- Insufficient storage space\n- Invalid archive path\n- Insufficient permissions"))
  else
    Mpure (textEnv "⚠️  **Backup Restore Requires Elevated Permissions**\n\nTo restore backups, set `PROXMOX_ALLOW_ELEVATED=true` in your .env file.\n\n**Current permissions**: Basic (read-only)")

/-- High hex digit characters for percent-encoding. -/
def hexDigitChar (n : Nat) : Char := ("0123456789ABCDEF".data.get? n).getD '0'

/-- JS `encodeURIComponent`: unreserved characters pass through, every
other UTF-8 byte becomes `%XX`. -/
def encodeURIComponent (s : String) : String :=
  String.mk (s.toUTF8.toList.foldr
    (fun b acc =>
      let c := Char.ofNat b.toNat
      if b.toNat < 128 &&
          (c.isAlphanum || ['-', '_', '.', '!', '~', '*', '\x27', '(', ')'].contains c) then
        c :: acc
      else '%' :: hexDigitChar (b.toNat / 16) :: hexDigitChar (b.toNat % 16) :: acc)
    [])

/-- Embedding of `deleteBackup` (src/index.js lines 2314-2349); the volume
is percent-encoded into the path, the storage is interpolated raw. -/
def deleteBackup (cfg : ServerCfg) (t : Transport) (node storage volume : Option String) : M OutputEnvelope :=
  if cfg.allowElevated then
    tryCatchE
      (do
        let safeNode ← liftE (validateNodeName node)
        let encodedVolume := encodeURIComponent (tmplOpt volume)
        let result ← sendReq t ("/nodes/" ++ safeNode ++ "/storage/" ++ tmplOpt storage ++ "/content/" ++ encodedVolume) "DELETE" none
        Mpure (textEnv ("🗑️  **Backup Deletion Started**\n\n" ++
          "• **Node**: " ++ safeNode ++ "\n" ++
          "• **Storage**: " ++ tmplOpt storage ++ "\n" ++
          "• **Volume**: " ++ tmplOpt volume ++ "\n" ++
          "• **Task ID**: " ++ jsOrTmpl result "N/A" ++ "\n\n" ++
          "**Note**: Backup file will be permanently deleted from storage.\n")))
      (fun msg => textEnv ("❌ **Failed to delete backup**\n\nError: " ++ msg ++
        "\n\n**Common issues**:\n- Backup doesn\x27t exist\n- Invalid volume path\n- Backup is in use\n- Insufficient permissions"))
  else
    Mpure (textEnv "⚠️  **Backup Deletion Requires Elevated Permissions**\n\nTo delete backups, set `PROXMOX_ALLOW_ELEVATED=true` in your .env file.\n\n**Current permissions**: Basic (read-only)")

/-- Embedding of `addDiskVM` (src/index.js lines 2351-2397). -/
def addDiskVM (cfg : ServerCfg) (t : Transport) (node vmid disk storage size : Option String) : M OutputEnvelope :=
  if cfg.allowElevated then
    tryCatchE
      (do
        let safeNode ← liftE (validateNodeName node)
        let safeVMID ← liftE (validateVMID vmid)
        let body := JVal.obj [(optKey disk, JVal.str (tmplOpt storage ++ ":" ++ tmplOpt size))]
        let result ← sendReq t ("/nodes/" ++ safeNode ++ "/qemu/" ++ safeVMID ++ "/config") "PUT" (some body)
        Mpure (textEnv ("💿 **VM Disk Addition Started**\n\n" ++
          "• **VM ID**: " ++ safeVMID ++ "\n" ++
          "• **Node**: " ++ safeNode ++ "\n" ++
          "• **Disk**: " ++ tmplOpt disk ++ "\n" ++
          "• **Storage**: " ++ tmplOpt storage ++ "\n" ++
          "• **Size**: " ++ tmplOpt size ++ " GB\n" ++
          "• **Task ID**: " ++ jsOrTmpl result "N/A" ++ "\n\n" ++
          "**Disk naming conventions**:\n" ++
          "  - SCSI: scsi0-15\n" ++
          "  - VirtIO: virtio0-15\n" ++
          "  - SATA: sata0-5\n" ++
          "  - IDE: ide0-3\n\n" ++
          "**Note**: The VM may need to be stopped for this operation depending on configuration.\n")))
      (fun msg => textEnv ("❌ **Failed to add disk to VM**\n\nError: " ++ msg ++
        "\n\n**Common issues**:\n- Disk name already in use\n- VM is running (may need to be stopped)\n- Invalid disk name format\n- Insufficient storage space\n- Storage doesn\x27t exist"))
  else
    Mpure (textEnv "⚠️  **Disk Management Requires Elevated Permissions**\n\nTo add disks to VMs, set `PROXMOX_ALLOW_ELEVATED=true` in your .env file.\n\n**Current permissions**: Basic (read-only)")

/-- Embedding of `addMountPointLXC` (src/index.js lines 2399-2441). -/
def addMountPointLXC (cfg : ServerCfg) (t : Transport) (node vmid mp storage size : Option String) : M OutputEnvelope :=
  if cfg.allowElevated then
    tryCatchE
      (do
        let safeNode ← liftE (validateNodeName node)
        let safeVMID ← liftE (validateVMID vmid)
        let body := JVal.obj [(optKey mp, JVal.str (tmplOpt storage ++ ":" ++ tmplOpt size))]
        let result ← sendReq t ("/nodes/" ++ safeNode ++ "/lxc/" ++ safeVMID ++ "/config") "PUT" (some body)
        Mpure (textEnv ("💿 **LXC Mount Point Addition Started**\n\n" ++
          "• **Container ID**: " ++ safeVMID ++ "\n" ++
          "• **Node**: " ++ safeNode ++ "\n" ++
          "• **Mount Point**: " ++ tmplOpt mp ++ "\n" ++
          "• **Storage**: " ++ tmplOpt storage ++ "\n" ++
          "• **Size**: " ++ tmplOpt size ++ " GB\n" ++
          "• **Task ID**: " ++ jsOrTmpl result "N/A" ++ "\n\n" ++
          "**Mount point naming**: mp0-255\n\n" ++
          "**Note**: The container may need to be stopped for this operation.\n")))
      (fun msg => textEnv ("❌ **Failed to add mount point to container**\n\nError: " ++ msg ++
        "\n\n**Common issues**:\n- Mount point name already in use\n- Container is running (may need to be stopped)\n- Invalid mount point name\n- Insufficient storage space\n- Storage doesn\x27t exist"))
  else
    Mpure (textEnv "⚠️  **Disk Management Requires Elevated Permissions**\n\nTo add mount points to containers, set `PROXMOX_ALLOW_ELEVATED=true` in your .env file.\n\n**Current permissions**: Basic (read-only)")

/-- Embedding of `resizeDiskVM` (src/index.js lines 2443-2487). -/
def resizeDiskVM (cfg : ServerCfg) (t : Transport) (node vmid disk size : Option String) : M OutputEnvelope :=
  if cfg.allowElevated then
    tryCatchE
      (do
        let safeNode ← liftE (validateNodeName node)
        let safeVMID ← liftE (validateVMID vmid)
        let body := JVal.obj [("disk", optJVal disk), ("size", optJVal size)]
        let result ← sendReq t ("/nodes/" ++ safeNode ++ "/qemu/" ++ safeVMID ++ "/resize") "PUT" (some body)
        Mpure (textEnv ("📏 **VM Disk Resize Started**\n\n" ++
          "• **VM ID**: " ++ safeVMID ++ "\n" ++
          "• **Node**: " ++ safeNode ++ "\n" ++
          "• **Disk**: " ++ tmplOpt disk ++ "\n" ++
          "• **New Size**: " ++ tmplOpt size ++ "\n" ++
          "• **Task ID**: " ++ jsOrTmpl result "N/A" ++ "\n\n" ++
          "**Size format examples**:\n" ++
          "  - +10G: Add 10GB to current size\n" ++
          "  - 50G: Set absolute size to 50GB\n\n" ++
          "**Note**: Disks can only be expanded, not shrunk. Some configurations allow online resizing.\n")))
      (fun msg => textEnv ("❌ **Failed to resize VM disk**\n\nError: " ++ msg ++
        "\n\n**Common issues**:\n- Disk doesn\x27t exist\n- Trying to shrink disk (not supported)\n- Insufficient storage space\n- Invalid size format\n- VM is locked or in use"))
  else
    Mpure (textEnv "⚠️  **Disk Management Requires Elevated Permissions**\n\nTo resize VM disks, set `PROXMOX_ALLOW_ELEVATED=true` in your .env file.\n\n**Current permissions**: Basic (read-only)")

/-- Embedding of `resizeDiskLXC` (src/index.js lines 2489-2534). -/
def resizeDiskLXC (cfg : ServerCfg) (t : Transport) (node vmid disk size : Option String) : M OutputEnvelope :=
  if cfg.allowElevated then
    tryCatchE
      (do
        let safeNode ← liftE (validateNodeName node)
        let safeVMID ← liftE (validateVMID vmid)
        let body := JVal.obj [("disk", optJVal disk), ("size", optJVal size)]
        let result ← sendReq t ("/nodes/" ++ safeNode ++ "/lxc/" ++ safeVMID ++ "/resize") "PUT" (some body)
        Mpure (textEnv ("📏 **LXC Disk Resize Started**\n\n" ++
          "• **Container ID**: " ++ safeVMID ++ "\n" ++
          "• **Node**: " ++ safeNode ++ "\n" ++
          "• **Disk**: " ++ tmplOpt disk ++ "\n" ++
          "• **New Size**: " ++ tmplOpt size ++ "\n" ++
          "• **Task ID**: " ++ jsOrTmpl result "N/A" ++ "\n\n" ++
          "**Size format examples**:\n" ++
          "  - +10G: Add 10GB to current size\n" ++
          "  - 50G: Set absolute size to 50GB\n\n" ++
          "**Valid disk names**: rootfs, mp0, mp1, mp2, etc.\n\n" ++
          "**Note**: Disks can only be expanded, not shrunk. Container may need to be stopped.\n")))
      (fun msg => textEnv ("❌ **Failed to resize LXC disk**\n\nError: " ++ msg ++
        "\n\n**Common issues**:\n- Disk doesn\x27t exist\n- Trying to shrink disk (not supported)\n- Insufficient storage space\n- Invalid size format\n- Container is locked or in use"))
  else
    Mpure (textEnv "⚠️  **Disk Management Requires Elevated Permissions**\n\nTo resize LXC disks, set `PROXMOX_ALLOW_ELEVATED=true` in your .env file.\n\n**Current permissions**: Basic (read-only)")

/-- Embedding of `removeDiskVM` (src/index.js lines 2536-2576). -/
def removeDiskVM (cfg : ServerCfg) (t : Transport) (node vmid disk : Option String) : M OutputEnvelope :=
  if cfg.allowElevated then
    tryCatchE
      (do
        let safeNode ← liftE (validateNodeName node)
        let safeVMID ← liftE (validateVMID vmid)
        let body := JVal.obj [("delete", optJVal disk)]
        let result ← sendReq t ("/nodes/" ++ safeNode ++ "/qemu/" ++ safeVMID ++ "/config") "PUT" (some body)
        Mpure (textEnv ("➖ **VM Disk Removal Started**\n\n" ++
          "• **VM ID**: " ++ safeVMID ++ "\n" ++
          "• **Node**: " ++ safeNode ++ "\n" ++
          "• **Disk**: " ++ tmplOpt disk ++ "\n" ++
          "• **Task ID**: " ++ jsOrTmpl result "N/A" ++ "\n\n" ++
          "**Warning**: This will permanently delete the disk and all its data.\n" ++
          "**Note**: The VM should be stopped for this operation.\n")))
      (fun msg => textEnv ("❌ **Failed to remove disk from VM**\n\nError: " ++ msg ++
        "\n\n**Common issues**:\n- Disk doesn\x27t exist\n- VM is running (must be stopped)\n- Cannot remove boot disk\n- VM is locked or in use"))
  else
    Mpure (textEnv "⚠️  **Disk Management Requires Elevated Permissions**\n\nTo remove disks from VMs, set `PROXMOX_ALLOW_ELEVATED=true` in your .env file.\n\n**Current permissions**: Basic (read-only)")

/-- Embedding of `removeMountPointLXC` (src/index.js lines 2578-2618). -/
def removeMountPointLXC (cfg : ServerCfg) (t : Transport) (node vmid mp : Option String) : M OutputEnvelope :=
  if cfg.allowElevated then
    tryCatchE
      (do
        let safeNode ← liftE (validateNodeName node)
        let safeVMID ← liftE (validateVMID vmid)
        let body := JVal.obj [("delete", optJVal mp)]
        let result ← sendReq t ("/nodes/" ++ safeNode ++ "/lxc/" ++ safeVMID ++ "/config") "PUT" (some body)
        Mpure (textEnv ("➖ **LXC Mount Point Removal Started**\n\n" ++
          "• **Container ID**: " ++ safeVMID ++ "\n" ++
          "• **Node**: " ++ safeNode ++ "\n" ++
          "• **Mount Point**: " ++ tmplOpt mp ++ "\n" ++
          "• **Task ID**: " ++ jsOrTmpl result "N/A" ++ "\n\n" ++
          "**Warning**: This will permanently delete the mount point and all its data.\n" ++
          "**Note**: The container should be stopped for this operation.\n")))
      (fun msg => textEnv ("❌ **Failed to remove mount point from container**\n\nError: " ++ msg ++
        "\n\n**Common issues**:\n- Mount point doesn\x27t exist\n- Container is running (must be stopped)\n- Cannot remove rootfs\n- Container is locked or in use"))
  else
    Mpure (textEnv "⚠️  **Disk Management Requires Elevated Permissions**\n\nTo remove mount points from containers, set `PROXMOX_ALLOW_ELEVATED=true` in your .env file.\n\n**Current permissions**: Basic (read-only)")

/-- Embedding of `moveDiskVM` (src/index.js lines 2620-2664). -/
def moveDiskVM (cfg : ServerCfg) (t : Transport) (node vmid disk storage : Option String) (deleteSourceArg : Option Bool) : M OutputEnvelope :=
  let deleteSource := deleteSourceArg.getD true
  if cfg.allowElevated then
    tryCatchE
      (do
        let safeNode ← liftE (validateNodeName node)
        let safeVMID ← liftE (validateVMID vmid)
        let body := JVal.obj [("disk", optJVal disk), ("storage", optJVal storage),
                              ("delete", JVal.num (if deleteSource then 1 else 0))]
        let result ← sendReq t ("/nodes/" ++ safeNode ++ "/qemu/" ++ safeVMID ++ "/move_disk") "POST" (some body)
        Mpure (textEnv ("📦 **VM Disk Move Started**\n\n" ++
          "• **VM ID**: " ++ safeVMID ++ "\n" ++
          "• **Node**: " ++ safeNode ++ "\n" ++
          "• **Disk**: " ++ tmplOpt disk ++ "\n" ++
          "• **Target Storage**: " ++ tmplOpt storage ++ "\n" ++
          "• **Delete Source**: " ++ (if deleteSource then "Yes" else "No") ++ "\n" ++
          "• **Task ID**: " ++ jsOrTmpl result "N/A" ++ "\n\n" ++
          "**Note**: Disk move operation may take several minutes depending on disk size.\n" ++
          "**Tip**: The VM should be stopped for this operation in most configurations.\n")))
      (fun msg => textEnv ("❌ **Failed to move VM disk**\n\nError: " ++ msg ++
        "\n\n**Common issues**:\n- Disk doesn\x27t exist\n- Target storage doesn\x27t exist\n- Insufficient space on target storage\n- VM is running (may need to be stopped)\n- VM is locked or in use"))
  else
    Mpure (textEnv "⚠️  **Disk Management Requires Elevated Permissions**\n\nTo move VM disks, set `PROXMOX_ALLOW_ELEVATED=true` in your .env file.\n\n**Current permissions**: Basic (read-only)")

/-- Embedding of `moveDiskLXC` (src/index.js lines 2666-2711). -/
def moveDiskLXC (cfg : ServerCfg) (t : Transport) (node vmid disk storage : Option String) (deleteSourceArg : Option Bool) : M OutputEnvelope :=
  let deleteSource := deleteSourceArg.getD true
  if cfg.allowElevated then
    tryCatchE
      (do
        let safeNode ← liftE (validateNodeName node)
        let safeVMID ← liftE (validateVMID vmid)
        let body := JVal.obj [("volume", optJVal disk), ("storage", optJVal storage),
                              ("delete", JVal.num (if deleteSource then 1 else 0))]
        let result ← sendReq t ("/nodes/" ++ safeNode ++ "/lxc/" ++ safeVMID ++ "/move_volume") "POST" (some body)
        Mpure (textEnv ("📦 **LXC Disk Move Started**\n\n" ++
          "• **Container ID**: " ++ safeVMID ++ "\n" ++
          "• **Node**: " ++ safeNode ++ "\n" ++
          "• **Volume**: " ++ tmplOpt disk ++ "\n" ++
          "• **Target Storage**: " ++ tmplOpt storage ++ "\n" ++
          "• **Delete Source**: " ++ (if deleteSource then "Yes" else "No") ++ "\n" ++
          "• **Task ID**: " ++ jsOrTmpl result "N/A" ++ "\n\n" ++
          "**Valid volumes**: rootfs, mp0, mp1, mp2, etc.\n\n" ++
          "**Note**: Volume move operation may take several minutes depending on volume size.\n" ++
          "**Tip**: The container should be stopped for this operation.\n")))
      (fun msg => textEnv ("❌ **Failed to move LXC volume**\n\nError: " ++ msg ++
        "\n\n**Common issues**:\n- Volume doesn\x27t exist\n- Target storage doesn\x27t exist\n- Insufficient space on target storage\n- Container is running (may need to be stopped)\n- Container is locked or in use"))
  else
    Mpure (textEnv "⚠️  **Disk Management Requires Elevated Permissions**\n\nTo move LXC disks, set `PROXMOX_ALLOW_ELEVATED=true` in your .env file.\n\n**Current permissions**: Basic (read-only)")

/-! ## Network handlers and composite configuration strings -/

/-- Delete key `k` from a JS object (assoc list). -/
def objDelete (fs : List (String × JVal)) (k : String) : List (String × JVal) :=
  fs.filter (fun p => p.1 ≠ k)

/-- Key lookup in parsed configuration parts (JS `configParts[k]`). -/
def partsGet (fs : List (String × JVal)) (k : String) : JVal :=
  ((fs.foldl (fun acc p => if p.1 = k then some p.2 else acc) none).getD JVal.undef)

/-- One step of the `currentConfig.split(',').forEach(…)` parse
(src/index.js lines 2871-2874 and 2975-2978): a comma-separated part splits
on `=` into key and value; a part without `=` gets an `undefined` value;
a duplicate key overwrites in place. -/
def parseNetStep (parts : List (String × JVal)) (part : String) : List (String × JVal) :=
  let kv := jsSplitChar '=' part
  let key := (kv.get? 0).getD ""
  let value := match kv.get? 1 with
    | some v => JVal.str v
    | none => JVal.undef
  objSet parts key value

/-- The full parse of a composite network configuration string. -/
def parseNetConfig (s : String) : List (String × JVal) :=
  (jsSplitChar ',' s).foldl parseNetStep []

/-- The rebuild of `updateNetworkVM` (src/index.js lines 2910-2912):
`value ? key=value : key` (falsy values collapse to the bare key). -/
def serializeNetVM (parts : List (String × JVal)) : String :=
  joinSep "," (parts.map (fun p => if jsTruthy p.2 then p.1 ++ "=" ++ jsTmpl p.2 else p.1))

/-- The rebuild of `updateNetworkLXC` (src/index.js lines 3002-3004):
always `key=value`, so an `undefined` value renders as the text
`undefined`. -/
def serializeNetLXC (parts : List (String × JVal)) : String :=
  joinSep "," (parts.map (fun p => p.1 ++ "=" ++ jsTmpl p.2))

/-- Whether a parsed key looks like a MAC address start
(regex `^[0-9A-F]\x7b2\x7d:` with the `i` flag). -/
def looksLikeMac (k : String) : Bool :=
  match k.data with
  | c0 :: c1 :: c2 :: _ =>
    (c0.isDigit || ('A' ≤ c0 && c0 ≤ 'F') || ('a' ≤ c0 && c0 ≤ 'f')) &&
    (c1.isDigit || ('A' ≤ c1 && c1 ≤ 'F') || ('a' ≤ c1 && c1 ≤ 'f')) &&
    c2 = ':'
  | _ => false

/-- `Object.keys(configParts).find(k => k.match(…))` in the model branch of
`updateNetworkVM`; a failed find indexes the object at the key
`"undefined"`. -/
def findMacValue (parts : List (String × JVal)) : JVal :=
  match parts.find? (fun p => looksLikeMac p.1) with
  | some p => partsGet parts p.1
  | none => partsGet parts "undefined"

/-- The model-change branch of `updateNetworkVM`
(src/index.js lines 2877-2885). -/
def applyModelChange (parts : List (String × JVal)) (model : String) : List (String × JVal) :=
  let macA := partsGet parts "macaddr"
  let mac := if jsTruthy macA then macA else findMacValue parts
  let parts := objSet parts model (if jsTruthy mac then mac else JVal.str "")
  ["virtio", "e1000", "rtl8139", "vmxnet3"].foldl
    (fun ps m => if m ≠ model then objDelete ps m else ps) parts

/-- The advisory listing of existing `net*` keys when the requested
interface is missing (src/index.js lines 2859-2866 and 2963-2970). -/
def netKeysListing (config : JVal) : String :=
  let joined := joinSep ", " (((jfields config).map Prod.fst).filter (fun k => "net".data.isPrefixOf k.data))
  if joined = "" then "None" else joined

/-- Embedding of `addNetworkVM` (src/index.js lines 2713-2774). -/
def addNetworkVM (cfg : ServerCfg) (t : Transport) (node vmid net bridge modelArg macaddr : Option String) (vlan : Option (Option Int)) (firewall : Option Bool) : M OutputEnvelope :=
  let model := modelArg.getD "virtio"
  if cfg.allowElevated then
    tryCatchE
      (do
        let safeNode ← liftE (validateNodeName node)
        let safeVMID ← liftE (validateVMID vmid)
        let netConfig := (if model = "" then "virtio" else model) ++ ",bridge=" ++ tmplOpt bridge
        let netConfig := if (orStr macaddr "") ≠ "" then netConfig ++ ",macaddr=" ++ tmplOpt macaddr else netConfig
        let netConfig := match vlan with
          | some (some v) => netConfig ++ ",tag=" ++ v.repr
          | _ => netConfig
        let netConfig := if firewall.getD false then netConfig ++ ",firewall=1" else netConfig
        let body := JVal.obj [(optKey net, JVal.str netConfig)]
        let _ ← sendReq t ("/nodes/" ++ safeNode ++ "/qemu/" ++ safeVMID ++ "/config") "PUT" (some body)
        Mpure (textEnv ("🌐 **VM Network Interface Added**\n\n" ++
          "• **VM ID**: " ++ safeVMID ++ "\n" ++
          "• **Node**: " ++ safeNode ++ "\n" ++
          "• **Interface**: " ++ tmplOpt net ++ "\n" ++
          "• **Bridge**: " ++ tmplOpt bridge ++ "\n" ++
          "• **Model**: " ++ (if model = "" then "virtio" else model) ++ "\n" ++
          (if (orStr macaddr "") ≠ "" then "• **MAC Address**: " ++ tmplOpt macaddr ++ "\n" else "") ++
          (match vlan with | some (some v) => "• **VLAN Tag**: " ++ v.repr ++ "\n" | _ => "") ++
          (if firewall.getD false then "• **Firewall**: Enabled\n" else "") ++
          "\n**Valid interfaces**: net0, net1, net2, etc.\n" ++
          "**Valid models**: virtio (recommended), e1000, rtl8139, vmxnet3\n" ++
          "**Valid bridges**: vmbr0, vmbr1, vmbr2, etc.\n\n" ++
          "**Tip**: Use virtio model for best performance with modern guests.\n")))
      (fun msg => textEnv ("❌ **Failed to add VM network interface**\n\nError: " ++ msg ++
        "\n\n**Common issues**:\n- Network interface already exists\n- Bridge doesn\x27t exist\n- Invalid MAC address format\n- Invalid VLAN tag (must be 1-4094)\n- VM is locked or in use"))
  else
    Mpure (textEnv "⚠️  **Network Management Requires Elevated Permissions**\n\nTo add VM network interfaces, set `PROXMOX_ALLOW_ELEVATED=true` in your .env file.\n\n**Current permissions**: Basic (read-only)")

/-- JS `String.prototype.replace` with a plain-string pattern: first
occurrence only. -/
def replaceFirstAux (pat rep : List Char) : List Char → List Char
  | [] => []
  | c :: t =>
    if pat.isPrefixOf (c :: t) then rep ++ (c :: t).drop pat.length
    else c :: replaceFirstAux pat rep t

/-- `s.replace(pat, rep)` for nonempty plain-string patterns. -/
def replaceFirst (s pat rep : String) : String :=
  String.mk (replaceFirstAux pat.data rep.data s.data)

/-- Embedding of `addNetworkLXC` (src/index.js lines 2776-2839). -/
def addNetworkLXC (cfg : ServerCfg) (t : Transport) (node vmid net bridge ip gw : Option String) (firewall : Option Bool) : M OutputEnvelope :=
  if cfg.allowElevated then
    tryCatchE
      (do
        let safeNode ← liftE (validateNodeName node)
        let safeVMID ← liftE (validateVMID vmid)
        let netNum := replaceFirst (tmplOpt net) "net" ""
        let netConfig := "name=eth" ++ netNum ++ ",bridge=" ++ tmplOpt bridge
        let netConfig := if (orStr ip "") ≠ "" then netConfig ++ ",ip=" ++ tmplOpt ip else netConfig
        let netConfig := if (orStr gw "") ≠ "" then netConfig ++ ",gw=" ++ tmplOpt gw else netConfig
        let netConfig := if firewall.getD false then netConfig ++ ",firewall=1" else netConfig
        let body := JVal.obj [(optKey net, JVal.str netConfig)]
        let _ ← sendReq t ("/nodes/" ++ safeNode ++ "/lxc/" ++ safeVMID ++ "/config") "PUT" (some body)
        Mpure (textEnv ("🌐 **LXC Network Interface Added**\n\n" ++
          "• **Container ID**: " ++ safeVMID ++ "\n" ++
          "• **Node**: " ++ safeNode ++ "\n" ++
          "• **Interface**: " ++ tmplOpt net ++ " (eth" ++ netNum ++ ")\n" ++
          "• **Bridge**: " ++ tmplOpt bridge ++ "\n" ++
          (if (orStr ip "") ≠ "" then "• **IP Address**: " ++ tmplOpt ip ++ "\n" else "") ++
          (if (orStr gw "") ≠ "" then "• **Gateway**: " ++ tmplOpt gw ++ "\n" else "") ++
          (if firewall.getD false then "• **Firewall**: Enabled\n" else "") ++
          "\n**Valid interfaces**: net0, net1, net2, etc.\n" ++
          "**Valid bridges**: vmbr0, vmbr1, vmbr2, etc.\n" ++
          "**IP formats**: dhcp, 192.168.1.100/24, auto\n\n" ++
          "**Tip**: Use DHCP for automatic IP assignment or specify static IP with CIDR notation.\n")))
      (fun msg => textEnv ("❌ **Failed to add LXC network interface**\n\nError: " ++ msg ++
        "\n\n**Common issues**:\n- Network interface already exists\n- Bridge doesn\x27t exist\n- Invalid IP address format\n- Invalid gateway address\n- Container is locked or in use"))
  else
    Mpure (textEnv "⚠️  **Network Management Requires Elevated Permissions**\n\nTo add LXC network interfaces, set `PROXMOX_ALLOW_ELEVATED=true` in your .env file.\n\n**Current permissions**: Basic (read-only)")

/-- The caller-driven overlay of `updateNetworkVM`
(src/index.js lines 2876-2907): only supplied parameters touch the parsed
parts. -/
def overlayNetVM (parts : List (String × JVal)) (bridge model macaddr : Option String) (vlan : Option (Option Int)) (firewall : Option Bool) : List (String × JVal) :=
  let parts := match model with
    | some m => applyModelChange parts m
    | none => parts
  let parts := match bridge with
    | some b => objSet parts "bridge" (JVal.str b)
    | none => parts
  let parts := match macaddr with
    | some m => objSet parts "macaddr" (JVal.str m)
    | none => parts
  let parts := match vlan with
    | some (some v) => objSet parts "tag" (JVal.num (v : ℚ))
    | some none => objDelete parts "tag"
    | none => parts
  match firewall with
  | some fw => if fw then objSet parts "firewall" (JVal.str "1") else objDelete parts "firewall"
  | none => parts

/-- Embedding of `updateNetworkVM` (src/index.js lines 2841-2943):
read-modify-write of one interface string of the QEMU configuration. -/
def updateNetworkVM (cfg : ServerCfg) (t : Transport) (node vmid net bridge model macaddr : Option String) (vlan : Option (Option Int)) (firewall : Option Bool) : M OutputEnvelope :=
  if cfg.allowElevated then
    tryCatchE
      (do
        let safeNode ← liftE (validateNodeName node)
        let safeVMID ← liftE (validateVMID vmid)
        let config ← sendReq t ("/nodes/" ++ safeNode ++ "/qemu/" ++ safeVMID ++ "/config") "GET" none
        if (jsTruthy (jget config (optKey net))).not then
          Mpure (textEnv ("❌ **Network interface " ++ tmplOpt net ++ " does not exist**\n\nPlease add the interface first using proxmox_add_network_vm.\n\n**Existing interfaces**: " ++ netKeysListing config))
        else do
          let currentConfig := jsTmpl (jget config (optKey net))
          let configParts := parseNetConfig currentConfig
          let configParts := overlayNetVM configParts bridge model macaddr vlan firewall
          let netConfig := serializeNetVM configParts
          let body := JVal.obj [(optKey net, JVal.str netConfig)]
          let _ ← sendReq t ("/nodes/" ++ safeNode ++ "/qemu/" ++ safeVMID ++ "/config") "PUT" (some body)
          Mpure (textEnv ("🔧 **VM Network Interface Updated**\n\n" ++
            "• **VM ID**: " ++ safeVMID ++ "\n" ++
            "• **Node**: " ++ safeNode ++ "\n" ++
            "• **Interface**: " ++ tmplOpt net ++ "\n" ++
            "• **New Configuration**: " ++ netConfig ++ "\n\n" ++
            "**Changes applied**:\n" ++
            (match bridge with | some b => "- Bridge: " ++ b ++ "\n" | none => "") ++
            (match model with | some m => "- Model: " ++ m ++ "\n" | none => "") ++
            (match macaddr with | some m => "- MAC Address: " ++ m ++ "\n" | none => "") ++
            (match vlan with
              | some (some v) => "- VLAN Tag: " ++ v.repr ++ "\n"
              | some none => "- VLAN Tag: Removed\n"
              | none => "") ++
            (match firewall with
              | some fw => "- Firewall: " ++ (if fw then "Enabled" else "Disabled") ++ "\n"
              | none => ""))))
      (fun msg => textEnv ("❌ **Failed to update VM network interface**\n\nError: " ++ msg ++
        "\n\n**Common issues**:\n- Network interface doesn\x27t exist\n- Bridge doesn\x27t exist\n- Invalid MAC address format\n- Invalid VLAN tag (must be 1-4094)\n- VM is locked or in use"))
  else
    Mpure (textEnv "⚠️  **Network Management Requires Elevated Permissions**\n\nTo update VM network interfaces, set `PROXMOX_ALLOW_ELEVATED=true` in your .env file.\n\n**Current permissions**: Basic (read-only)")

/-- The caller-driven overlay of `updateNetworkLXC`
(src/index.js lines 2980-2999). -/
def overlayNetLXC (parts : List (String × JVal)) (bridge ip gw : Option String) (firewall : Option Bool) : List (String × JVal) :=
  let parts := match bridge with
    | some b => objSet parts "bridge" (JVal.str b)
    | none => parts
  let parts := match ip with
    | some v => objSet parts "ip" (JVal.str v)
    | none => parts
  let parts := match gw with
    | some v => objSet parts "gw" (JVal.str v)
    | none => parts
  match firewall with
  | some fw => if fw then objSet parts "firewall" (JVal.str "1") else objDelete parts "firewall"
  | none => parts

/-- Embedding of `updateNetworkLXC` (src/index.js lines 2945-3034):
read-modify-write of one interface string of the container configuration. -/
def updateNetworkLXC (cfg : ServerCfg) (t : Transport) (node vmid net bridge ip gw : Option String) (firewall : Option Bool) : M OutputEnvelope :=
  if cfg.allowElevated then
    tryCatchE
      (do
        let safeNode ← liftE (validateNodeName node)
        let safeVMID ← liftE (validateVMID vmid)
        let config ← sendReq t ("/nodes/" ++ safeNode ++ "/lxc/" ++ safeVMID ++ "/config") "GET" none
        if (jsTruthy (jget config (optKey net))).not then
          Mpure (textEnv ("❌ **Network interface " ++ tmplOpt net ++ " does not exist**\n\nPlease add the interface first using proxmox_add_network_lxc.\n\n**Existing interfaces**: " ++ netKeysListing config))
        else do
          let currentConfig := jsTmpl (jget config (optKey net))
          let configParts := parseNetConfig currentConfig
          let configParts := overlayNetLXC configParts bridge ip gw firewall
          let netConfig := serializeNetLXC configParts
          let body := JVal.obj [(optKey net, JVal.str netConfig)]
          let _ ← sendReq t ("/nodes/" ++ safeNode ++ "/lxc/" ++ safeVMID ++ "/config") "PUT" (some body)
          Mpure (textEnv ("🔧 **LXC Network Interface Updated**\n\n" ++
            "• **Container ID**: " ++ safeVMID ++ "\n" ++
            "• **Node**: " ++ safeNode ++ "\n" ++
            "• **Interface**: " ++ tmplOpt net ++ "\n" ++
            "• **New Configuration**: " ++ netConfig ++ "\n\n" ++
            "**Changes applied**:\n" ++
            (match bridge with | some b => "- Bridge: " ++ b ++ "\n" | none => "") ++
            (match ip with | some v => "- IP Address: " ++ v ++ "\n" | none => "") ++
            (match gw with | some v => "- Gateway: " ++ v ++ "\n" | none => "") ++
            (match firewall with
              | some fw => "- Firewall: " ++ (if fw then "Enabled" else "Disabled") ++ "\n"
              | none => ""))))
      (fun msg => textEnv ("❌ **Failed to update LXC network interface**\n\nError: " ++ msg ++
        "\n\n**Common issues**:\n- Network interface doesn\x27t exist\n- Bridge doesn\x27t exist\n- Invalid IP address format\n- Invalid gateway address\n- Container is locked or in use"))
  else
    Mpure (textEnv "⚠️  **Network Management Requires Elevated Permissions**\n\nTo update LXC network interfaces, set `PROXMOX_ALLOW_ELEVATED=true` in your .env file.\n\n**Current permissions**: Basic (read-only)")

/-- Embedding of `removeNetworkVM` (src/index.js lines 3036-3075). -/
def removeNetworkVM (cfg : ServerCfg) (t : Transport) (node vmid net : Option String) : M OutputEnvelope :=
  if cfg.allowElevated then
    tryCatchE
      (do
        let safeNode ← liftE (validateNodeName node)
        let safeVMID ← liftE (validateVMID vmid)
        let body := JVal.obj [("delete", optJVal net)]
        let _ ← sendReq t ("/nodes/" ++ safeNode ++ "/qemu/" ++ safeVMID ++ "/config") "PUT" (some body)
        Mpure (textEnv ("➖ **VM Network Interface Removed**\n\n" ++
          "• **VM ID**: " ++ safeVMID ++ "\n" ++
          "• **Node**: " ++ safeNode ++ "\n" ++
          "• **Interface Removed**: " ++ tmplOpt net ++ "\n\n" ++
          "**Note**: The network interface has been removed from the VM configuration.\n" ++
          "**Tip**: If the VM is running, you may need to restart it for changes to take effect.\n")))
      (fun msg => textEnv ("❌ **Failed to remove VM network interface**\n\nError: " ++ msg ++
        "\n\n**Common issues**:\n- Network interface doesn\x27t exist\n- VM is locked or in use\n- Invalid interface name"))
  else
    Mpure (textEnv "⚠️  **Network Management Requires Elevated Permissions**\n\nTo remove VM network interfaces, set `PROXMOX_ALLOW_ELEVATED=true` in your .env file.\n\n**Current permissions**: Basic (read-only)")

/-- Embedding of `removeNetworkLXC` (src/index.js lines 3077-3116). -/
def removeNetworkLXC (cfg : ServerCfg) (t : Transport) (node vmid net : Option String) : M OutputEnvelope :=
  if cfg.allowElevated then
    tryCatchE
      (do
        let safeNode ← liftE (validateNodeName node)
        let safeVMID ← liftE (validateVMID vmid)
        let body := JVal.obj [("delete", optJVal net)]
        let _ ← sendReq t ("/nodes/" ++ safeNode ++ "/lxc/" ++ safeVMID ++ "/config") "PUT" (some body)
        Mpure (textEnv ("➖ **LXC Network Interface Removed**\n\n" ++
          "• **Container ID**: " ++ safeVMID ++ "\n" ++
          "• **Node**: " ++ safeNode ++ "\n" ++
          "• **Interface Removed**: " ++ tmplOpt net ++ "\n\n" ++
          "**Note**: The network interface has been removed from the container configuration.\n" ++
          "**Tip**: If the container is running, you may need to restart it for changes to take effect.\n")))
      (fun msg => textEnv ("❌ **Failed to remove LXC network interface**\n\nError: " ++ msg ++
        "\n\n**Common issues**:\n- Network interface doesn\x27t exist\n- Container is locked or in use\n- Invalid interface name"))
  else
    Mpure (textEnv "⚠️  **Network Management Requires Elevated Permissions**\n\nTo remove LXC network interfaces, set `PROXMOX_ALLOW_ELEVATED=true` in your .env file.\n\n**Current permissions**: Basic (read-only)")

/-! ## Dispatcher -/

/-- The operation registry: the `switch (name)` of `setupToolHandlers`
(src/index.js lines 904-1071) as a first-match name→handler table; every
case forwards the argument fields the source passes. -/
def registry (cfg : ServerCfg) (t : Transport) : List (String × (ToolArgs → M OutputEnvelope)) :=
  [("proxmox_get_nodes", fun _ => getNodes cfg t),
   ("proxmox_get_node_status", fun args => getNodeStatus cfg t args.node),
   ("proxmox_get_vms", fun args => getVMs cfg t args.node args.type_),
   ("proxmox_get_vm_status", fun args => getVMStatus cfg t args.node args.vmid args.type_),
   ("proxmox_execute_vm_command", fun args => executeVMCommand cfg t args.node args.vmid args.command args.type_),
   ("proxmox_get_storage", fun args => getStorage cfg t args.node),
   ("proxmox_get_cluster_status", fun _ => getClusterStatus cfg t),
   ("proxmox_list_templates", fun args => listTemplates cfg t args.node args.storage),
   ("proxmox_create_lxc", fun args => createLXCContainer cfg t args),
   ("proxmox_create_vm", fun args => createVM cfg t args),
   ("proxmox_get_next_vmid", fun _ => getNextVMID cfg t),
   ("proxmox_start_lxc", fun args => startVM cfg t args.node args.vmid "lxc"),
   ("proxmox_start_vm", fun args => startVM cfg t args.node args.vmid "qemu"),
   ("proxmox_stop_lxc", fun args => stopVM cfg t args.node args.vmid "lxc"),
   ("proxmox_stop_vm", fun args => stopVM cfg t args.node args.vmid "qemu"),
   ("proxmox_delete_lxc", fun args => deleteVM cfg t args.node args.vmid "lxc"),
   ("proxmox_delete_vm", fun args => deleteVM cfg t args.node args.vmid "qemu"),
   ("proxmox_reboot_lxc", fun args => rebootVM cfg t args.node args.vmid "lxc"),
   ("proxmox_reboot_vm", fun args => rebootVM cfg t args.node args.vmid "qemu"),
   ("proxmox_shutdown_lxc", fun args => shutdownVM cfg t args.node args.vmid "lxc"),
   ("proxmox_shutdown_vm", fun args => shutdownVM cfg t args.node args.vmid "qemu"),
   ("proxmox_pause_vm", fun args => pauseVM cfg t args.node args.vmid),
   ("proxmox_resume_vm", fun args => resumeVM cfg t args.node args.vmid),
   ("proxmox_clone_lxc", fun args => cloneVM cfg t args.node args.vmid args.newid args.hostname "lxc"),
   ("proxmox_clone_vm", fun args => cloneVM cfg t args.node args.vmid args.newid args.name "qemu"),
   ("proxmox_resize_lxc", fun args => resizeVM cfg t args.node args.vmid args.memory args.cores "lxc"),
   ("proxmox_resize_vm", fun args => resizeVM cfg t args.node args.vmid args.memory args.cores "qemu"),
   ("proxmox_create_snapshot_lxc", fun args => createSnapshot cfg t args.node args.vmid args.snapname "lxc"),
   ("proxmox_create_snapshot_vm", fun args => createSnapshot cfg t args.node args.vmid args.snapname "qemu"),
   ("proxmox_list_snapshots_lxc", fun args => listSnapshots cfg t args.node args.vmid "lxc"),
   ("proxmox_list_snapshots_vm", fun args => listSnapshots cfg t args.node args.vmid "qemu"),
   ("proxmox_rollback_snapshot_lxc", fun args => rollbackSnapshot cfg t args.node args.vmid args.snapname "lxc"),
   ("proxmox_rollback_snapshot_vm", fun args => rollbackSnapshot cfg t args.node args.vmid args.snapname "qemu"),
   ("proxmox_delete_snapshot_lxc", fun args => deleteSnapshot cfg t args.node args.vmid args.snapname "lxc"),
   ("proxmox_delete_snapshot_vm", fun args => deleteSnapshot cfg t args.node args.vmid args.snapname "qemu"),
   ("proxmox_create_backup_lxc", fun args => createBackup cfg t args.node args.vmid args.storage args.mode args.compress "lxc"),
   ("proxmox_create_backup_vm", fun args => createBackup cfg t args.node args.vmid args.storage args.mode args.compress "qemu"),
   ("proxmox_list_backups", fun args => listBackups cfg t args.node args.storage),
   ("proxmox_restore_backup_lxc", fun args => restoreBackup cfg t args.node args.vmid args.archive args.storage "lxc"),
   ("proxmox_restore_backup_vm", fun args => restoreBackup cfg t args.node args.vmid args.archive args.storage "qemu"),
   ("proxmox_delete_backup", fun args => deleteBackup cfg t args.node args.storage args.volume),
   ("proxmox_add_disk_vm", fun args => addDiskVM cfg t args.node args.vmid args.disk args.storage args.size),
   ("proxmox_add_mountpoint_lxc", fun args => addMountPointLXC cfg t args.node args.vmid args.mp args.storage args.size),
   ("proxmox_resize_disk_vm", fun args => resizeDiskVM cfg t args.node args.vmid args.disk args.size),
   ("proxmox_resize_disk_lxc", fun args => resizeDiskLXC cfg t args.node args.vmid args.disk args.size),
   ("proxmox_remove_disk_vm", fun args => removeDiskVM cfg t args.node args.vmid args.disk),
   ("proxmox_remove_mountpoint_lxc", fun args => removeMountPointLXC cfg t args.node args.vmid args.mp),
   ("proxmox_move_disk_vm", fun args => moveDiskVM cfg t args.node args.vmid args.disk args.storage args.deleteSource),
   ("proxmox_move_disk_lxc", fun args => moveDiskLXC cfg t args.node args.vmid args.disk args.storage args.deleteSource),
   ("proxmox_add_network_vm", fun args => addNetworkVM cfg t args.node args.vmid args.net args.bridge args.model args.macaddr args.vlan args.firewall),
   ("proxmox_add_network_lxc", fun args => addNetworkLXC cfg t args.node args.vmid args.net args.bridge args.ip args.gw args.firewall),
   ("proxmox_update_network_vm", fun args => updateNetworkVM cfg t args.node args.vmid args.net args.bridge args.model args.macaddr args.vlan args.firewall),
   ("proxmox_update_network_lxc", fun args => updateNetworkLXC cfg t args.node args.vmid args.net args.bridge args.ip args.gw args.firewall),
   ("proxmox_remove_network_vm", fun args => removeNetworkVM cfg t args.node args.vmid args.net),
   ("proxmox_remove_network_lxc", fun args => removeNetworkLXC cfg t args.node args.vmid args.net)]

/-- Embedding of the `CallToolRequestSchema` handler
(src/index.js lines 900-1083): dispatch by name, the default case throws
`Unknown tool`, and the surrounding `try`/`catch` converts every thrown
error into an `Error: …` text envelope. -/
def callTool (cfg : ServerCfg) (t : Transport) (name : String) (args : ToolArgs) : M OutputEnvelope :=
  tryCatchE
    (match List.lookup name (registry cfg t) with
     | some h => h args
     | none => throwM ("Unknown tool: " ++ name))
    (fun msg => textEnv ("Error: " ++ msg))

/-! ## Decimal representation: correctness of `Nat.repr` round-trips -/

/-- The decimal digit list of a natural number (most significant first),
specified by the usual recursion; shown below to agree with the fuel-based
`Nat.toDigitsCore` used by `Nat.repr`. -/
def digitsOf (n : Nat) : List Char :=
  if _h : n < 10 then [Nat.digitChar n]
  else digitsOf (n / 10) ++ [Nat.digitChar (n % 10)]
decreasing_by exact Nat.div_lt_self (by omega) (by omega)

theorem toDigitsCore_eq_digitsOf (fuel n : Nat) (ds : List Char) (h : n < fuel) :
    Nat.toDigitsCore 10 fuel n ds = digitsOf n ++ ds := by
  induction fuel generalizing n ds with
  | zero => omega
  | succ f ih =>
    rw [Nat.toDigitsCore]
    by_cases h10 : n / 10 = 0
    · have hn : n < 10 := by omega
      rw [if_pos h10, digitsOf, dif_pos hn, Nat.mod_eq_of_lt hn]
      simp
    · have hn : ¬ n < 10 := by
        intro hc
        exact h10 (Nat.div_eq_of_lt hc)
      rw [if_neg h10, ih (n / 10) _ (by omega)]
      conv_rhs => rw [digitsOf]
      rw [dif_neg hn]
      simp

theorem repr_data_eq_digitsOf (n : Nat) : (Nat.repr n).data = digitsOf n := by
  show (List.asString (Nat.toDigitsCore 10 (n + 1) n [])).data = digitsOf n
  rw [toDigitsCore_eq_digitsOf (n + 1) n [] (Nat.lt_succ_self n)]
  simp [List.asString]

theorem digitChar_isDigit {d : Nat} (h : d < 10) : (Nat.digitChar d).isDigit = true := by
  interval_cases d <;> decide

theorem digitChar_toNat {d : Nat} (h : d < 10) : (Nat.digitChar d).toNat = 48 + d := by
  interval_cases d <;> decide

theorem digitsOf_ne_nil (n : Nat) : digitsOf n ≠ [] := by
  rw [digitsOf]
  split <;> simp

theorem digitsOf_all_digits (n : Nat) : ∀ c ∈ digitsOf n, c.isDigit = true := by
  induction n using Nat.strong_induction_on with
  | _ n ih =>
    rw [digitsOf]
    split
    · intro c hc
      rcases List.mem_singleton.mp hc with rfl
      exact digitChar_isDigit (by omega)
    · intro c hc
      rcases List.mem_append.mp hc with h1 | h2
      · exact ih (n / 10) (Nat.div_lt_self (by omega) (by omega)) c h1
      · rcases List.mem_singleton.mp h2 with rfl
        exact digitChar_isDigit (Nat.mod_lt n (by omega))

theorem valDigits_append_one (l : List Char) (c : Char) :
    valDigits (l ++ [c]) = 10 * valDigits l + (c.toNat - 48) := by
  simp [valDigits, List.foldl_append]

theorem valDigits_digitsOf (n : Nat) : valDigits (digitsOf n) = n := by
  induction n using Nat.strong_induction_on with
  | _ n ih =>
    rw [digitsOf]
    split
    · simp only [valDigits, List.foldl]
      rw [digitChar_toNat (by omega)]
      omega
    · rw [valDigits_append_one, ih (n / 10) (Nat.div_lt_self (by omega) (by omega)),
        digitChar_toNat (Nat.mod_lt n (by omega))]
      omega

theorem isDigit_not_space {c : Char} (h : c.isDigit = true) : isJsSpace c = false := by
  unfold isJsSpace
  by_contra hc
  simp only [Bool.not_eq_false, Bool.or_eq_true, decide_eq_true_eq] at hc
  rcases hc with ((((rfl | rfl) | rfl) | rfl) | rfl) | rfl <;> simp [Char.isDigit] at h

theorem takeWhile_of_all {p : Char → Bool} :
    ∀ l : List Char, (∀ c ∈ l, p c = true) → l.takeWhile p = l := by
  intro l h
  induction l with
  | nil => rfl
  | cons c t iht =>
    rw [List.takeWhile_cons, h c (List.mem_cons_self c t),
      iht (fun x hx => h x (List.mem_cons_of_mem c hx))]
    simp

theorem jsParseInt10_repr (n : Nat) : jsParseInt10 (Nat.repr n) = some (n : Int) := by
  have hdata := repr_data_eq_digitsOf n
  have hdig := digitsOf_all_digits n
  obtain ⟨c, rest, hc⟩ : ∃ c rest, digitsOf n = c :: rest := by
    cases hd : digitsOf n with
    | nil => exact absurd hd (digitsOf_ne_nil n)
    | cons c rest => exact ⟨c, rest, rfl⟩
  have hcd : c.isDigit = true := hdig c (hc ▸ List.mem_cons_self c rest)
  have hdrop : (Nat.repr n).data.dropWhile isJsSpace = c :: rest := by
    rw [hdata, hc, List.dropWhile_cons, isDigit_not_space hcd]
    simp
  have hcm : c ≠ '-' := by
    intro h
    subst h
    simp [Char.isDigit] at hcd
  have hcp : c ≠ '+' := by
    intro h
    subst h
    simp [Char.isDigit] at hcd
  have htake : (c :: rest).takeWhile Char.isDigit = c :: rest :=
    takeWhile_of_all (c :: rest) (fun x hx => hdig x (hc ▸ hx))
  have hval : valDigits (c :: rest) = n := by
    rw [← hc]
    exact valDigits_digitsOf n
  simp only [jsParseInt10, hdrop, if_neg hcm, if_neg hcp, htake, hval,
    List.isEmpty_cons, Bool.false_eq_true, if_false, one_mul]

theorem repr_ne_empty (n : Nat) : Nat.repr n ≠ "" := by
  intro h
  have := congrArg String.data h
  rw [repr_data_eq_digitsOf n] at this
  exact digitsOf_ne_nil n this

theorem jsParseInt10_empty : jsParseInt10 "" = none := rfl

theorem validateVMID_ok_of_parse (s : String) (n : Int)
    (hp : jsParseInt10 s = some n) (h1 : 100 ≤ n) (h2 : n ≤ 999999999) :
    validateVMID (some s) = Except.ok (intRepr n) := by
  have hs : s ≠ "" := by
    intro h
    subst h
    rw [jsParseInt10_empty] at hp
    cases hp
  simp only [validateVMID, if_neg hs, hp]
  split
  · exfalso
    rename_i h
    revert h
    simp
    omega
  · rfl

theorem intRepr_natCast (n : Nat) : intRepr (n : Int) = Nat.repr n := by
  unfold intRepr
  rw [if_neg (by omega)]
  congr 1

/-- C5: for every string `s`, `validateVMID s` succeeds iff `s` parses
(ECMAScript `parseInt(s, 10)`: leading whitespace and zeros discarded,
maximal digit run) as a base-10 integer in [100, 999999999]; on success it
returns the canonical decimal string of the parsed integer; and for every
integer in that range, validating its canonical decimal string returns
that same string. -/
theorem C5_validateVMID_range_roundtrip :
    (∀ s : String, (∃ v, validateVMID (some s) = Except.ok v) ↔
        ∃ n : Int, jsParseInt10 s = some n ∧ 100 ≤ n ∧ n ≤ 999999999) ∧
    (∀ (s : String) (n : Int), jsParseInt10 s = some n → 100 ≤ n → n ≤ 999999999 →
        validateVMID (some s) = Except.ok (intRepr n)) ∧
    (∀ n : Nat, 100 ≤ n → n ≤ 999999999 →
        validateVMID (some (Nat.repr n)) = Except.ok (Nat.repr n)) := by
  refine ⟨?_, validateVMID_ok_of_parse, ?_⟩
  · intro s
    constructor
    · rintro ⟨v, hv⟩
      by_cases hs : s = ""
      · subst hs
        simp [validateVMID] at hv
      · simp only [validateVMID, if_neg hs] at hv
        split at hv
        · exact Except.noConfusion hv
        · rename_i id heq
          split at hv
          · exact Except.noConfusion hv
          · rename_i hcond
            refine ⟨id, heq, ?_, ?_⟩ <;> (simp at hcond; omega)
    · rintro ⟨n, hp, h1, h2⟩
      exact ⟨intRepr n, validateVMID_ok_of_parse s n hp h1 h2⟩
  · intro n h1 h2
    have h := validateVMID_ok_of_parse (Nat.repr n) (n : Int) (jsParseInt10_repr n)
      (by exact_mod_cast h1) (by exact_mod_cast h2)
    rwa [intRepr_natCast] at h

/-- Witness for C5: the spec scenario `validateResourceId("100")` succeeds
and returns `"100"`, via the round-trip clause at 100. -/
theorem C5_validateVMID_range_roundtrip_witness :
    validateVMID (some "100") = Except.ok "100" := by
  have h := C5_validateVMID_range_roundtrip.2.2 100 (by norm_num) (by norm_num)
  have hr : Nat.repr 100 = "100" := rfl
  rwa [hr] at h

/-! ## Substring lemmas for the gate and advisory theorems -/

theorem containsChars_append_right (s r p : List Char) (h : containsChars s p = true) :
    containsChars (s ++ r) p = true := by
  induction s with
  | nil =>
    cases p with
    | nil =>
      cases r with
      | nil => rfl
      | cons c t => simp [containsChars]
    | cons c t => simp [containsChars] at h
  | cons c t ih =>
    simp only [containsChars, Bool.or_eq_true] at h
    rcases h with h | h
    · simp only [List.cons_append, containsChars, Bool.or_eq_true]
      exact Or.inl (List.isPrefixOf_iff_prefix.mpr ((List.isPrefixOf_iff_prefix.mp h).trans (List.prefix_append _ _)))
    · simp only [List.cons_append, containsChars, Bool.or_eq_true]
      exact Or.inr (ih h)

theorem containsChars_append_left (s r p : List Char) (h : containsChars r p = true) :
    containsChars (s ++ r) p = true := by
  induction s with
  | nil => exact h
  | cons c t ih =>
    simp only [List.cons_append, containsChars, Bool.or_eq_true]
    exact Or.inr ih

theorem mentions_append_right (s r pat : String) (h : mentions s pat = true) :
    mentions (s ++ r) pat = true := by
  unfold mentions at *
  rw [String.data_append]
  exact containsChars_append_right _ _ _ h

theorem mentions_append_left (s r pat : String) (h : mentions r pat = true) :
    mentions (s ++ r) pat = true := by
  unfold mentions at *
  rw [String.data_append]
  exact containsChars_append_left _ _ _ h

/-! ## C8: `validateCommand` charset property -/

/-- C8 counterexample: the empty string contains none of the dangerous
characters, is (vacuously) printable and within the length bound, yet
`validateCommand` rejects it with the `required` error. -/
theorem C8_counterexample_empty_command :
    ("".data.all (fun c => 32 ≤ c.toNat && c.toNat ≤ 126 && (dangerousChars.contains c).not) = true ∧
      "".length ≤ 1000) ∧
    validateCommand (some "") = Except.error "Command is required and must be a string" := by
  exact ⟨⟨rfl, by norm_num⟩, rfl⟩

/-- C8 (amended): every string containing one of the shell metacharacters
is rejected; every nonempty printable string free of them and of length at
most 1000 is accepted unchanged. -/
theorem C8_validateCommand_charset :
    (∀ s : String, (∃ c ∈ s.data, c ∈ dangerousChars) →
        validateCommand (some s) =
          Except.error "Command contains potentially dangerous characters: ; & | ` $ ( ) \x7b \x7d [ ] < > \\") ∧
    (∀ s : String, s ≠ "" →
        (∀ c ∈ s.data, 32 ≤ c.toNat ∧ c.toNat ≤ 126 ∧ c ∉ dangerousChars) →
        s.length ≤ 1000 →
        validateCommand (some s) = Except.ok s) := by
  constructor
  · rintro s ⟨c, hc, hd⟩
    have hs : s ≠ "" := by
      intro h
      subst h
      simp at hc
    have hany : s.data.any (fun c => dangerousChars.contains c) = true :=
      List.any_eq_true.mpr ⟨c, hc, List.elem_eq_true_of_mem hd⟩
    simp only [validateCommand, if_neg hs, hany, if_true]
  · intro s hs hchars hlen
    have hany : s.data.any (fun c => dangerousChars.contains c) = false := by
      rw [List.any_eq_false]
      intro c hc
      have h3 := (hchars c hc).2.2
      simpa [List.elem_iff] using h3
    have hlt : ¬ 1000 < s.length := by omega
    simp only [validateCommand, if_neg hs, hany, Bool.false_eq_true, if_false, if_neg hlt]

/-- Witness for C8: a dangerous string is rejected and a plain command is
accepted unchanged, both via the claim theorem. -/
theorem C8_validateCommand_charset_witness :
    validateCommand (some "a;b") =
      Except.error "Command contains potentially dangerous characters: ; & | ` $ ( ) \x7b \x7d [ ] < > \\" ∧
    validateCommand (some "ls -la") = Except.ok "ls -la" := by
  constructor
  · exact C8_validateCommand_charset.1 "a;b" ⟨';', by decide, by decide⟩
  · exact C8_validateCommand_charset.2 "ls -la" (by decide) (by decide) (by decide)

/-! ## C1: the permission gate blocks every gated operation up front -/

/-- Whether some text item of the envelope mentions the pattern. -/
def envMentions (e : OutputEnvelope) (pat : String) : Bool :=
  e.content.any (fun c => mentions c.text pat)

/-- The tool names whose handlers consult the permission gate: every
mutating operation plus the gated reads (node status internals, command
execution, snapshot/backup listings). -/
def gatedToolNames : List String :=
  ["proxmox_get_node_status", "proxmox_execute_vm_command", "proxmox_create_lxc", "proxmox_create_vm",
   "proxmox_start_lxc", "proxmox_start_vm", "proxmox_stop_lxc", "proxmox_stop_vm",
   "proxmox_delete_lxc", "proxmox_delete_vm", "proxmox_reboot_lxc", "proxmox_reboot_vm",
   "proxmox_shutdown_lxc", "proxmox_shutdown_vm", "proxmox_pause_vm", "proxmox_resume_vm",
   "proxmox_clone_lxc", "proxmox_clone_vm", "proxmox_resize_lxc", "proxmox_resize_vm",
   "proxmox_create_snapshot_lxc", "proxmox_create_snapshot_vm", "proxmox_list_snapshots_lxc",
   "proxmox_list_snapshots_vm", "proxmox_rollback_snapshot_lxc", "proxmox_rollback_snapshot_vm",
   "proxmox_delete_snapshot_lxc", "proxmox_delete_snapshot_vm", "proxmox_create_backup_lxc",
   "proxmox_create_backup_vm", "proxmox_list_backups", "proxmox_restore_backup_lxc",
   "proxmox_restore_backup_vm", "proxmox_delete_backup", "proxmox_add_disk_vm",
   "proxmox_add_mountpoint_lxc", "proxmox_resize_disk_vm", "proxmox_resize_disk_lxc",
   "proxmox_remove_disk_vm", "proxmox_remove_mountpoint_lxc", "proxmox_move_disk_vm",
   "proxmox_move_disk_lxc", "proxmox_add_network_vm", "proxmox_add_network_lxc",
   "proxmox_update_network_vm", "proxmox_update_network_lxc", "proxmox_remove_network_vm",
   "proxmox_remove_network_lxc"]

/-- C1: with the elevated-permission flag false, every gated operation
issues zero Request Transport calls and returns an envelope without
`isError` whose text mentions `PROXMOX_ALLOW_ELEVATED`, for every transport
and every argument object. -/
theorem C1_gate_denies_without_transport :
    ∀ name ∈ gatedToolNames, ∀ (t : Transport) (args : ToolArgs),
      ∃ env, callTool ⟨false⟩ t name args [] = (Except.ok env, []) ∧
        env.isError = none ∧ envMentions env "PROXMOX_ALLOW_ELEVATED" = true := by
  intro name hname t args
  fin_cases hname <;>
    first
    | exact ⟨_, rfl, rfl, by decide⟩
    | refine ⟨_, rfl, rfl, ?_⟩
      simp only [envMentions, textEnv, List.any_cons, List.any_nil, Bool.or_false]
      apply mentions_append_right
      apply mentions_append_right
      decide

/-- Witness for C1: deleting a VM with the gate denied, against a transport
that would fail if consulted, issues no calls and returns the advisory. -/
theorem C1_gate_denies_without_transport_witness :
    ∃ env, callTool ⟨false⟩ (fun _ _ _ => Except.error "offline") "proxmox_delete_vm" noArgs [] =
        (Except.ok env, []) ∧
      env.isError = none ∧ envMentions env "PROXMOX_ALLOW_ELEVATED" = true :=
  C1_gate_denies_without_transport "proxmox_delete_vm" (by decide)
    (fun _ _ _ => Except.error "offline") noArgs

/-! ## C3: the dispatcher never lets an exception escape -/

/-- The 58 registered tool names (the switch cases of `setupToolHandlers`). -/
def registeredToolNames : List String :=
  ["proxmox_get_nodes", "proxmox_get_node_status", "proxmox_get_vms", "proxmox_get_vm_status",
   "proxmox_execute_vm_command", "proxmox_get_storage", "proxmox_get_cluster_status",
   "proxmox_list_templates", "proxmox_create_lxc", "proxmox_create_vm", "proxmox_get_next_vmid",
   "proxmox_start_lxc", "proxmox_start_vm", "proxmox_stop_lxc", "proxmox_stop_vm",
   "proxmox_delete_lxc", "proxmox_delete_vm", "proxmox_reboot_lxc", "proxmox_reboot_vm",
   "proxmox_shutdown_lxc", "proxmox_shutdown_vm", "proxmox_pause_vm", "proxmox_resume_vm",
   "proxmox_clone_lxc", "proxmox_clone_vm", "proxmox_resize_lxc", "proxmox_resize_vm",
   "proxmox_create_snapshot_lxc", "proxmox_create_snapshot_vm", "proxmox_list_snapshots_lxc",
   "proxmox_list_snapshots_vm", "proxmox_rollback_snapshot_lxc", "proxmox_rollback_snapshot_vm",
   "proxmox_delete_snapshot_lxc", "proxmox_delete_snapshot_vm", "proxmox_create_backup_lxc",
   "proxmox_create_backup_vm", "proxmox_list_backups", "proxmox_restore_backup_lxc",
   "proxmox_restore_backup_vm", "proxmox_delete_backup", "proxmox_add_disk_vm",
   "proxmox_add_mountpoint_lxc", "proxmox_resize_disk_vm", "proxmox_resize_disk_lxc",
   "proxmox_remove_disk_vm", "proxmox_remove_mountpoint_lxc", "proxmox_move_disk_vm",
   "proxmox_move_disk_lxc", "proxmox_add_network_vm", "proxmox_add_network_lxc",
   "proxmox_update_network_vm", "proxmox_update_network_lxc", "proxmox_remove_network_vm",
   "proxmox_remove_network_lxc"]

theorem registry_keys (cfg : ServerCfg) (t : Transport) :
    (registry cfg t).map Prod.fst = registeredToolNames := rfl

theorem lookup_eq_none_of_not_mem_keys {β : Type} (l : List (String × β)) (k : String)
    (h : k ∉ l.map Prod.fst) : List.lookup k l = none := by
  induction l with
  | nil => rfl
  | cons p tl ih =>
    simp only [List.map_cons, List.mem_cons] at h
    push_neg at h
    have hbeq : (k == p.1) = false := beq_eq_false_iff_ne.mpr h.1
    cases p with
    | mk k' v =>
      simp only [List.lookup, hbeq]
      exact ih h.2

theorem tryCatchE_ok {α : Type} (body : M α) (h : String → α) (tr : Trace) :
    ∃ v tr', tryCatchE body h tr = (Except.ok v, tr') := by
  unfold tryCatchE
  rcases hbt : body tr with ⟨res, tr2⟩
  cases res with
  | error e => exact ⟨h e, tr2, rfl⟩
  | ok v => exact ⟨v, tr2, rfl⟩

/-- C3: for every tool name and argument object, `callTool` returns a
normally-shaped envelope (the `Except` layer never surfaces an error to the
caller), and dispatch on an unregistered name yields an in-band error text
naming the unknown tool, with no transport calls and the dispatcher ready
for subsequent calls (it is stateless apart from the per-call trace). -/
theorem C3_callTool_total_and_unknown :
    (∀ (cfg : ServerCfg) (t : Transport) (name : String) (args : ToolArgs) (tr : Trace),
        ∃ env tr', callTool cfg t name args tr = (Except.ok env, tr')) ∧
    (∀ name : String, name ∉ registeredToolNames →
        ∀ (cfg : ServerCfg) (t : Transport) (args : ToolArgs) (tr : Trace),
          callTool cfg t name args tr =
            (Except.ok (textEnv ("Error: Unknown tool: " ++ name)), tr)) := by
  constructor
  · intro cfg t name args tr
    exact tryCatchE_ok _ _ tr
  · intro name hname cfg t args tr
    have hlook : List.lookup name (registry cfg t) = none :=
      lookup_eq_none_of_not_mem_keys _ _ (by rw [registry_keys]; exact hname)
    have htext : "Error: " ++ ("Unknown tool: " ++ name) = "Error: Unknown tool: " ++ name := by
      rw [← String.append_assoc]
      congr 1
    simp only [callTool, hlook, tryCatchE, throwM, htext]

/-- Witness for C3: dispatching the unregistered name `bogus_tool` returns
the in-band unknown-tool envelope with an untouched trace. -/
theorem C3_callTool_total_and_unknown_witness :
    callTool ⟨false⟩ (fun _ _ _ => Except.error "offline") "bogus_tool" noArgs [] =
      (Except.ok (textEnv "Error: Unknown tool: bogus_tool"), []) := by
  have h := C3_callTool_total_and_unknown.2 "bogus_tool" (by decide) ⟨false⟩
    (fun _ _ _ => Except.error "offline") noArgs []
  simpa using h

/-! ## C2: unvalidated node names reach the transport in getVMs/getStorage -/

/-- A benign transport returning empty listings for every request. -/
def emptyListTransport : Transport := fun _ _ _ => Except.ok (JVal.arr [])

/-- C2 evaluation: the node filter `../evil` is rejected by
`validateNodeName`, yet `proxmox_get_vms` and `proxmox_get_storage`
interpolate it into the request paths of issued transport calls — the
validator is never consulted on this code path. -/
theorem C2_unvalidated_node_reaches_transport :
    validateNodeName (some "../evil") =
      Except.error "Invalid node name format. Only alphanumeric, hyphens, and underscores allowed" ∧
    ((callTool ⟨false⟩ emptyListTransport "proxmox_get_vms"
          { noArgs with node := some "../evil" } []).2.map (fun r => (r.path, r.method)) =
        [("/nodes/../evil/qemu", "GET"), ("/nodes/../evil/lxc", "GET")]) ∧
    ((callTool ⟨false⟩ emptyListTransport "proxmox_get_storage"
          { noArgs with node := some "../evil" } []).2.map (fun r => (r.path, r.method)) =
        [("/nodes/../evil/storage", "GET")]) := by
  refine ⟨rfl, ?_, ?_⟩ <;> rfl

/-! ## Computation lemmas for the handler monad -/

theorem bind_def {α β : Type} (x : M α) (f : α → M β) : x >>= f = Mbind x f := rfl

theorem tryCatchE_run {α : Type} (body : M α) (h : String → α) (tr : Trace) :
    tryCatchE body h tr =
      (match body tr with
       | (Except.ok v, tr') => (Except.ok v, tr')
       | (Except.error e, tr') => (Except.ok (h e), tr')) := rfl

theorem Mbind_liftE_ok {α β : Type} (a : α) (f : α → M β) (tr : Trace) :
    Mbind (liftE (Except.ok a)) f tr = f a tr := rfl

theorem Mbind_liftE_error {α β : Type} (e : String) (f : α → M β) (tr : Trace) :
    Mbind (liftE (Except.error e)) f tr = (Except.error e, tr) := rfl

theorem Mbind_sendReq {β : Type} (t : Transport) (p m : String) (b : Option JVal)
    (f : JVal → M β) (tr : Trace) :
    Mbind (sendReq t p m b) f tr =
      (match t p m b with
       | Except.ok v => f v (tr ++ [⟨p, m, b⟩])
       | Except.error e => (Except.error e, tr ++ [⟨p, m, b⟩])) := by
  unfold Mbind sendReq
  cases t p m b <;> rfl

/-! ## C7: the `current` sentinel is filtered before counting and display -/

/-- A transport whose snapshot listing is the given array. -/
def snapTransport (sl : List JVal) : Transport := fun _ _ _ => Except.ok (JVal.arr sl)

/-- The spec scenario list: two real snapshots plus the sentinel. -/
def sentinelScenario : List JVal :=
  [JVal.obj [("name", JVal.str "daily")], JVal.obj [("name", JVal.str "weekly")],
   JVal.obj [("name", JVal.str "current")]]

/-- C7: `listSnapshots` is invariant under pre-filtering the remote list by
the sentinel predicate — entries named `current` are excluded before any
counting or display — and on the sentinel-plus-two-real scenario it reports
a total of 2 with the sentinel name absent from the output text. -/
theorem C7_snapshot_sentinel_filtered :
    (∀ (sl : List JVal) (node vmid : Option String) (ty : String) (tr : Trace),
        listSnapshots ⟨true⟩ (snapTransport sl) node vmid ty tr =
          listSnapshots ⟨true⟩
            (snapTransport (sl.filter (fun snap => (jeqStr (jget snap "name") "current").not)))
            node vmid ty tr) ∧
    (∃ env, (listSnapshots ⟨true⟩ (snapTransport sentinelScenario) (some "pve1") (some "200") "lxc" []).1 =
        Except.ok env ∧
      envMentions env "**Total**: 2 snapshot(s)" = true ∧
      envMentions env "current" = false) := by
  constructor
  · intro sl node vmid ty tr
    cases hn : validateNodeName node with
    | error e => simp [listSnapshots, bind_def, Mbind, liftE, tryCatchE, hn]
    | ok sn =>
      cases hv : validateVMID vmid with
      | error e => simp [listSnapshots, bind_def, Mbind, liftE, tryCatchE, hn, hv]
      | ok vm =>
        simp only [listSnapshots, bind_def, hn, hv, if_true, tryCatchE_run, Mbind_liftE_ok,
          Mbind_sendReq, snapTransport, Mpure, jsTruthy, jarr, Bool.not_true, Bool.false_or]
        simp only [List.filter_filter, Bool.and_self]
        by_cases h0 : sl.length = 0
        · have h0' : sl = [] := List.length_eq_zero.mp h0
          subst h0'
          rfl
        · by_cases hf : (sl.filter (fun snap => !jeqStr (jget snap "name") "current")).length = 0
          · simp [h0, hf]
          · simp [h0, hf]
  · exact ⟨_, rfl, by decide, by decide⟩

/-! ## C9: which read-only handlers consult the permission gate -/

/-- A one-node cluster transport: `/nodes` lists a single online node and
every other request (in particular `/cluster/status`) fails. -/
def oneNodeTransport : Transport := fun p _ _ =>
  if p = "/nodes" then
    Except.ok (JVal.arr [JVal.obj [("node", JVal.str "pve1"), ("status", JVal.str "online")]])
  else Except.error "permission denied"

deriving instance DecidableEq for Except

/-- C9 counterexample: `getClusterStatus` consults the permission gate —
with identical transport behaviour, flipping only the elevated flag changes
both the envelope text and the sequence of transport calls (the elevated
run additionally requests `/cluster/status`). -/
theorem C9_counterexample_getClusterStatus_reads_gate :
    ((getClusterStatus ⟨true⟩ oneNodeTransport []).2.map Req.path =
        ["/nodes", "/cluster/status"] ∧
      (getClusterStatus ⟨false⟩ oneNodeTransport []).2.map Req.path = ["/nodes"]) ∧
    (getClusterStatus ⟨true⟩ oneNodeTransport []).1 ≠
      (getClusterStatus ⟨false⟩ oneNodeTransport []).1 := by
  refine ⟨⟨rfl, rfl⟩, ?_⟩
  decide

/-- C9 (amended): the other basic read operations — list nodes, list VMs,
get coarse VM status, get storage — never consult the gate: with identical
arguments and transport, runs under any two flag values are identical in
both envelope and transport-call sequence.  `getClusterStatus` is the
exception: it reads the flag to decide whether to fetch `/cluster/status`
and whether to render the resource summary. -/
theorem C9_basic_reads_ignore_gate :
    ∀ (e1 e2 : Bool) (t : Transport) (node vmid ty : Option String) (tr : Trace),
      getNodes ⟨e1⟩ t tr = getNodes ⟨e2⟩ t tr ∧
      getVMs ⟨e1⟩ t node ty tr = getVMs ⟨e2⟩ t node ty tr ∧
      getVMStatus ⟨e1⟩ t node vmid ty tr = getVMStatus ⟨e2⟩ t node vmid ty tr ∧
      getStorage ⟨e1⟩ t node tr = getStorage ⟨e2⟩ t node tr := by
  intro e1 e2 t node vmid ty tr
  exact ⟨rfl, rfl, rfl, rfl⟩

/-- Witness for C9 (amended) at concrete inputs: both flag values give the
same `getVMs` run against the one-node transport. -/
theorem C9_basic_reads_ignore_gate_witness :
    getVMs ⟨true⟩ oneNodeTransport (some "pve1") none [] =
      getVMs ⟨false⟩ oneNodeTransport (some "pve1") none [] :=
  (C9_basic_reads_ignore_gate true false oneNodeTransport (some "pve1") none none []).2.1

/-! ## C10: updating a missing network interface issues no write -/

theorem containsChars_self (p : List Char) : containsChars p p = true := by
  cases p with
  | nil => rfl
  | cons c t =>
    simp only [containsChars, Bool.or_eq_true]
    exact Or.inl (List.isPrefixOf_iff_prefix.mpr (List.prefix_refl _))

theorem joinSep_mem_contains (l : List String) (k : String) (hk : k ∈ l) :
    containsChars (joinSep ", " l).data k.data = true := by
  induction l with
  | nil => cases hk
  | cons s rest ih =>
    cases rest with
    | nil =>
      rcases List.mem_singleton.mp hk with rfl
      exact containsChars_self _
    | cons s2 rest2 =>
      rcases List.mem_cons.mp hk with rfl | hmem
      · show containsChars ((k ++ ", ") ++ joinSep ", " (s2 :: rest2)).data k.data = true
        rw [String.data_append, String.data_append]
        exact containsChars_append_right _ _ _
          (containsChars_append_right _ _ _ (containsChars_self _))
      · show containsChars ((s ++ ", ") ++ joinSep ", " (s2 :: rest2)).data k.data = true
        rw [String.data_append]
        exact containsChars_append_left _ _ _ (ih hmem)

theorem mentions_netKeysListing (config : JVal) (k : String)
    (hk : k ∈ ((jfields config).map Prod.fst).filter (fun k => "net".data.isPrefixOf k.data)) :
    mentions (netKeysListing config) k = true := by
  have hpre : "net".data.isPrefixOf k.data = true := (List.mem_filter.mp hk).2
  have hkne : k.data ≠ [] := by
    intro h
    rw [h] at hpre
    simp [List.isPrefixOf] at hpre
  have hcontains := joinSep_mem_contains _ k hk
  unfold mentions
  by_cases hj :
      joinSep ", " (((jfields config).map Prod.fst).filter (fun k => "net".data.isPrefixOf k.data)) = ""
  · exfalso
    rw [hj] at hcontains
    simp only [containsChars] at hcontains
    exact hkne (List.isEmpty_iff.mp hcontains)
  · have hnk : netKeysListing config =
        joinSep ", " (((jfields config).map Prod.fst).filter (fun k => "net".data.isPrefixOf k.data)) := by
      simp [netKeysListing, hj]
    rw [hnk]
    exact hcontains

/-- C10: when the named interface key is absent (`undefined`) in the
fetched configuration, `updateNetworkVM` and `updateNetworkLXC` issue only
the initial GET — no PUT ever reaches the transport — and return a
non-error advisory envelope mentioning every existing `net*` key. -/
theorem C10_update_missing_interface_no_write :
    ∀ (t : Transport) (node vmid net bridge model macaddr ip gw : Option String)
      (vlan : Option (Option Int)) (fw : Option Bool) (sn vm : String) (cfgQ cfgL : JVal)
      (tr : Trace),
      validateNodeName node = Except.ok sn →
      validateVMID vmid = Except.ok vm →
      t ("/nodes/" ++ sn ++ "/qemu/" ++ vm ++ "/config") "GET" none = Except.ok cfgQ →
      t ("/nodes/" ++ sn ++ "/lxc/" ++ vm ++ "/config") "GET" none = Except.ok cfgL →
      jget cfgQ (optKey net) = JVal.undef →
      jget cfgL (optKey net) = JVal.undef →
      (∃ env, updateNetworkVM ⟨true⟩ t node vmid net bridge model macaddr vlan fw tr =
          (Except.ok env, tr ++ [⟨"/nodes/" ++ sn ++ "/qemu/" ++ vm ++ "/config", "GET", none⟩]) ∧
        env.isError = none ∧
        ∀ k ∈ ((jfields cfgQ).map Prod.fst).filter (fun k => "net".data.isPrefixOf k.data),
          envMentions env k = true) ∧
      (∃ env, updateNetworkLXC ⟨true⟩ t node vmid net bridge ip gw fw tr =
          (Except.ok env, tr ++ [⟨"/nodes/" ++ sn ++ "/lxc/" ++ vm ++ "/config", "GET", none⟩]) ∧
        env.isError = none ∧
        ∀ k ∈ ((jfields cfgL).map Prod.fst).filter (fun k => "net".data.isPrefixOf k.data),
          envMentions env k = true) := by
  intro t node vmid net bridge model macaddr ip gw vlan fw sn vm cfgQ cfgL tr hn hv hgetQ hgetL habsQ habsL
  constructor
  · simp only [updateNetworkVM, bind_def, hn, hv, if_true, tryCatchE_run, Mbind_liftE_ok,
      Mbind_sendReq, hgetQ, habsQ, jsTruthy, Bool.not_false, Mpure]
    refine ⟨_, rfl, rfl, ?_⟩
    intro k hk
    simp only [envMentions, textEnv, List.any_cons, List.any_nil, Bool.or_false]
    apply mentions_append_left
    exact mentions_netKeysListing cfgQ k hk
  · simp only [updateNetworkLXC, bind_def, hn, hv, if_true, tryCatchE_run, Mbind_liftE_ok,
      Mbind_sendReq, hgetL, habsL, jsTruthy, Bool.not_false, Mpure]
    refine ⟨_, rfl, rfl, ?_⟩
    intro k hk
    simp only [envMentions, textEnv, List.any_cons, List.any_nil, Bool.or_false]
    apply mentions_append_left
    exact mentions_netKeysListing cfgL k hk

/-- A transport whose QEMU and LXC configurations hold only `net0`. -/
def net0OnlyTransport : Transport := fun _ m _ =>
  if m = "GET" then Except.ok (JVal.obj [("net0", JVal.str "virtio,bridge=vmbr0")])
  else Except.error "unexpected write"

/-- Witness for C10 at concrete inputs: updating the absent `net1` issues
only the GET and the advisory lists `net0`. -/
theorem C10_update_missing_interface_no_write_witness :
    (∃ env, updateNetworkVM ⟨true⟩ net0OnlyTransport (some "pve1") (some "200") (some "net1")
          (some "vmbr1") none none none none [] =
        (Except.ok env, [⟨"/nodes/pve1/qemu/200/config", "GET", none⟩]) ∧
      env.isError = none ∧
      ∀ k ∈ (((jfields (JVal.obj [("net0", JVal.str "virtio,bridge=vmbr0")])).map Prod.fst).filter
          (fun k => "net".data.isPrefixOf k.data)),
        envMentions env k = true) ∧
    (∃ env, updateNetworkLXC ⟨true⟩ net0OnlyTransport (some "pve1") (some "200") (some "net1")
          (some "vmbr1") none none none [] =
        (Except.ok env, [⟨"/nodes/pve1/lxc/200/config", "GET", none⟩]) ∧
      env.isError = none ∧
      ∀ k ∈ (((jfields (JVal.obj [("net0", JVal.str "virtio,bridge=vmbr0")])).map Prod.fst).filter
          (fun k => "net".data.isPrefixOf k.data)),
        envMentions env k = true) :=
  C10_update_missing_interface_no_write net0OnlyTransport (some "pve1") (some "200")
    (some "net1") (some "vmbr1") none none none none none none "pve1" "200"
    (JVal.obj [("net0", JVal.str "virtio,bridge=vmbr0")])
    (JVal.obj [("net0", JVal.str "virtio,bridge=vmbr0")]) []
    rfl rfl rfl rfl rfl rfl

/-! ## C6: fan-out request counts, ordering, tagging and abort -/

theorem Mbind_Mpure {α β : Type} (a : α) (f : α → M β) (tr : Trace) :
    Mbind (Mpure a) f tr = f a tr := rfl

theorem Mbind_assoc {α β γ : Type} (x : M α) (f : α → M β) (g : β → M γ) (tr : Trace) :
    Mbind (Mbind x f) g tr = Mbind x (fun a => Mbind (f a) g) tr := by
  unfold Mbind
  rcases x tr with ⟨res, tr'⟩
  cases res <;> rfl

theorem Mbind_of_eq_ok {α β : Type} (x : M α) (f : α → M β) (tr tr' : Trace) (a : α)
    (h : x tr = (Except.ok a, tr')) : Mbind x f tr = f a tr' := by
  unfold Mbind
  rw [h]

theorem Mbind_of_eq_error {α β : Type} (x : M α) (f : α → M β) (tr tr' : Trace) (e : String)
    (h : x tr = (Except.error e, tr')) : Mbind x f tr = (Except.error e, tr') := by
  unfold Mbind
  rw [h]

theorem getVMsFan_all (t : Transport) (qd ld : String → JVal) :
    ∀ (ns : List String) (acc : List JVal) (tr : Trace),
      (∀ n ∈ ns, t ("/nodes/" ++ n ++ "/qemu") "GET" none = Except.ok (qd n)) →
      (∀ n ∈ ns, t ("/nodes/" ++ n ++ "/lxc") "GET" none = Except.ok (ld n)) →
      getVMsFan t "all" (ns.map (fun n => JVal.obj [("node", JVal.str n)])) acc tr =
        (Except.ok (acc ++ ns.flatMap (fun n =>
            (jarr (qd n)).map (fun vm => tagVM vm "qemu" (JVal.str n)) ++
            (jarr (ld n)).map (fun vm => tagLXCFan vm (JVal.str n)))),
          tr ++ ns.flatMap (fun n =>
            [⟨"/nodes/" ++ n ++ "/qemu", "GET", none⟩, ⟨"/nodes/" ++ n ++ "/lxc", "GET", none⟩])) := by
  intro ns
  induction ns with
  | nil =>
    intro acc tr _ _
    simp [getVMsFan, Mpure]
  | cons n rest ih =>
    intro acc tr hq hl
    have hqn := hq n (List.mem_cons_self n rest)
    have hln := hl n (List.mem_cons_self n rest)
    simp only [List.map_cons, getVMsFan, bind_def, Mbind_assoc, Mbind_sendReq, Mbind_Mpure,
      jget, jsTmpl, List.foldl, Option.getD, hqn, hln, decide_True, decide_False, Bool.true_or,
      Bool.or_false, if_true]
    rw [ih _ _ (fun m hm => hq m (List.mem_cons_of_mem n hm))
      (fun m hm => hl m (List.mem_cons_of_mem n hm))]
    simp [List.append_assoc]

theorem getStorageFan_all (t : Transport) (sd : String → JVal) :
    ∀ (ns : List String) (acc : List JVal) (tr : Trace),
      (∀ n ∈ ns, t ("/nodes/" ++ n ++ "/storage") "GET" none = Except.ok (sd n)) →
      getStorageFan t (ns.map (fun n => JVal.obj [("node", JVal.str n)])) acc tr =
        (Except.ok (acc ++ ns.flatMap (fun n =>
            (jarr (sd n)).map (fun s => JVal.obj (objSet (jfields s) "node" (JVal.str n))))),
          tr ++ ns.map (fun n => ⟨"/nodes/" ++ n ++ "/storage", "GET", none⟩)) := by
  intro ns
  induction ns with
  | nil =>
    intro acc tr _
    simp [getStorageFan, Mpure]
  | cons n rest ih =>
    intro acc tr hs
    have hsn := hs n (List.mem_cons_self n rest)
    simp only [List.map_cons, getStorageFan, bind_def, Mbind_assoc, Mbind_sendReq, Mbind_Mpure,
      jget, jsTmpl, List.foldl, Option.getD, hsn, decide_True, decide_False, Bool.true_or,
      Bool.or_false, if_true]
    rw [ih _ _ (fun m hm => hs m (List.mem_cons_of_mem n hm))]
    simp [List.append_assoc]

theorem getVMsFan_abort (t : Transport) (qd ld : String → JVal) :
    ∀ (ns1 : List String) (n : String) (ns2 : List String) (acc : List JVal) (tr : Trace)
      (e : String),
      (∀ m ∈ ns1, t ("/nodes/" ++ m ++ "/qemu") "GET" none = Except.ok (qd m)) →
      (∀ m ∈ ns1, t ("/nodes/" ++ m ++ "/lxc") "GET" none = Except.ok (ld m)) →
      t ("/nodes/" ++ n ++ "/qemu") "GET" none = Except.error e →
      getVMsFan t "all" ((ns1 ++ n :: ns2).map (fun m => JVal.obj [("node", JVal.str m)])) acc tr =
        (Except.error e,
          tr ++ ns1.flatMap (fun m =>
            [⟨"/nodes/" ++ m ++ "/qemu", "GET", none⟩, ⟨"/nodes/" ++ m ++ "/lxc", "GET", none⟩]) ++
            [⟨"/nodes/" ++ n ++ "/qemu", "GET", none⟩]) := by
  intro ns1
  induction ns1 with
  | nil =>
    intro n ns2 acc tr e _ _ herr
    simp only [List.nil_append, List.map_cons, getVMsFan, bind_def, Mbind_assoc, Mbind_sendReq,
      Mbind_Mpure, jget, jsTmpl, List.foldl, Option.getD, herr, decide_True, decide_False,
      Bool.true_or, Bool.or_false, if_true]
    simp
  | cons m rest ih =>
    intro n ns2 acc tr e hq hl herr
    have hqm := hq m (List.mem_cons_self m rest)
    have hlm := hl m (List.mem_cons_self m rest)
    simp only [List.cons_append, List.map_cons, getVMsFan, bind_def, Mbind_assoc, Mbind_sendReq,
      Mbind_Mpure, jget, jsTmpl, List.foldl, Option.getD, hqm, hlm, decide_True, decide_False,
      Bool.true_or, Bool.or_false, if_true, List.append_eq]
    rw [ih n ns2 _ _ e (fun x hx => hq x (List.mem_cons_of_mem m hx))
      (fun x hx => hl x (List.mem_cons_of_mem m hx)) herr]
    simp [List.append_assoc]

theorem getVMsFan_abort_lxc (t : Transport) (qd ld : String → JVal) :
    ∀ (ns1 : List String) (n : String) (ns2 : List String) (acc : List JVal) (tr : Trace)
      (e : String),
      (∀ m ∈ ns1, t ("/nodes/" ++ m ++ "/qemu") "GET" none = Except.ok (qd m)) →
      (∀ m ∈ ns1, t ("/nodes/" ++ m ++ "/lxc") "GET" none = Except.ok (ld m)) →
      t ("/nodes/" ++ n ++ "/qemu") "GET" none = Except.ok (qd n) →
      t ("/nodes/" ++ n ++ "/lxc") "GET" none = Except.error e →
      getVMsFan t "all" ((ns1 ++ n :: ns2).map (fun m => JVal.obj [("node", JVal.str m)])) acc tr =
        (Except.error e,
          tr ++ ns1.flatMap (fun m =>
            [⟨"/nodes/" ++ m ++ "/qemu", "GET", none⟩, ⟨"/nodes/" ++ m ++ "/lxc", "GET", none⟩]) ++
            [⟨"/nodes/" ++ n ++ "/qemu", "GET", none⟩, ⟨"/nodes/" ++ n ++ "/lxc", "GET", none⟩]) := by
  intro ns1
  induction ns1 with
  | nil =>
    intro n ns2 acc tr e _ _ hqn herr
    simp only [List.nil_append, List.map_cons, getVMsFan, bind_def, Mbind_assoc, Mbind_sendReq,
      Mbind_Mpure, jget, jsTmpl, List.foldl, Option.getD, hqn, herr, decide_True, decide_False,
      Bool.true_or, Bool.or_false, if_true]
    simp
  | cons m rest ih =>
    intro n ns2 acc tr e hq hl hqn herr
    have hqm := hq m (List.mem_cons_self m rest)
    have hlm := hl m (List.mem_cons_self m rest)
    simp only [List.cons_append, List.map_cons, getVMsFan, bind_def, Mbind_assoc, Mbind_sendReq,
      Mbind_Mpure, jget, jsTmpl, List.foldl, Option.getD, hqm, hlm, decide_True, decide_False,
      Bool.true_or, Bool.or_false, if_true, List.append_eq]
    rw [ih n ns2 _ _ e (fun x hx => hq x (List.mem_cons_of_mem m hx))
      (fun x hx => hl x (List.mem_cons_of_mem m hx)) hqn herr]
    simp [List.append_assoc]

theorem getStorageFan_abort (t : Transport) (sd : String → JVal) :
    ∀ (ns1 : List String) (n : String) (ns2 : List String) (acc : List JVal) (tr : Trace)
      (e : String),
      (∀ m ∈ ns1, t ("/nodes/" ++ m ++ "/storage") "GET" none = Except.ok (sd m)) →
      t ("/nodes/" ++ n ++ "/storage") "GET" none = Except.error e →
      getStorageFan t ((ns1 ++ n :: ns2).map (fun m => JVal.obj [("node", JVal.str m)])) acc tr =
        (Except.error e,
          tr ++ ns1.map (fun m => ⟨"/nodes/" ++ m ++ "/storage", "GET", none⟩) ++
            [⟨"/nodes/" ++ n ++ "/storage", "GET", none⟩]) := by
  intro ns1
  induction ns1 with
  | nil =>
    intro n ns2 acc tr e _ herr
    simp only [List.nil_append, List.map_cons, getStorageFan, bind_def, Mbind_assoc, Mbind_sendReq,
      Mbind_Mpure, jget, jsTmpl, List.foldl, Option.getD, herr, decide_True, decide_False,
      Bool.true_or, Bool.or_false, if_true]
    simp
  | cons m rest ih =>
    intro n ns2 acc tr e hs herr
    have hsm := hs m (List.mem_cons_self m rest)
    simp only [List.cons_append, List.map_cons, getStorageFan, bind_def, Mbind_assoc, Mbind_sendReq,
      Mbind_Mpure, jget, jsTmpl, List.foldl, Option.getD, hsm, decide_True, decide_False,
      Bool.true_or, Bool.or_false, if_true, List.append_eq]
    rw [ih n ns2 _ _ e (fun x hx => hs x (List.mem_cons_of_mem m hx)) herr]
    simp [List.append_assoc]

/-- A one-node cluster transport answering every sub-listing with an empty
array. -/
def fanOneNode : Transport := fun p _ _ =>
  if p = "/nodes" then Except.ok (JVal.arr [JVal.obj [("node", JVal.str "pve1")]])
  else Except.ok (JVal.arr [])

/-- C6 counterexample: against one configured node, the no-filter VM
listing (default type filter `all`) issues three transport calls — nodes,
then qemu and lxc for the node — not N+1 = 2. -/
theorem C6_counterexample_vm_fanout_call_count :
    (getVMs ⟨false⟩ fanOneNode none none []).2.map Req.path =
      ["/nodes", "/nodes/pve1/qemu", "/nodes/pve1/lxc"] ∧
    (getVMs ⟨false⟩ fanOneNode none none []).2.length ≠ 1 + 1 := by
  exact ⟨rfl, by decide⟩

/-- C6 (amended): with N configured nodes, the no-filter `getStorage`
issues exactly N+1 sequential calls (nodes, then one storage call per node
in node-list order); the no-filter `getVMs` with the default `all` type
filter issues exactly 2N+1 calls (nodes, then qemu and lxc per node in
node-list order); each collected record is tagged with its originating
node; and a failing per-node sub-request — a qemu or lxc listing in
`getVMs`, a storage listing in `getStorage` — aborts the whole operation
with the thrown transport error instead of a partial result. -/
theorem C6_fanout_counts_order_tagging_abort :
    (∀ (t : Transport) (ns : List String) (qd ld sd : String → JVal) (tr : Trace) (e1 e2 : Bool),
      t "/nodes" "GET" none =
          Except.ok (JVal.arr (ns.map (fun n => JVal.obj [("node", JVal.str n)]))) →
      (∀ n ∈ ns, t ("/nodes/" ++ n ++ "/qemu") "GET" none = Except.ok (qd n)) →
      (∀ n ∈ ns, t ("/nodes/" ++ n ++ "/lxc") "GET" none = Except.ok (ld n)) →
      (∀ n ∈ ns, t ("/nodes/" ++ n ++ "/storage") "GET" none = Except.ok (sd n)) →
      ((getStorage ⟨e1⟩ t none tr).2 =
          tr ++ ⟨"/nodes", "GET", none⟩ ::
            ns.map (fun n => ⟨"/nodes/" ++ n ++ "/storage", "GET", none⟩) ∧
        (∃ env, (getStorage ⟨e1⟩ t none tr).1 = Except.ok env)) ∧
      ((getVMs ⟨e2⟩ t none none tr).2 =
          tr ++ ⟨"/nodes", "GET", none⟩ :: ns.flatMap (fun n =>
            [⟨"/nodes/" ++ n ++ "/qemu", "GET", none⟩, ⟨"/nodes/" ++ n ++ "/lxc", "GET", none⟩]) ∧
        (∃ env, (getVMs ⟨e2⟩ t none none tr).1 = Except.ok env)) ∧
      getVMsFan t "all" (ns.map (fun n => JVal.obj [("node", JVal.str n)])) [] tr =
        (Except.ok (ns.flatMap (fun n =>
            (jarr (qd n)).map (fun vm => tagVM vm "qemu" (JVal.str n)) ++
            (jarr (ld n)).map (fun vm => tagLXCFan vm (JVal.str n)))),
          tr ++ ns.flatMap (fun n =>
            [⟨"/nodes/" ++ n ++ "/qemu", "GET", none⟩, ⟨"/nodes/" ++ n ++ "/lxc", "GET", none⟩]))) ∧
    (∀ (t : Transport) (ns1 : List String) (n : String) (ns2 : List String) (qd ld : String → JVal)
        (e : String) (tr : Trace) (flag : Bool),
      t "/nodes" "GET" none =
          Except.ok (JVal.arr ((ns1 ++ n :: ns2).map (fun m => JVal.obj [("node", JVal.str m)]))) →
      (∀ m ∈ ns1, t ("/nodes/" ++ m ++ "/qemu") "GET" none = Except.ok (qd m)) →
      (∀ m ∈ ns1, t ("/nodes/" ++ m ++ "/lxc") "GET" none = Except.ok (ld m)) →
      t ("/nodes/" ++ n ++ "/qemu") "GET" none = Except.error e →
      getVMs ⟨flag⟩ t none none tr =
        (Except.error e,
          tr ++ ⟨"/nodes", "GET", none⟩ :: (ns1.flatMap (fun m =>
            [⟨"/nodes/" ++ m ++ "/qemu", "GET", none⟩, ⟨"/nodes/" ++ m ++ "/lxc", "GET", none⟩]) ++
            [⟨"/nodes/" ++ n ++ "/qemu", "GET", none⟩]))) ∧
    (∀ (t : Transport) (ns1 : List String) (n : String) (ns2 : List String) (qd ld : String → JVal)
        (e : String) (tr : Trace) (flag : Bool),
      t "/nodes" "GET" none =
          Except.ok (JVal.arr ((ns1 ++ n :: ns2).map (fun m => JVal.obj [("node", JVal.str m)]))) →
      (∀ m ∈ ns1, t ("/nodes/" ++ m ++ "/qemu") "GET" none = Except.ok (qd m)) →
      (∀ m ∈ ns1, t ("/nodes/" ++ m ++ "/lxc") "GET" none = Except.ok (ld m)) →
      t ("/nodes/" ++ n ++ "/qemu") "GET" none = Except.ok (qd n) →
      t ("/nodes/" ++ n ++ "/lxc") "GET" none = Except.error e →
      getVMs ⟨flag⟩ t none none tr =
        (Except.error e,
          tr ++ ⟨"/nodes", "GET", none⟩ :: (ns1.flatMap (fun m =>
            [⟨"/nodes/" ++ m ++ "/qemu", "GET", none⟩, ⟨"/nodes/" ++ m ++ "/lxc", "GET", none⟩]) ++
            [⟨"/nodes/" ++ n ++ "/qemu", "GET", none⟩, ⟨"/nodes/" ++ n ++ "/lxc", "GET", none⟩]))) ∧
    (∀ (t : Transport) (ns1 : List String) (n : String) (ns2 : List String) (sd : String → JVal)
        (e : String) (tr : Trace) (flag : Bool),
      t "/nodes" "GET" none =
          Except.ok (JVal.arr ((ns1 ++ n :: ns2).map (fun m => JVal.obj [("node", JVal.str m)]))) →
      (∀ m ∈ ns1, t ("/nodes/" ++ m ++ "/storage") "GET" none = Except.ok (sd m)) →
      t ("/nodes/" ++ n ++ "/storage") "GET" none = Except.error e →
      getStorage ⟨flag⟩ t none tr =
        (Except.error e,
          tr ++ ⟨"/nodes", "GET", none⟩ :: (ns1.map (fun m =>
            ⟨"/nodes/" ++ m ++ "/storage", "GET", none⟩) ++
            [⟨"/nodes/" ++ n ++ "/storage", "GET", none⟩]))) := by
  refine ⟨?_, ?_, ?_, ?_⟩
  · intro t ns qd ld sd tr e1 e2 hnodes hq hl hs
    refine ⟨?_, ?_, ?_⟩
    · have hfan := getStorageFan_all t sd ns [] (tr ++ [⟨"/nodes", "GET", none⟩]) hs
      simp only [getStorage, bind_def, orStr, Option.getD, Mbind_assoc, Mbind_sendReq, hnodes,
        jarr, decide_True, decide_False, Bool.true_or, Bool.or_false, if_true, ne_eq,
        not_true_eq_false, if_false, Mbind_Mpure]
      rw [Mbind_of_eq_ok _ _ _ _ _ hfan]
      constructor
      · simp [Mpure, List.append_assoc]
      · exact ⟨_, rfl⟩
    · have hfan := getVMsFan_all t qd ld ns [] (tr ++ [⟨"/nodes", "GET", none⟩]) hq hl
      simp only [getVMs, bind_def, orStr, Option.getD, Mbind_assoc, Mbind_sendReq, hnodes, jarr,
        decide_True, decide_False, Bool.true_or, Bool.or_false, if_true, ne_eq,
        not_true_eq_false, if_false, Mbind_Mpure]
      rw [Mbind_of_eq_ok _ _ _ _ _ hfan]
      constructor
      · simp [Mpure, List.append_assoc]
      · exact ⟨_, rfl⟩
    · have hfan := getVMsFan_all t qd ld ns [] tr hq hl
      simpa using hfan
  · intro t ns1 n ns2 qd ld e tr flag hnodes hq hl herr
    have hab := getVMsFan_abort t qd ld ns1 n ns2 [] (tr ++ [⟨"/nodes", "GET", none⟩]) e hq hl herr
    simp only [getVMs, bind_def, orStr, Option.getD, Mbind_assoc, Mbind_sendReq, hnodes, jarr,
      decide_True, decide_False, Bool.true_or, Bool.or_false, if_true, ne_eq,
      not_true_eq_false, if_false, Mbind_Mpure]
    rw [Mbind_of_eq_error _ _ _ _ _ hab]
    simp [List.append_assoc]
  · intro t ns1 n ns2 qd ld e tr flag hnodes hq hl hqn herr
    have hab := getVMsFan_abort_lxc t qd ld ns1 n ns2 [] (tr ++ [⟨"/nodes", "GET", none⟩]) e
      hq hl hqn herr
    simp only [getVMs, bind_def, orStr, Option.getD, Mbind_assoc, Mbind_sendReq, hnodes, jarr,
      decide_True, decide_False, Bool.true_or, Bool.or_false, if_true, ne_eq,
      not_true_eq_false, if_false, Mbind_Mpure]
    rw [Mbind_of_eq_error _ _ _ _ _ hab]
    simp [List.append_assoc]
  · intro t ns1 n ns2 sd e tr flag hnodes hs herr
    have hab := getStorageFan_abort t sd ns1 n ns2 [] (tr ++ [⟨"/nodes", "GET", none⟩]) e hs herr
    simp only [getStorage, bind_def, orStr, Option.getD, Mbind_assoc, Mbind_sendReq, hnodes, jarr,
      decide_True, decide_False, Bool.true_or, Bool.or_false, if_true, ne_eq,
      not_true_eq_false, if_false, Mbind_Mpure]
    rw [Mbind_of_eq_error _ _ _ _ _ hab]
    simp [List.append_assoc]

/-- A transport whose per-node qemu listing fails. -/
def failQemuTransport : Transport := fun p _ _ =>
  if p = "/nodes" then Except.ok (JVal.arr [JVal.obj [("node", JVal.str "pve1")]])
  else Except.error "connection refused"

/-- A transport whose per-node lxc listing fails while the qemu listing
succeeds. -/
def failLxcTransport : Transport := fun p _ _ =>
  if p = "/nodes" then Except.ok (JVal.arr [JVal.obj [("node", JVal.str "pve1")]])
  else if p = "/nodes/pve1/qemu" then Except.ok (JVal.arr [])
  else Except.error "connection refused"

/-- Witness for C6 at a one-node cluster: N+1 storage calls, 2N+1 VM calls
in order, the whole VM listing failing on a qemu sub-request error and on
an lxc sub-request error, and the whole storage listing failing on a
storage sub-request error. -/
theorem C6_fanout_counts_order_tagging_abort_witness :
    (getStorage ⟨false⟩ fanOneNode none []).2.map Req.path = ["/nodes", "/nodes/pve1/storage"] ∧
    (getVMs ⟨false⟩ fanOneNode none none []).2.map Req.path =
      ["/nodes", "/nodes/pve1/qemu", "/nodes/pve1/lxc"] ∧
    getVMs ⟨false⟩ failQemuTransport none none [] =
      (Except.error "connection refused",
        [⟨"/nodes", "GET", none⟩, ⟨"/nodes/pve1/qemu", "GET", none⟩]) ∧
    getVMs ⟨false⟩ failLxcTransport none none [] =
      (Except.error "connection refused",
        [⟨"/nodes", "GET", none⟩, ⟨"/nodes/pve1/qemu", "GET", none⟩,
         ⟨"/nodes/pve1/lxc", "GET", none⟩]) ∧
    getStorage ⟨false⟩ failQemuTransport none [] =
      (Except.error "connection refused",
        [⟨"/nodes", "GET", none⟩, ⟨"/nodes/pve1/storage", "GET", none⟩]) := by
  have hone : ∀ (suffix : String), ∀ n ∈ ["pve1"],
      fanOneNode ("/nodes/" ++ n ++ suffix) "GET" none = Except.ok (JVal.arr []) := by
    intro suffix n hn
    cases List.mem_singleton.mp hn
    rfl
  have ha := C6_fanout_counts_order_tagging_abort.1 fanOneNode ["pve1"]
    (fun _ => JVal.arr []) (fun _ => JVal.arr []) (fun _ => JVal.arr []) [] false false
    rfl (hone "/qemu") (hone "/lxc") (hone "/storage")
  have hb := C6_fanout_counts_order_tagging_abort.2.1 failQemuTransport [] "pve1" []
    (fun _ => JVal.arr []) (fun _ => JVal.arr []) "connection refused" [] false
    rfl (by intro m hm; cases hm) (by intro m hm; cases hm) rfl
  have hc := C6_fanout_counts_order_tagging_abort.2.2.1 failLxcTransport [] "pve1" []
    (fun _ => JVal.arr []) (fun _ => JVal.arr []) "connection refused" [] false
    rfl (by intro m hm; cases hm) (by intro m hm; cases hm) rfl rfl
  have hd := C6_fanout_counts_order_tagging_abort.2.2.2 failQemuTransport [] "pve1" []
    (fun _ => JVal.arr []) "connection refused" [] false
    rfl (by intro m hm; cases hm) rfl
  refine ⟨?_, ?_, ?_, ?_, ?_⟩
  · rw [ha.1.1]
    rfl
  · rw [ha.2.1.1]
    rfl
  · simpa using hb
  · simpa using hc
  · simpa using hd

/-! ## C4: split/join string lemmas for the partial-update merge -/

theorem string_mk_data (s : String) : String.mk s.data = s := by
  cases s
  rfl

theorem jsSplitCharAux_no_sep (sep : Char) :
    ∀ (cs acc : List Char), (∀ c ∈ cs, c ≠ sep) →
      jsSplitCharAux sep cs acc = [String.mk (acc.reverse ++ cs)] := by
  intro cs
  induction cs with
  | nil =>
    intro acc _
    simp [jsSplitCharAux]
  | cons d t ih =>
    intro acc h
    have hd : d ≠ sep := h d (List.mem_cons_self d t)
    simp only [jsSplitCharAux, if_neg hd]
    rw [ih (d :: acc) (fun c hc => h c (List.mem_cons_of_mem d hc))]
    simp

theorem jsSplitChar_no_sep (sep : Char) (s : String) (h : sep ∉ s.data) :
    jsSplitChar sep s = [s] := by
  unfold jsSplitChar
  rw [jsSplitCharAux_no_sep sep s.data [] (fun c hc => by rintro rfl; exact h hc)]
  simp [string_mk_data]

theorem jsSplitCharAux_break (sep : Char) :
    ∀ (xs : List Char) (acc ys : List Char), (∀ c ∈ xs, c ≠ sep) →
      jsSplitCharAux sep (xs ++ sep :: ys) acc =
        String.mk (acc.reverse ++ xs) :: jsSplitCharAux sep ys [] := by
  intro xs
  induction xs with
  | nil =>
    intro acc ys _
    simp [jsSplitCharAux]
  | cons d t ih =>
    intro acc ys h
    have hd : d ≠ sep := h d (List.mem_cons_self d t)
    simp only [List.cons_append, jsSplitCharAux, if_neg hd, List.append_eq]
    rw [ih (d :: acc) ys (fun c hc => h c (List.mem_cons_of_mem d hc))]
    simp

theorem joinSep_split_comma :
    ∀ (l : List String), l ≠ [] → (∀ x ∈ l, ',' ∉ x.data) →
      jsSplitChar ',' (joinSep "," l) = l := by
  intro l
  induction l with
  | nil => intro h _; exact absurd rfl h
  | cons x rest ih =>
    intro _ hfree
    cases rest with
    | nil => exact jsSplitChar_no_sep ',' x (hfree x (List.mem_singleton.mpr rfl))
    | cons x2 rest2 =>
      have hx : ',' ∉ x.data := hfree x (List.mem_cons_self _ _)
      show jsSplitChar ',' ((x ++ ",") ++ joinSep "," (x2 :: rest2)) = x :: x2 :: rest2
      unfold jsSplitChar
      rw [String.data_append, String.data_append]
      have hshape : (x.data ++ ",".data) ++ (joinSep "," (x2 :: rest2)).data =
          x.data ++ ',' :: (joinSep "," (x2 :: rest2)).data := by
        simp
      rw [hshape, jsSplitCharAux_break ',' x.data [] _ (fun c hc => by rintro rfl; exact hx hc)]
      rw [show jsSplitCharAux ',' (joinSep "," (x2 :: rest2)).data [] =
        jsSplitChar ',' (joinSep "," (x2 :: rest2)) from rfl]
      rw [ih (by simp) (fun y hy => hfree y (List.mem_cons_of_mem x hy))]
      simp [string_mk_data]

theorem jsSplitCharAux_chars_subset (sep : Char) :
    ∀ (cs acc : List Char) (x : String), x ∈ jsSplitCharAux sep cs acc →
      ∀ c ∈ x.data, c ∈ acc.reverse ++ cs := by
  intro cs
  induction cs with
  | nil =>
    intro acc x hx c hc
    rcases List.mem_singleton.mp hx with rfl
    simpa using hc
  | cons d t ih =>
    intro acc x hx c hc
    by_cases hd : d = sep
    · subst hd
      simp only [jsSplitCharAux, if_pos rfl] at hx
      rcases List.mem_cons.mp hx with rfl | hx2
      · have : c ∈ acc.reverse := by simpa using hc
        exact List.mem_append_left _ this
      · have := ih [] x hx2 c hc
        simp only [List.reverse_nil, List.nil_append] at this
        exact List.mem_append_right _ (List.mem_cons_of_mem d this)
    · simp only [jsSplitCharAux, if_neg hd] at hx
      have := ih (d :: acc) x hx c hc
      simp only [List.reverse_cons] at this
      rcases List.mem_append.mp this with h1 | h2
      · rcases List.mem_append.mp h1 with h3 | h4
        · exact List.mem_append_left _ h3
        · rcases List.mem_singleton.mp h4 with rfl
          exact List.mem_append_right _ (List.mem_cons_self _ _)
      · exact List.mem_append_right _ (List.mem_cons_of_mem d h2)

theorem jsSplitChar_chars_subset (sep : Char) (s x : String) (hx : x ∈ jsSplitChar sep s) :
    ∀ c ∈ x.data, c ∈ s.data := by
  intro c hc
  have := jsSplitCharAux_chars_subset sep s.data [] x hx c hc
  simpa using this

theorem jsSplitCharAux_sep_free (sep : Char) :
    ∀ (cs acc : List Char), sep ∉ acc → ∀ x ∈ jsSplitCharAux sep cs acc, sep ∉ x.data := by
  intro cs
  induction cs with
  | nil =>
    intro acc hacc x hx
    rcases List.mem_singleton.mp hx with rfl
    simpa using hacc
  | cons d t ih =>
    intro acc hacc x hx
    by_cases hd : d = sep
    · subst hd
      simp only [jsSplitCharAux, if_pos rfl] at hx
      rcases List.mem_cons.mp hx with rfl | hx2
      · simpa using hacc
      · exact ih [] (by simp) x hx2
    · simp only [jsSplitCharAux, if_neg hd] at hx
      exact ih (d :: acc) (by
        intro hmem
        rcases List.mem_cons.mp hmem with h1 | h2
        · exact hd h1.symm
        · exact hacc h2) x hx

theorem jsSplitChar_sep_free (sep : Char) (s x : String) (hx : x ∈ jsSplitChar sep s) :
    sep ∉ x.data :=
  jsSplitCharAux_sep_free sep s.data [] (by simp) x hx

/-! ## C4: partial-update merge of network configuration strings -/

theorem objSet_mem_src (fs : List (String × JVal)) (k : String) (v : JVal)
    (p : String × JVal) (hp : p ∈ objSet fs k v) : p ∈ fs ∨ p = (k, v) := by
  unfold objSet at hp
  split at hp
  · rcases List.mem_map.mp hp with ⟨q, hq, hqe⟩
    by_cases h : q.1 = k
    · rw [if_pos h] at hqe
      exact Or.inr hqe.symm
    · rw [if_neg h] at hqe
      exact Or.inl (hqe ▸ hq)
  · rcases List.mem_append.mp hp with h1 | h2
    · exact Or.inl h1
    · exact Or.inr (List.mem_singleton.mp h2)

theorem objSet_mem_of_ne (fs : List (String × JVal)) (k k2 : String) (v v2 : JVal)
    (hne : k2 ≠ k) : (k2, v2) ∈ objSet fs k v ↔ (k2, v2) ∈ fs := by
  unfold objSet
  split
  · constructor
    · intro hp
      rcases List.mem_map.mp hp with ⟨q, hq, hqe⟩
      by_cases h : q.1 = k
      · rw [if_pos h] at hqe
        exact absurd (congrArg Prod.fst hqe).symm hne
      · rw [if_neg h] at hqe
        exact hqe ▸ hq
    · intro hp
      refine List.mem_map.mpr ⟨(k2, v2), hp, ?_⟩
      rw [if_neg hne]
  · constructor
    · intro hp
      rcases List.mem_append.mp hp with h1 | h2
      · exact h1
      · exact absurd (congrArg Prod.fst (List.mem_singleton.mp h2)) hne
    · intro hp
      exact List.mem_append_left _ hp

/-- The shape invariant of parsed configuration parts: the key is free of
commas and the value is either `undefined` (a valueless flag) or a
comma-free string. -/
def pairCommaFree (p : String × JVal) : Prop :=
  ',' ∉ p.1.data ∧ (p.2 = JVal.undef ∨ ∃ w, p.2 = JVal.str w ∧ ',' ∉ w.data)

theorem parseNetStep_inv (acc : List (String × JVal)) (part : String)
    (hpart : ',' ∉ part.data) (hacc : ∀ p ∈ acc, pairCommaFree p) :
    ∀ p ∈ parseNetStep acc part, pairCommaFree p := by
  intro p hp
  simp only [parseNetStep] at hp
  rcases objSet_mem_src _ _ _ p hp with h1 | h2
  · exact hacc p h1
  · subst h2
    refine ⟨?_, ?_⟩
    · cases hk : (jsSplitChar '=' part).get? 0 with
      | none => simp
      | some x =>
        simp only [Option.getD_some]
        intro hc
        exact hpart (jsSplitChar_chars_subset '=' part x (List.get?_mem hk) ',' hc)
    · cases hv : (jsSplitChar '=' part).get? 1 with
      | none => exact Or.inl rfl
      | some x =>
        exact Or.inr ⟨x, rfl, fun hc =>
          hpart (jsSplitChar_chars_subset '=' part x (List.get?_mem hv) ',' hc)⟩

theorem foldl_parseNetStep_inv :
    ∀ (parts : List String) (acc : List (String × JVal)),
      (∀ part ∈ parts, ',' ∉ part.data) → (∀ p ∈ acc, pairCommaFree p) →
      ∀ p ∈ parts.foldl parseNetStep acc, pairCommaFree p := by
  intro parts
  induction parts with
  | nil =>
    intro acc _ hacc p hp
    exact hacc p hp
  | cons x t ih =>
    intro acc hparts hacc p hp
    simp only [List.foldl_cons] at hp
    exact ih (parseNetStep acc x) (fun q hq => hparts q (List.mem_cons_of_mem x hq))
      (parseNetStep_inv acc x (hparts x (List.mem_cons_self x t)) hacc) p hp

theorem parseNetConfig_pairs (s : String) :
    ∀ p ∈ parseNetConfig s, pairCommaFree p :=
  foldl_parseNetStep_inv (jsSplitChar ',' s) []
    (fun part hpart => jsSplitChar_sep_free ',' s part hpart) (by simp)

theorem objSet_inv (fs : List (String × JVal)) (k : String) (v : JVal)
    (hfs : ∀ p ∈ fs, pairCommaFree p) (hk : ',' ∉ k.data)
    (hv : v = JVal.undef ∨ ∃ w, v = JVal.str w ∧ ',' ∉ w.data) :
    ∀ p ∈ objSet fs k v, pairCommaFree p := by
  intro p hp
  rcases objSet_mem_src fs k v p hp with h1 | h2
  · exact hfs p h1
  · subst h2
    exact ⟨hk, hv⟩

theorem comma_not_in_concat (a b : String) (ha : ',' ∉ a.data) (hb : ',' ∉ b.data) :
    ',' ∉ (a ++ "=" ++ b).data := by
  simp only [String.data_append]
  intro h
  rcases List.mem_append.mp h with h1 | h2
  · rcases List.mem_append.mp h1 with h3 | h4
    · exact ha h3
    · exact absurd h4 (by decide)
  · exact hb h2

theorem serializeNetVM_elem_free (p : String × JVal) (hp : pairCommaFree p) :
    ',' ∉ (if jsTruthy p.2 then p.1 ++ "=" ++ jsTmpl p.2 else p.1).data := by
  split
  · rename_i ht
    rcases hp.2 with h1 | ⟨w, hw, hwf⟩
    · rw [h1] at ht
      exact absurd ht (by decide)
    · rw [hw]
      exact comma_not_in_concat p.1 w hp.1 hwf
  · exact hp.1

theorem serializeNetLXC_elem_free (p : String × JVal) (hp : pairCommaFree p) :
    ',' ∉ (p.1 ++ "=" ++ jsTmpl p.2).data := by
  rcases hp.2 with h1 | ⟨w, hw, hwf⟩
  · rw [h1]
    exact comma_not_in_concat p.1 "undefined" hp.1 (by decide)
  · rw [hw]
    exact comma_not_in_concat p.1 w hp.1 hwf

theorem serializeNetVM_split (parts : List (String × JVal)) (hne : parts ≠ [])
    (hinv : ∀ p ∈ parts, pairCommaFree p) :
    jsSplitChar ',' (serializeNetVM parts) =
      parts.map (fun p => if jsTruthy p.2 then p.1 ++ "=" ++ jsTmpl p.2 else p.1) := by
  unfold serializeNetVM
  apply joinSep_split_comma
  · simpa using hne
  · intro x hx
    rcases List.mem_map.mp hx with ⟨q, hq, hqe⟩
    exact hqe ▸ serializeNetVM_elem_free q (hinv q hq)

theorem serializeNetLXC_split (parts : List (String × JVal)) (hne : parts ≠ [])
    (hinv : ∀ p ∈ parts, pairCommaFree p) :
    jsSplitChar ',' (serializeNetLXC parts) =
      parts.map (fun p => p.1 ++ "=" ++ jsTmpl p.2) := by
  unfold serializeNetLXC
  apply joinSep_split_comma
  · simpa using hne
  · intro x hx
    rcases List.mem_map.mp hx with ⟨q, hq, hqe⟩
    exact hqe ▸ serializeNetLXC_elem_free q (hinv q hq)

/-- A container whose `net0` configuration string holds the valueless flag
`foo` between two `key=value` components. -/
def lxcFlagTransport : Transport := fun _ m _ =>
  if m = "GET" then Except.ok (JVal.obj [("net0", JVal.str "name=eth0,foo,bridge=vmbr0")])
  else Except.ok JVal.null

/-- C4 counterexample: updating only `ip` on an LXC interface whose current
string holds the valueless flag `foo` rebuilds every part as `key=value`
(src/index.js line 3003), so the PUT writes back `foo=undefined`: the
written string no longer holds the flag component `foo`. -/
theorem C4_counterexample_lxc_flag_not_preserved :
    (updateNetworkLXC ⟨true⟩ lxcFlagTransport (some "pve1") (some "100") (some "net0")
        none (some "dhcp") none none []).2 =
      [⟨"/nodes/pve1/lxc/100/config", "GET", none⟩,
       ⟨"/nodes/pve1/lxc/100/config", "PUT",
        some (JVal.obj [("net0", JVal.str "name=eth0,foo=undefined,bridge=vmbr0,ip=dhcp")])⟩] ∧
    "foo" ∈ jsSplitChar ',' "name=eth0,foo,bridge=vmbr0" ∧
    "foo" ∉ jsSplitChar ',' "name=eth0,foo=undefined,bridge=vmbr0,ip=dhcp" :=
  ⟨rfl, by decide, by decide⟩

/-- C4 (amended): with only `bridge` supplied, both update handlers
read-modify-write the one interface string: a single PUT follows the GET and
its value is the serialization of the parsed parts with only `bridge`
overwritten. Every `key=value` component of the previous string not named by
the caller survives verbatim in both handlers (in the VM handler provided
its value is nonempty, falsy values being rebuilt as a bare key); a
valueless flag survives as a bare key in the VM handler, while the LXC
handler rebuilds it as `key=undefined`. -/
theorem C4_bridge_only_update_merge
    (t : Transport) (node vmid net : Option String) (sn vm b fetched : String)
    (cfgQ cfgL hrV hrL : JVal) (tr : Trace)
    (hn : validateNodeName node = Except.ok sn)
    (hv : validateVMID vmid = Except.ok vm)
    (hb : ',' ∉ b.data) (hneF : fetched ≠ "")
    (hgetV : t ("/nodes/" ++ sn ++ "/qemu/" ++ vm ++ "/config") "GET" none = Except.ok cfgQ)
    (hcfgV : jget cfgQ (optKey net) = JVal.str fetched)
    (hputV : ∀ body, t ("/nodes/" ++ sn ++ "/qemu/" ++ vm ++ "/config") "PUT" (some body) =
      Except.ok hrV)
    (hgetL : t ("/nodes/" ++ sn ++ "/lxc/" ++ vm ++ "/config") "GET" none = Except.ok cfgL)
    (hcfgL : jget cfgL (optKey net) = JVal.str fetched)
    (hputL : ∀ body, t ("/nodes/" ++ sn ++ "/lxc/" ++ vm ++ "/config") "PUT" (some body) =
      Except.ok hrL) :
    (∃ env, updateNetworkVM ⟨true⟩ t node vmid net (some b) none none none none tr =
        (Except.ok env,
          tr ++ [⟨"/nodes/" ++ sn ++ "/qemu/" ++ vm ++ "/config", "GET", none⟩]
             ++ [⟨"/nodes/" ++ sn ++ "/qemu/" ++ vm ++ "/config", "PUT",
                  some (JVal.obj [(optKey net, JVal.str (serializeNetVM
                    (objSet (parseNetConfig fetched) "bridge" (JVal.str b))))])⟩])) ∧
    (∀ k v, (k, JVal.str v) ∈ parseNetConfig fetched → k ≠ "bridge" → v ≠ "" →
      (k ++ "=" ++ v) ∈ jsSplitChar ','
        (serializeNetVM (objSet (parseNetConfig fetched) "bridge" (JVal.str b)))) ∧
    (∀ k, (k, JVal.undef) ∈ parseNetConfig fetched → k ≠ "bridge" →
      k ∈ jsSplitChar ','
        (serializeNetVM (objSet (parseNetConfig fetched) "bridge" (JVal.str b)))) ∧
    (∃ env, updateNetworkLXC ⟨true⟩ t node vmid net (some b) none none none tr =
        (Except.ok env,
          tr ++ [⟨"/nodes/" ++ sn ++ "/lxc/" ++ vm ++ "/config", "GET", none⟩]
             ++ [⟨"/nodes/" ++ sn ++ "/lxc/" ++ vm ++ "/config", "PUT",
                  some (JVal.obj [(optKey net, JVal.str (serializeNetLXC
                    (objSet (parseNetConfig fetched) "bridge" (JVal.str b))))])⟩])) ∧
    (∀ k v, (k, JVal.str v) ∈ parseNetConfig fetched → k ≠ "bridge" →
      (k ++ "=" ++ v) ∈ jsSplitChar ','
        (serializeNetLXC (objSet (parseNetConfig fetched) "bridge" (JVal.str b)))) ∧
    (∀ k, (k, JVal.undef) ∈ parseNetConfig fetched → k ≠ "bridge" →
      (k ++ "=" ++ "undefined") ∈ jsSplitChar ','
        (serializeNetLXC (objSet (parseNetConfig fetched) "bridge" (JVal.str b)))) := by
  have hinv : ∀ p ∈ objSet (parseNetConfig fetched) "bridge" (JVal.str b), pairCommaFree p :=
    objSet_inv _ _ _ (parseNetConfig_pairs fetched) (by decide) (Or.inr ⟨b, rfl, hb⟩)
  have htru : jsTruthy (JVal.str fetched) = true := by
    simp [jsTruthy, hneF]
  refine ⟨?_, ?_, ?_, ?_, ?_, ?_⟩
  · simp only [updateNetworkVM, bind_def, hn, hv, if_true, tryCatchE_run, Mbind_liftE_ok,
      Mbind_sendReq, hgetV, hcfgV, htru, Bool.not_true, Bool.false_eq_true, if_false, jsTmpl, overlayNetVM, hputV, Mpure]
    exact ⟨_, rfl⟩
  · intro k v hkv hk hvne
    have mem2 : (k, JVal.str v) ∈ objSet (parseNetConfig fetched) "bridge" (JVal.str b) :=
      (objSet_mem_of_ne _ "bridge" k (JVal.str b) (JVal.str v) hk).mpr hkv
    rw [serializeNetVM_split _ (List.ne_nil_of_mem mem2) hinv]
    refine List.mem_map.mpr ⟨(k, JVal.str v), mem2, ?_⟩
    simp [jsTruthy, jsTmpl, hvne]
  · intro k hkU hk
    have mem2 : (k, JVal.undef) ∈ objSet (parseNetConfig fetched) "bridge" (JVal.str b) :=
      (objSet_mem_of_ne _ "bridge" k (JVal.str b) JVal.undef hk).mpr hkU
    rw [serializeNetVM_split _ (List.ne_nil_of_mem mem2) hinv]
    refine List.mem_map.mpr ⟨(k, JVal.undef), mem2, ?_⟩
    simp [jsTruthy]
  · simp only [updateNetworkLXC, bind_def, hn, hv, if_true, tryCatchE_run, Mbind_liftE_ok,
      Mbind_sendReq, hgetL, hcfgL, htru, Bool.not_true, Bool.false_eq_true, if_false, jsTmpl, overlayNetLXC, hputL, Mpure]
    exact ⟨_, rfl⟩
  · intro k v hkv hk
    have mem2 : (k, JVal.str v) ∈ objSet (parseNetConfig fetched) "bridge" (JVal.str b) :=
      (objSet_mem_of_ne _ "bridge" k (JVal.str b) (JVal.str v) hk).mpr hkv
    rw [serializeNetLXC_split _ (List.ne_nil_of_mem mem2) hinv]
    exact List.mem_map.mpr ⟨(k, JVal.str v), mem2, rfl⟩
  · intro k hkU hk
    have mem2 : (k, JVal.undef) ∈ objSet (parseNetConfig fetched) "bridge" (JVal.str b) :=
      (objSet_mem_of_ne _ "bridge" k (JVal.str b) JVal.undef hk).mpr hkU
    rw [serializeNetLXC_split _ (List.ne_nil_of_mem mem2) hinv]
    exact List.mem_map.mpr ⟨(k, JVal.undef), mem2, rfl⟩

/-- A QEMU/LXC configuration whose `net0` string holds three `key=value`
components. -/
def mergeNetTransport : Transport := fun _ m _ =>
  if m = "GET" then Except.ok (JVal.obj [("net0", JVal.str "virtio=AA,bridge=vmbr0,tag=50")])
  else Except.ok JVal.null

/-- Witness for C4 at concrete inputs: updating only the bridge of `net0`
keeps the untouched `tag=50` component in the written-back string of both
handlers. -/
theorem C4_bridge_only_update_merge_witness :
    ("tag" ++ "=" ++ "50") ∈ jsSplitChar ','
      (serializeNetVM (objSet (parseNetConfig "virtio=AA,bridge=vmbr0,tag=50") "bridge"
        (JVal.str "vmbr1"))) ∧
    ("tag" ++ "=" ++ "50") ∈ jsSplitChar ','
      (serializeNetLXC (objSet (parseNetConfig "virtio=AA,bridge=vmbr0,tag=50") "bridge"
        (JVal.str "vmbr1"))) := by
  have hm : ("tag", JVal.str "50") ∈ parseNetConfig "virtio=AA,bridge=vmbr0,tag=50" := by
    have he : parseNetConfig "virtio=AA,bridge=vmbr0,tag=50" =
        [("virtio", JVal.str "AA"), ("bridge", JVal.str "vmbr0"), ("tag", JVal.str "50")] := rfl
    rw [he]
    exact List.mem_cons_of_mem _ (List.mem_cons_of_mem _ (List.mem_cons_self _ _))
  have h := C4_bridge_only_update_merge mergeNetTransport (some "pve1") (some "100")
    (some "net0") "pve1" "100" "vmbr1" "virtio=AA,bridge=vmbr0,tag=50"
    (JVal.obj [("net0", JVal.str "virtio=AA,bridge=vmbr0,tag=50")])
    (JVal.obj [("net0", JVal.str "virtio=AA,bridge=vmbr0,tag=50")])
    JVal.null JVal.null []
    rfl rfl (by decide) (by decide) rfl rfl (fun _ => rfl) rfl rfl (fun _ => rfl)
  exact ⟨h.2.1 "tag" "50" hm (by decide) (by decide), h.2.2.2.2.1 "tag" "50" hm (by decide)⟩
